import Mathlib

/-!
# nRF52840 peripheral models: a shallow embedding

Definitions follow the C sources function by function.  Machine integers are
natural numbers (or integers for `int64_t` time stamps) with the truncations
of the C code written out.  C arrays are total functions on indices; only the
indices below the declared length are meaningful.
-/

namespace NRF52840

/-! ## Part 1: definitions -/

/-! ### Non-volatile memory: hw/nvram/nrf52840_nvm.c, include/hw/nvram/nrf52840_nvm.h -/

def NRF52840_FICR_FIXTURE_SIZE : Nat := 776
def NRF52840_UICR_FIXTURE_SIZE : Nat := 352
def NRF52840_UICR_PSELRESET_0 : Nat := 0x200
def NRF52840_UICR_PSELRESET_1 : Nat := 0x204
def NRF52840_NVMC_READY : Nat := 0x400
def NRF52840_NVMC_READY_READY : Nat := 0x01
def NRF52840_NVMC_CONFIG : Nat := 0x504
def NRF52840_NVMC_CONFIG_MASK : Nat := 0x03
def NRF52840_NVMC_CONFIG_WEN : Nat := 0x01
def NRF52840_NVMC_CONFIG_EEN : Nat := 0x02
def NRF52840_NVMC_ERASEPCR1 : Nat := 0x508
def NRF52840_NVMC_ERASEPCR0 : Nat := 0x510
def NRF52840_NVMC_ERASEALL : Nat := 0x50C
def NRF52840_NVMC_ERASEUICR : Nat := 0x514
def NRF52840_NVMC_ERASE : Nat := 0x01

/-- Modelled from the spec: `NRF52840_PAGE_SIZE` is declared in hw/arm/nrf52840.h,
which is not among the sources; the specification fixes the flash page at 4 KiB.
It is taken to be a plain `int` constant, as its nRF51 counterpart is. -/
def NRF52840_PAGE_SIZE : Nat := 4096

/-- The fields of `struct NRF52840NVMState` that carry device state.
`storage` is the byte array behind the flash region (`flash_size` bytes),
`ficr_content` and `uicr_content` are arrays of 32-bit words. -/
structure NRF52840NVMState where
  ficr_content : Nat → Nat
  uicr_content : Nat → Nat
  flash_size : Nat
  storage : Nat → Nat
  config : Nat

/-- The effect of `memset(mem + base, c, n)` on a byte array. -/
def memset (mem : Nat → Nat) (base c n : Nat) : Nat → Nat :=
  fun a => if base ≤ a ∧ a < base + n then c else mem a

/-- The effect of `memset(arr, 0xFF, sizeof(arr))` on an array of `n` 32-bit words:
every byte of every word becomes 0xFF. -/
def memset_words_FF (arr : Nat → Nat) (n : Nat) : Nat → Nat :=
  fun i => if i < n then 0xFFFFFFFF else arr i

/-- Little-endian 32-bit load from a byte array (`ldl_le_p`). -/
def ldl_le_p (mem : Nat → Nat) (p : Nat) : Nat :=
  mem p + 256 * mem (p + 1) + 65536 * mem (p + 2) + 16777216 * mem (p + 3)

/-- Little-endian 32-bit store into a byte array (`stl_le_p`). -/
def stl_le_p (mem : Nat → Nat) (p v : Nat) : Nat → Nat :=
  fun a =>
    if a = p then v % 256
    else if a = p + 1 then v / 256 % 256
    else if a = p + 2 then v / 65536 % 256
    else if a = p + 3 then v / 16777216 % 256
    else mem a

/-- The C function `ficr_read`; `none` is the failed `assert`. -/
def ficr_read (s : NRF52840NVMState) (offset : Nat) : Option Nat :=
  if offset < 4 * NRF52840_FICR_FIXTURE_SIZE then some (s.ficr_content (offset / 4)) else none

/-- The C function `ficr_write`: intentionally does nothing. -/
def ficr_write (s : NRF52840NVMState) (_offset _value : Nat) : NRF52840NVMState := s

/-- The C function `uicr_read`; `none` is the failed `assert`. -/
def uicr_read (s : NRF52840NVMState) (offset : Nat) : Option Nat :=
  if offset < 4 * NRF52840_UICR_FIXTURE_SIZE then
    if offset = NRF52840_UICR_PSELRESET_0 ∨ offset = NRF52840_UICR_PSELRESET_1 then some 0
    else some (s.uicr_content (offset / 4))
  else none

/-- The C function `uicr_write`; the 64-bit `value` is truncated by the store into a
`uint32_t`; `none` is the failed `assert`. -/
def uicr_write (s : NRF52840NVMState) (offset value : Nat) : Option NRF52840NVMState :=
  if offset < 4 * NRF52840_UICR_FIXTURE_SIZE then
    some { s with uicr_content :=
             fun i => if i = offset / 4 then value % 4294967296 else s.uicr_content i }
  else none

/-- The C function `io_read` of the NVMC window. -/
def io_read (s : NRF52840NVMState) (offset : Nat) : Nat :=
  if offset = NRF52840_NVMC_READY then NRF52840_NVMC_READY_READY
  else if offset = NRF52840_NVMC_CONFIG then s.config
  else 0

/-- The C function `io_write` of the NVMC window.  `value` is a `uint64_t`;
`~(PAGE_SIZE - 1)` is the sign-extended `int` mask; `flash_size - PAGE_SIZE` is computed
in `uint32_t`. -/
def io_write (s : NRF52840NVMState) (offset value : Nat) : NRF52840NVMState :=
  if offset = NRF52840_NVMC_CONFIG then
    { s with config := value &&& NRF52840_NVMC_CONFIG_MASK }
  else if offset = NRF52840_NVMC_ERASEPCR0 ∨ offset = NRF52840_NVMC_ERASEPCR1 then
    if s.config &&& NRF52840_NVMC_CONFIG_EEN ≠ 0 then
      let value := value &&& (18446744073709551616 - NRF52840_PAGE_SIZE)
      if value ≤ (s.flash_size + 4294967296 - NRF52840_PAGE_SIZE) % 4294967296 then
        { s with storage := memset s.storage value 0xFF NRF52840_PAGE_SIZE }
      else s
    else s
  else if offset = NRF52840_NVMC_ERASEALL then
    if value = NRF52840_NVMC_ERASE then
      if s.config &&& NRF52840_NVMC_CONFIG_EEN ≠ 0 then
        { s with storage := memset s.storage 0 0xFF s.flash_size,
                 uicr_content := memset_words_FF s.uicr_content NRF52840_UICR_FIXTURE_SIZE }
      else s
    else s
  else if offset = NRF52840_NVMC_ERASEUICR then
    if value = NRF52840_NVMC_ERASE then
      { s with uicr_content := memset_words_FF s.uicr_content NRF52840_UICR_FIXTURE_SIZE }
    else s
  else s

/-- The C function `flash_write`, the store trap of the flash region; `none` is the
failed `assert`. -/
def flash_write (s : NRF52840NVMState) (offset value size : Nat) : Option NRF52840NVMState :=
  if s.config &&& NRF52840_NVMC_CONFIG_WEN ≠ 0 then
    if offset + size ≤ s.flash_size then
      let oldval := ldl_le_p s.storage offset
      let oldval := (oldval &&& value) % 4294967296
      some { s with storage := stl_le_p s.storage offset oldval }
    else none
  else some s

/-- The C function `nrf52840_nvm_reset`. -/
def nrf52840_nvm_reset (s : NRF52840NVMState) : NRF52840NVMState :=
  { s with config := 0x00,
           ficr_content := memset_words_FF s.ficr_content NRF52840_FICR_FIXTURE_SIZE,
           uicr_content := memset_words_FF s.uicr_content NRF52840_UICR_FIXTURE_SIZE }

/-- A guest read of one flash word: the region is a ROM device, so loads go
straight to the backing bytes. -/
def flash_read_word (s : NRF52840NVMState) (offset : Nat) : Nat :=
  ldl_le_p s.storage offset

/-! ### Timer: hw/timer/nrf52840_timer.c

The register map lives in include/hw/timer/nrf52840_timer.h and the task/event magic
values in hw/arm/nrf52840.h; neither file is among the sources, so the constants below
are taken from the register table of the specification. -/

/-- Modelled from the spec: number of compare registers (`NRF52840_TIMER_REG_COUNT`). -/
def NRF52840_TIMER_REG_COUNT : Nat := 4
/-- Modelled from the spec: magic value that fires a task (`NRF52840_TRIGGER_TASK`). -/
def NRF52840_TRIGGER_TASK : Nat := 0x01
/-- Modelled from the spec: value that clears an event (`NRF52840_EVENT_CLEAR`). -/
def NRF52840_EVENT_CLEAR : Nat := 0x00
/-- Modelled from the spec: MODE value for timer mode. -/
def NRF52840_TIMER_TIMER : Nat := 0
/-- Modelled from the spec: MODE value for counter mode. -/
def NRF52840_TIMER_COUNTER : Nat := 1
/-- Modelled from the spec: offset of TASK_START. -/
def NRF52840_TIMER_TASK_START : Nat := 0x000
/-- Modelled from the spec: offset of TASK_STOP. -/
def NRF52840_TIMER_TASK_STOP : Nat := 0x004
/-- Modelled from the spec: offset of TASK_COUNT. -/
def NRF52840_TIMER_TASK_COUNT : Nat := 0x008
/-- Modelled from the spec: offset of TASK_CLEAR. -/
def NRF52840_TIMER_TASK_CLEAR : Nat := 0x00C
/-- Modelled from the spec: offset of TASK_SHUTDOWN.  The register table prints 0x008 next
to SHUTDOWN, which is the offset of TASK_COUNT; the two are distinct `case` labels of one
`switch`, so SHUTDOWN takes the next free task slot, 0x010, as on the hardware. -/
def NRF52840_TIMER_TASK_SHUTDOWN : Nat := 0x010
/-- Modelled from the spec: offset of TASK_CAPTURE[0]. -/
def NRF52840_TIMER_TASK_CAPTURE_0 : Nat := 0x040
/-- Modelled from the spec: offset of TASK_CAPTURE[3]. -/
def NRF52840_TIMER_TASK_CAPTURE_3 : Nat := 0x04C
/-- Modelled from the spec: offset of EVENT_COMPARE[0]. -/
def NRF52840_TIMER_EVENT_COMPARE_0 : Nat := 0x140
/-- Modelled from the spec: offset of EVENT_COMPARE[3]. -/
def NRF52840_TIMER_EVENT_COMPARE_3 : Nat := 0x14C
/-- Modelled from the spec: offset of SHORTS. -/
def NRF52840_TIMER_REG_SHORTS : Nat := 0x200
/-- Modelled from the spec: valid SHORTS bits, 0..3 (clear) and 8..11 (stop). -/
def NRF52840_TIMER_REG_SHORTS_MASK : Nat := 0xF0F
/-- Modelled from the spec: offset of INTENSET. -/
def NRF52840_TIMER_REG_INTENSET : Nat := 0x304
/-- Modelled from the spec: offset of INTENCLR. -/
def NRF52840_TIMER_REG_INTENCLR : Nat := 0x308
/-- Modelled from the spec: interrupt enable bits 16..19. -/
def NRF52840_TIMER_REG_INTEN_MASK : Nat := 0xF0000
/-- Modelled from the spec: offset of MODE. -/
def NRF52840_TIMER_REG_MODE : Nat := 0x504
/-- Modelled from the spec: offset of BITMODE. -/
def NRF52840_TIMER_REG_BITMODE : Nat := 0x508
/-- Modelled from the spec: BITMODE holds 0..3. -/
def NRF52840_TIMER_REG_BITMODE_MASK : Nat := 0x03
/-- Modelled from the spec: offset of PRESCALER. -/
def NRF52840_TIMER_REG_PRESCALER : Nat := 0x510
/-- Modelled from the spec: PRESCALER is a 4-bit field. -/
def NRF52840_TIMER_REG_PRESCALER_MASK : Nat := 0x0F
/-- Modelled from the spec: offset of CC[0]. -/
def NRF52840_TIMER_REG_CC0 : Nat := 0x540
/-- Modelled from the spec: offset of CC[3]. -/
def NRF52840_TIMER_REG_CC3 : Nat := 0x54C

def TIMER_CLK_FREQ : Nat := 64000000
def NANOSECONDS_PER_SECOND : Nat := 1000000000
def INT64_MAX : Int := 9223372036854775807

/-- The table `bitwidths[] = {16, 8, 24, 32}`; an index above 3 is outside the C array
(it cannot be produced by a BITMODE write) and yields 0 here. -/
def bitwidths (bitmode : Nat) : Nat := [16, 8, 24, 32].getD bitmode 0

/-- The macro `BIT(nr)`, that is `1UL << nr` on a 64-bit `unsigned long`
(used with `nr ≤ 32`). -/
def BIT (nr : Nat) : Nat := 2 ^ nr

/-- The helper `extract32(value, start, length)`:
`(value >> start) & (~0U >> (32 - length))`. -/
def extract32 (value start length : Nat) : Nat :=
  (value >>> start) &&& (0xFFFFFFFF >>> (32 - length))

/-- The helper `muldiv64(a, b, c)`: the low 64 bits of `floor(a * b / c)`, the product
taken at full width.  The C function traps when `c = 0`; every caller below divides by
`NANOSECONDS_PER_SECOND` or by `TIMER_CLK_FREQ >> prescaler`, which is non-zero
whenever `prescaler ≤ 25` (the PRESCALER register holds at most 15). -/
def muldiv64 (a b c : Nat) : Nat := (a * b / c) % 18446744073709551616

/-- Writing `v` at index `i` of a C array. -/
def array_set (arr : Nat → Nat) (i v : Nat) : Nat → Nat :=
  fun j => if j = i then v else arr j

/-- The fields of `struct NRF52840TimerState` that carry device state.
`timer` is the pending deadline of the host timer (`none` when it is not armed),
`irq` the level last driven on the interrupt line.  Time stamps are integers
(nanoseconds of the virtual clock); sums and differences of time stamps are exact, the
conversion to `uint64_t` in `ns_to_ticks` is the only place where they are reduced. -/
structure NRF52840TimerState where
  timer : Option Int
  irq : Bool
  timer_start_ns : Int
  update_counter_ns : Int
  counter : Nat
  running : Bool
  events_compare : Nat → Nat
  cc : Nat → Nat
  shorts : Nat
  inten : Nat
  mode : Nat
  bitmode : Nat
  prescaler : Nat

/-- The C function `ns_to_ticks`: the `int64_t` argument is converted to `uint64_t` for
`muldiv64`, the result is truncated to `uint32_t`. -/
def ns_to_ticks (s : NRF52840TimerState) (ns : Int) : Nat :=
  let freq := (TIMER_CLK_FREQ >>> s.prescaler) % 4294967296
  muldiv64 (ns % 18446744073709551616).toNat freq NANOSECONDS_PER_SECOND % 4294967296

/-- The C function `ticks_to_ns`: the argument is truncated to `uint32_t`; the result is
below 2^62, so its conversion to `int64_t` is exact. -/
def ticks_to_ns (s : NRF52840TimerState) (ticks : Nat) : Int :=
  let freq := (TIMER_CLK_FREQ >>> s.prescaler) % 4294967296
  ((muldiv64 (ticks % 4294967296) NANOSECONDS_PER_SECOND freq : Nat) : Int)

/-- The C function `update_counter`: returns the new state and the number of ticks since
the last call.  The sum `counter + ticks` is a `uint32_t` sum. -/
def update_counter (s : NRF52840TimerState) (now : Int) : NRF52840TimerState × Nat :=
  let ticks := ns_to_ticks s (now - s.update_counter_ns)
  ({ s with counter := (s.counter + ticks) % 4294967296 % BIT (bitwidths s.bitmode),
            update_counter_ns := now }, ticks)

/-- The distance `BIT(bitwidths[bitmode]) - counter + cc[i]`, computed in `unsigned long`. -/
def wrap_distance (s : NRF52840TimerState) (i : Nat) : Nat :=
  (BIT (bitwidths s.bitmode) + 18446744073709551616 - s.counter + s.cc i)
    % 18446744073709551616

/-- One iteration of the loop of `rearm_timer`, `min_ns` being the accumulator. -/
def rearm_timer_iter (s : NRF52840TimerState) (min_ns : Int) (i : Nat) : Int :=
  if s.events_compare i ≠ 0 then min_ns
  else
    let delta_ns :=
      if s.cc i ≤ s.counter then ticks_to_ns s (wrap_distance s i)
      else ticks_to_ns s (s.cc i - s.counter)
    if delta_ns < min_ns then delta_ns else min_ns

/-- The C function `rearm_timer` (assumes `counter` is up to date). -/
def rearm_timer (s : NRF52840TimerState) (now : Int) : NRF52840TimerState :=
  let min_ns := (List.range NRF52840_TIMER_REG_COUNT).foldl (rearm_timer_iter s) INT64_MAX
  if min_ns ≠ INT64_MAX then { s with timer := some (now + min_ns) } else s

/-- One iteration of the loop of `update_irq`. -/
def update_irq_iter (s : NRF52840TimerState) (flag : Bool) (i : Nat) : Bool :=
  flag || (decide (s.events_compare i ≠ 0) && decide (extract32 s.inten (16 + i) 1 ≠ 0))

/-- The C function `update_irq`: drives the interrupt line. -/
def update_irq (s : NRF52840TimerState) : NRF52840TimerState :=
  { s with irq := (List.range NRF52840_TIMER_REG_COUNT).foldl (update_irq_iter s) false }

/-- The first loop of `timer_expire`: `cc_remaining[i]`, a `uint32_t`. -/
def cc_remaining (s : NRF52840TimerState) (i : Nat) : Nat :=
  if s.cc i > s.counter then (s.cc i - s.counter) % 4294967296
  else wrap_distance s i % 4294967296

/-- One iteration of the second loop of `timer_expire`; the accumulator is the state
together with `should_stop`. -/
def timer_expire_iter (now : Int) (remaining : Nat → Nat) (ticks : Nat)
    (acc : NRF52840TimerState × Bool) (i : Nat) : NRF52840TimerState × Bool :=
  if remaining i ≤ ticks then
    let s1 := { acc.1 with events_compare := array_set acc.1.events_compare i 1 }
    let s2 := if s1.shorts &&& BIT i ≠ 0 then
        { s1 with timer_start_ns := now, update_counter_ns := now, counter := 0 }
      else s1
    (s2, acc.2 || decide (s2.shorts &&& BIT (i + 8) ≠ 0))
  else acc

/-- The C function `timer_expire`, at virtual-clock time `now`. -/
def timer_expire (s : NRF52840TimerState) (now : Int) : NRF52840TimerState :=
  let remaining := cc_remaining s
  let upd := update_counter s now
  let acc := (List.range NRF52840_TIMER_REG_COUNT).foldl
    (timer_expire_iter now remaining upd.2) (upd.1, false)
  let s1 := update_irq acc.1
  if acc.2 then { s1 with running := false, timer := none }
  else rearm_timer s1 now

/-- One iteration of the loop of `counter_compare`; `counter` is the value saved on entry. -/
def counter_compare_iter (counter : Nat) (s : NRF52840TimerState) (i : Nat) :
    NRF52840TimerState :=
  if counter = s.cc i then
    let s1 := { s with events_compare := array_set s.events_compare i 1 }
    if s1.shorts &&& BIT i ≠ 0 then { s1 with counter := 0 } else s1
  else s

/-- The C function `counter_compare`. -/
def counter_compare (s : NRF52840TimerState) : NRF52840TimerState :=
  (List.range NRF52840_TIMER_REG_COUNT).foldl (counter_compare_iter s.counter) s

/-- The C function `nrf52840_timer_read`. -/
def nrf52840_timer_read (s : NRF52840TimerState) (offset : Nat) : Nat :=
  if NRF52840_TIMER_EVENT_COMPARE_0 ≤ offset ∧ offset ≤ NRF52840_TIMER_EVENT_COMPARE_3 then
    s.events_compare ((offset - NRF52840_TIMER_EVENT_COMPARE_0) / 4)
  else if offset = NRF52840_TIMER_REG_SHORTS then s.shorts
  else if offset = NRF52840_TIMER_REG_INTENSET then s.inten
  else if offset = NRF52840_TIMER_REG_INTENCLR then s.inten
  else if offset = NRF52840_TIMER_REG_MODE then s.mode
  else if offset = NRF52840_TIMER_REG_BITMODE then s.bitmode
  else if offset = NRF52840_TIMER_REG_PRESCALER then s.prescaler
  else if NRF52840_TIMER_REG_CC0 ≤ offset ∧ offset ≤ NRF52840_TIMER_REG_CC3 then
    s.cc ((offset - NRF52840_TIMER_REG_CC0) / 4)
  else 0

/-- The body of `case NRF52840_TIMER_TASK_START`. -/
def timer_write_task_start (s : NRF52840TimerState) (value : Nat) (now : Int) :
    NRF52840TimerState :=
  if value = NRF52840_TRIGGER_TASK ∧ s.mode = NRF52840_TIMER_TIMER then
    rearm_timer
      { s with running := true,
               timer_start_ns := now - ticks_to_ns s s.counter,
               update_counter_ns := now - ticks_to_ns s s.counter } now
  else s

/-- The body of `case NRF52840_TIMER_TASK_STOP: case NRF52840_TIMER_TASK_SHUTDOWN`. -/
def timer_write_task_stop (s : NRF52840TimerState) (value : Nat) : NRF52840TimerState :=
  if value = NRF52840_TRIGGER_TASK then { s with running := false, timer := none } else s

/-- The body of `case NRF52840_TIMER_TASK_COUNT`; the increment is a `uint32_t` sum. -/
def timer_write_task_count (s : NRF52840TimerState) (value : Nat) : NRF52840TimerState :=
  if value = NRF52840_TRIGGER_TASK ∧ s.mode = NRF52840_TIMER_COUNTER then
    counter_compare
      { s with counter := (s.counter + 1) % 4294967296 % BIT (bitwidths s.bitmode) }
  else s

/-- The body of `case NRF52840_TIMER_TASK_CLEAR`. -/
def timer_write_task_clear (s : NRF52840TimerState) (value : Nat) (now : Int) :
    NRF52840TimerState :=
  if value = NRF52840_TRIGGER_TASK then
    if s.running then
      rearm_timer { s with timer_start_ns := now, update_counter_ns := now, counter := 0 } now
    else { s with timer_start_ns := now, update_counter_ns := now, counter := 0 }
  else s

/-- The state after the optional `if (s->running) timer_expire(s);`. -/
def timer_sync (s : NRF52840TimerState) (now : Int) : NRF52840TimerState :=
  if s.running then timer_expire s now else s

/-- The body of `case NRF52840_TIMER_TASK_CAPTURE_0 ... NRF52840_TIMER_TASK_CAPTURE_3`. -/
def timer_write_task_capture (s : NRF52840TimerState) (offset value : Nat) (now : Int) :
    NRF52840TimerState :=
  if value = NRF52840_TRIGGER_TASK then
    { timer_sync s now with
      cc := array_set (timer_sync s now).cc ((offset - NRF52840_TIMER_TASK_CAPTURE_0) / 4)
              (timer_sync s now).counter }
  else s

/-- The body of `case NRF52840_TIMER_EVENT_COMPARE_0 ... NRF52840_TIMER_EVENT_COMPARE_3`:
the flag is cleared first, then the running timer is reconciled. -/
def timer_write_event_compare (s : NRF52840TimerState) (offset value : Nat) (now : Int) :
    NRF52840TimerState :=
  if value = NRF52840_EVENT_CLEAR then
    timer_sync
      { s with events_compare :=
          array_set s.events_compare ((offset - NRF52840_TIMER_EVENT_COMPARE_0) / 4) 0 } now
  else s

/-- The state of `case NRF52840_TIMER_REG_CC0 ... NRF52840_TIMER_REG_CC3` after the
assignment to `cc[idx]`. -/
def timer_write_cc_store (s : NRF52840TimerState) (offset value : Nat) (now : Int) :
    NRF52840TimerState :=
  { timer_sync s now with
    cc := array_set (timer_sync s now).cc ((offset - NRF52840_TIMER_REG_CC0) / 4)
            (value % BIT (bitwidths (timer_sync s now).bitmode)) }

/-- The body of `case NRF52840_TIMER_REG_CC0 ... NRF52840_TIMER_REG_CC3`. -/
def timer_write_cc (s : NRF52840TimerState) (offset value : Nat) (now : Int) :
    NRF52840TimerState :=
  if (timer_write_cc_store s offset value now).running then
    rearm_timer (timer_write_cc_store s offset value now) now
  else timer_write_cc_store s offset value now

/-- The `switch` of `nrf52840_timer_write`, before the closing `update_irq`. -/
def nrf52840_timer_write_switch (s : NRF52840TimerState) (offset value : Nat) (now : Int) :
    NRF52840TimerState :=
  if offset = NRF52840_TIMER_TASK_START then timer_write_task_start s value now
  else if offset = NRF52840_TIMER_TASK_STOP ∨ offset = NRF52840_TIMER_TASK_SHUTDOWN then
    timer_write_task_stop s value
  else if offset = NRF52840_TIMER_TASK_COUNT then timer_write_task_count s value
  else if offset = NRF52840_TIMER_TASK_CLEAR then timer_write_task_clear s value now
  else if NRF52840_TIMER_TASK_CAPTURE_0 ≤ offset ∧ offset ≤ NRF52840_TIMER_TASK_CAPTURE_3 then
    timer_write_task_capture s offset value now
  else if NRF52840_TIMER_EVENT_COMPARE_0 ≤ offset ∧ offset ≤ NRF52840_TIMER_EVENT_COMPARE_3 then
    timer_write_event_compare s offset value now
  else if offset = NRF52840_TIMER_REG_SHORTS then
    { s with shorts := value &&& NRF52840_TIMER_REG_SHORTS_MASK }
  else if offset = NRF52840_TIMER_REG_INTENSET then
    { s with inten := s.inten ||| (value &&& NRF52840_TIMER_REG_INTEN_MASK) }
  else if offset = NRF52840_TIMER_REG_INTENCLR then
    { s with inten :=
        s.inten &&& (18446744073709551615 ^^^ (value &&& NRF52840_TIMER_REG_INTEN_MASK)) }
  else if offset = NRF52840_TIMER_REG_MODE then
    { s with mode := value % 4294967296 }
  else if offset = NRF52840_TIMER_REG_BITMODE then
    { s with bitmode := value &&& NRF52840_TIMER_REG_BITMODE_MASK }
  else if offset = NRF52840_TIMER_REG_PRESCALER then
    { s with prescaler := value &&& NRF52840_TIMER_REG_PRESCALER_MASK }
  else if NRF52840_TIMER_REG_CC0 ≤ offset ∧ offset ≤ NRF52840_TIMER_REG_CC3 then
    timer_write_cc s offset value now
  else s

/-- The C function `nrf52840_timer_write`, at virtual-clock time `now`. -/
def nrf52840_timer_write (s : NRF52840TimerState) (offset value : Nat) (now : Int) :
    NRF52840TimerState :=
  update_irq (nrf52840_timer_write_switch s offset value now)

/-- The C function `nrf52840_timer_reset`; the interrupt line is not driven here. -/
def nrf52840_timer_reset (s : NRF52840TimerState) : NRF52840TimerState :=
  { s with timer := none, timer_start_ns := 0, update_counter_ns := 0, counter := 0,
           running := false,
           events_compare :=
             (fun i => if i < NRF52840_TIMER_REG_COUNT then 0 else s.events_compare i),
           cc := (fun i => if i < NRF52840_TIMER_REG_COUNT then 0 else s.cc i),
           shorts := 0, inten := 0, mode := 0, bitmode := 0, prescaler := 0 }

/-- The device as allocated: zero-filled object, host timer not armed, line low. -/
def timer_zero_state : NRF52840TimerState :=
  { timer := none, irq := false, timer_start_ns := 0, update_counter_ns := 0, counter := 0,
    running := false, events_compare := fun _ => 0, cc := fun _ => 0,
    shorts := 0, inten := 0, mode := 0, bitmode := 0, prescaler := 0 }

/-- The reset state of the timer: the freshly allocated device after `nrf52840_timer_reset`. -/
def timer_reset_state : NRF52840TimerState := nrf52840_timer_reset timer_zero_state

/-- What can happen to a timer: a guest MMIO write, or the host timer firing,
each at some time of the virtual clock. -/
inductive TimerEvent where
  | write (offset value : Nat) (now : Int)
  | expire (now : Int)

/-- One event.  When the host timer fires it is no longer pending while its callback
`timer_expire` runs. -/
def timer_step (s : NRF52840TimerState) : TimerEvent → NRF52840TimerState
  | .write offset value now => nrf52840_timer_write s offset value now
  | .expire now => timer_expire { s with timer := none } now

/-- A sequence of events, applied in order. -/
def timer_run (s : NRF52840TimerState) (evs : List TimerEvent) : NRF52840TimerState :=
  evs.foldl timer_step s

/-- The condition on a single event that the range invariant needs: a BITMODE write
must find the stored counter below 2^bitwidth of the bit mode being selected. -/
def bitmode_write_fits (s : NRF52840TimerState) : TimerEvent → Prop
  | .write offset value _ =>
      offset = NRF52840_TIMER_REG_BITMODE →
        s.counter < BIT (bitwidths (value &&& NRF52840_TIMER_REG_BITMODE_MASK))
  | .expire _ => True

/-- Every BITMODE write of the trace, run from `s`, satisfies `bitmode_write_fits`. -/
def bitmode_writes_fit (s : NRF52840TimerState) : List TimerEvent → Prop
  | [] => True
  | e :: es => bitmode_write_fits s e ∧ bitmode_writes_fit (timer_step s e) es

/-! ### States used in the worked examples -/

/-- An erased flash with WEN set: the starting point of the NOR-store scenario. -/
def nvm_erased_wen : NRF52840NVMState :=
  { ficr_content := fun _ => 0xFFFFFFFF, uicr_content := fun _ => 0xFFFFFFFF,
    flash_size := 0x40000, storage := fun _ => 0xFF, config := 1 }

/-- An erased flash after reset (config = 0): stores are not enabled. -/
def nvm_erased_locked : NRF52840NVMState :=
  { ficr_content := fun _ => 0xFFFFFFFF, uicr_content := fun _ => 0xFFFFFFFF,
    flash_size := 0x40000, storage := fun _ => 0xFF, config := 0 }

/-- A 256 KiB flash filled with zero bytes, EEN set. -/
def nvm_zeroed_een : NRF52840NVMState :=
  { ficr_content := fun _ => 0xFFFFFFFF, uicr_content := fun _ => 0xFFFFFFFF,
    flash_size := 0x40000, storage := fun _ => 0, config := 2 }

/-- A flash holding data while only WEN is set. -/
def nvm_zeroed_wen : NRF52840NVMState :=
  { ficr_content := fun _ => 0xFFFFFFFF, uicr_content := fun _ => 0,
    flash_size := 0x40000, storage := fun _ => 0, config := 1 }

/-- The trace START at time 0, CAPTURE[0] and STOP one millisecond later, then
BITMODE := 1 while the timer is stopped. -/
def timer_narrowing_trace : List TimerEvent :=
  [.write NRF52840_TIMER_TASK_START 1 0,
   .write NRF52840_TIMER_TASK_CAPTURE_0 1 1000000,
   .write NRF52840_TIMER_TASK_STOP 1 1000000,
   .write NRF52840_TIMER_REG_BITMODE 1 1000000]

/-- The trace BITMODE := 1 (8 bits) on the reset state, START at time 0 (which arms the
host timer for 4000 ns), CAPTURE[0] at 1000 ns, host-timer expiry at 4000 ns. -/
def timer_fitting_trace : List TimerEvent :=
  [.write NRF52840_TIMER_REG_BITMODE 1 0,
   .write NRF52840_TIMER_TASK_START 1 0,
   .write NRF52840_TIMER_TASK_CAPTURE_0 1 1000,
   .expire 4000]

/-! ### Invariants of the timer -/

/-- The interrupt line agrees with the enabled compare events. -/
def irq_matches (s : NRF52840TimerState) : Prop :=
  s.irq = true ↔ ∃ i, i < 4 ∧ s.events_compare i ≠ 0 ∧ s.inten.testBit (16 + i) = true

/-- The stored counter fits the selected width, and the bit mode indexes the table. -/
def range_ok (s : NRF52840TimerState) : Prop :=
  s.counter < 2 ^ bitwidths s.bitmode ∧ s.bitmode < 4

/-- The state of `timer_expire` after its second loop, with `should_stop`. -/
def timer_expire_loop (s : NRF52840TimerState) (now : Int) : NRF52840TimerState × Bool :=
  (List.range NRF52840_TIMER_REG_COUNT).foldl
    (timer_expire_iter now (cc_remaining s) (update_counter s now).2)
    ((update_counter s now).1, false)

/-- Every compare register fits the selected width. -/
def cc_ok (s : NRF52840TimerState) : Prop :=
  ∀ i, i < 4 → s.cc i < 2 ^ bitwidths s.bitmode

/-- The condition on a single event that the CC invariant needs: a BITMODE write must
find the stored counter and the four compare registers below 2^bitwidth of the bit mode
being selected. -/
def bitmode_write_fits_cc (s : NRF52840TimerState) : TimerEvent → Prop
  | .write offset value _ =>
      offset = NRF52840_TIMER_REG_BITMODE →
        s.counter < BIT (bitwidths (value &&& NRF52840_TIMER_REG_BITMODE_MASK)) ∧
        ∀ i, i < 4 → s.cc i < BIT (bitwidths (value &&& NRF52840_TIMER_REG_BITMODE_MASK))
  | .expire _ => True

/-- Every BITMODE write of the trace, run from `s`, satisfies `bitmode_write_fits_cc`. -/
def bitmode_writes_fit_cc (s : NRF52840TimerState) : List TimerEvent → Prop
  | [] => True
  | e :: es => bitmode_write_fits_cc s e ∧ bitmode_writes_fit_cc (timer_step s e) es

/-- The trace CC[0] := 60000 (16-bit mode), then BITMODE := 1, on a stopped timer. -/
def timer_cc_narrowing_trace : List TimerEvent :=
  [.write NRF52840_TIMER_REG_CC0 60000 0,
   .write NRF52840_TIMER_REG_BITMODE 1 0]

/-- The trace BITMODE := 1 (8 bits), CC[2] := 1000 (stored as 232), START at time 0,
CAPTURE[0] at 1000 ns (64 ticks). -/
def timer_cc_fitting_trace : List TimerEvent :=
  [.write NRF52840_TIMER_REG_BITMODE 1 0,
   .write (NRF52840_TIMER_REG_CC0 + 8) 1000 0,
   .write NRF52840_TIMER_TASK_START 1 0,
   .write NRF52840_TIMER_TASK_CAPTURE_0 1 1000]

/-- A timer state as left by an earlier session of use: the reset state after
INTENSET := 0x10000, START at time 0 and the host-timer expiry one full 16-bit wrap
(65536 ticks, 1024000 ns) later; all four compare events are set and the line is high. -/
def timer_irq_high_state : NRF52840TimerState :=
  timer_run timer_reset_state
    [.write NRF52840_TIMER_REG_INTENSET 0x10000 0,
     .write NRF52840_TIMER_TASK_START 1 0,
     .expire 1024000]

/-- The trace START at time 0 and the host-timer expiry one full 16-bit wrap later (all
four events set, nothing left to arm), then EVENT_COMPARE[0] := 0 another full wrap
later. -/
def timer_event_clear_trace : List TimerEvent :=
  [.write NRF52840_TIMER_TASK_START 1 0,
   .expire 1024000,
   .write NRF52840_TIMER_EVENT_COMPARE_0 0 2048000]

/-- A stopped timer in timer mode holding counter = 100 (16-bit mode, prescaler 0):
the reset state after START at time 0, CAPTURE[0] at 1563 ns (100 ticks) and STOP. -/
def timer_stopped_at_100 : NRF52840TimerState :=
  timer_run timer_reset_state
    [.write NRF52840_TIMER_TASK_START 1 0,
     .write NRF52840_TIMER_TASK_CAPTURE_0 1 1563,
     .write NRF52840_TIMER_TASK_STOP 1 1563]

/-- The host timer firing at each deadline the model schedules, in order, up to and
including time `t_end`; each expiry runs at exactly its deadline.  The result is `none`
when `fuel` expiries were not enough to get past `t_end`. -/
def timer_fire_due : Nat → NRF52840TimerState → Int → Option NRF52840TimerState
  | 0, s, t_end =>
    match s.timer with
    | some d => if d ≤ t_end then none else some s
    | none => some s
  | fuel + 1, s, t_end =>
    match s.timer with
    | some d => if d ≤ t_end then timer_fire_due fuel (timer_step s (.expire d)) t_end else some s
    | none => some s

/-- The writes of the one-shot scenario, all at time `t0`: PRESCALER := 4, BITMODE := 3,
CC[0] := n, INTENSET := 0x10000, TASK_START := 1. -/
def timer_one_shot_writes (n : Nat) (t0 : Int) : List TimerEvent :=
  [.write NRF52840_TIMER_REG_PRESCALER 4 t0,
   .write NRF52840_TIMER_REG_BITMODE 3 t0,
   .write NRF52840_TIMER_REG_CC0 n t0,
   .write NRF52840_TIMER_REG_INTENSET 0x10000 t0,
   .write NRF52840_TIMER_TASK_START 1 t0]

/-- The writes of the shortcut-clear scenario, all at time `t0`: PRESCALER := 0,
BITMODE := 3, CC[1] := 100, SHORTS := 0x2, TASK_START := 1. -/
def timer_short_clear_writes (t0 : Int) : List TimerEvent :=
  [.write NRF52840_TIMER_REG_PRESCALER 0 t0,
   .write NRF52840_TIMER_REG_BITMODE 3 t0,
   .write (NRF52840_TIMER_REG_CC0 + 4) 100 t0,
   .write NRF52840_TIMER_REG_SHORTS 0x2 t0,
   .write NRF52840_TIMER_TASK_START 1 t0]

/-- The value of `min_ns` at the end of the loop of `rearm_timer`. -/
def rearm_min (s : NRF52840TimerState) : Int :=
  (List.range NRF52840_TIMER_REG_COUNT).foldl (rearm_timer_iter s) INT64_MAX

/-- The state of `timer_expire` before `update_irq` when no shortcut is enabled: the
counter is advanced, the anchor moved to `now`, and the compare events reached within the
elapsed ticks are set. -/
def timer_expire_plain (s : NRF52840TimerState) (now : Int) : NRF52840TimerState :=
  { s with counter := (update_counter s now).1.counter,
           update_counter_ns := now,
           events_compare := fun j =>
             if j < 4 ∧ cc_remaining s j ≤ (update_counter s now).2 then 1
             else s.events_compare j }

/-! ### RTC: hw/rtc/nrf52840_rtc.c, include/hw/rtc/nrf52840_rtc.h

The static functions of the RTC carry the same names as those of the timer; they live in
the namespace `RTC`.  `BIT`, `muldiv64`, `extract32`, `array_set`, the task and event
magic values and `INT64_MAX` are shared with the timer. -/

namespace RTC

def NRF52840_RTC_REG_COUNT : Nat := 4
def NRF52840_RTC_TASK_START : Nat := 0x000
def NRF52840_RTC_TASK_STOP : Nat := 0x004
def NRF52840_RTC_TASK_CLEAR : Nat := 0x008
def NRF52840_RTC_TASK_TRIGOVRFLW : Nat := 0x00C
def NRF52840_RTC_EVENT_TICK : Nat := 0x100
def NRF52840_RTC_EVENT_OVRFLW : Nat := 0x104
def NRF52840_RTC_EVENT_COMPARE_0 : Nat := 0x140
def NRF52840_RTC_EVENT_COMPARE_1 : Nat := 0x144
def NRF52840_RTC_EVENT_COMPARE_2 : Nat := 0x148
def NRF52840_RTC_EVENT_COMPARE_3 : Nat := 0x14C
def NRF52840_RTC_REG_INTENSET : Nat := 0x304
def NRF52840_RTC_REG_INTENCLR : Nat := 0x308
def NRF52840_RTC_REG_INTEN_MASK : Nat := 0xF0003
def NRF52840_RTC_REG_EVTEN : Nat := 0x340
def NRF52840_RTC_REG_EVTENSET : Nat := 0x344
def NRF52840_RTC_REG_EVTENCLR : Nat := 0x348
def NRF52840_RTC_REG_COUNTER : Nat := 0x504
def NRF52840_RTC_REG_PRESCALER : Nat := 0x508
def NRF52840_RTC_REG_PRESCALER_MASK : Nat := 0xFFF
def NRF52840_RTC_REG_CC0 : Nat := 0x540
def NRF52840_RTC_REG_CC1 : Nat := 0x544
def NRF52840_RTC_REG_CC2 : Nat := 0x548
def NRF52840_RTC_REG_CC3 : Nat := 0x54C

def TIMER_CLK_FREQ : Nat := 32768
def COUNTER_BITWIDTH : Nat := 24

/-- The fields of `struct NRF52840RTCState` that carry device state.  `timer` is the
pending deadline of the host timer (`none` when it is not armed), `irq` the level last
driven on the interrupt line; time stamps are integers, as for the timer. -/
structure NRF52840RTCState where
  timer : Option Int
  irq : Bool
  update_counter_ns : Int
  counter : Nat
  running : Bool
  events_compare : Nat → Nat
  cc : Nat → Nat
  inten : Nat
  prescaler : Nat

/-- The local `freq` of `ns_to_ticks` and `ticks_to_ns`: `TIMER_CLK_FREQ >> s->prescaler`
stored in a `uint32_t`.  It is 0 for every prescaler from 16 to 63.  From 64 on the C
shift is undefined (compiled code may shift by the low six bits of the prescaler); the
value 0 given here for those prescalers is the mathematical shift only. -/
def clk_freq (s : NRF52840RTCState) : Nat :=
  (TIMER_CLK_FREQ >>> s.prescaler) % 4294967296

/-- The C function `ns_to_ticks`: the `int64_t` argument is converted to `uint64_t` for
`muldiv64`, the result is truncated to `uint32_t`. -/
def ns_to_ticks (s : NRF52840RTCState) (ns : Int) : Nat :=
  muldiv64 (ns % 18446744073709551616).toNat (clk_freq s) NANOSECONDS_PER_SECOND % 4294967296

/-- The C function `ticks_to_ns`: the argument is truncated to `uint32_t`.  The C
division traps when `clk_freq` is 0 (prescaler 16 and above); the quotient is 0 here, so
the functions built on this one describe the code only up to such a trap.  The trap
itself is modelled by `rtc_ticks_to_ns_checked`. -/
def ticks_to_ns (s : NRF52840RTCState) (ticks : Nat) : Int :=
  ((muldiv64 (ticks % 4294967296) NANOSECONDS_PER_SECOND (clk_freq s) : Nat) : Int)

/-- The C function `update_counter`: returns the new state and the number of ticks since
the last call. -/
def update_counter (s : NRF52840RTCState) (now : Int) : NRF52840RTCState × Nat :=
  let ticks := ns_to_ticks s (now - s.update_counter_ns)
  ({ s with counter := (s.counter + ticks) % 4294967296 % BIT COUNTER_BITWIDTH,
            update_counter_ns := now }, ticks)

/-- The distance `BIT(COUNTER_BITWIDTH) - counter + cc[i]`, computed in `unsigned long`. -/
def wrap_distance (s : NRF52840RTCState) (i : Nat) : Nat :=
  (BIT COUNTER_BITWIDTH + 18446744073709551616 - s.counter + s.cc i) % 18446744073709551616

/-- One iteration of the loop of `rearm_timer`, `min_ns` being the accumulator. -/
def rearm_timer_iter (s : NRF52840RTCState) (min_ns : Int) (i : Nat) : Int :=
  if s.events_compare i ≠ 0 then min_ns
  else
    let delta_ns :=
      if s.cc i ≤ s.counter then ticks_to_ns s (wrap_distance s i)
      else ticks_to_ns s (s.cc i - s.counter)
    if delta_ns < min_ns then delta_ns else min_ns

/-- The C function `rearm_timer` (assumes `counter` is up to date). -/
def rearm_timer (s : NRF52840RTCState) (now : Int) : NRF52840RTCState :=
  let min_ns := (List.range NRF52840_RTC_REG_COUNT).foldl (rearm_timer_iter s) INT64_MAX
  if min_ns ≠ INT64_MAX then { s with timer := some (now + min_ns) } else s

/-- One iteration of the loop of `update_irq`. -/
def update_irq_iter (s : NRF52840RTCState) (flag : Bool) (i : Nat) : Bool :=
  flag || (decide (s.events_compare i ≠ 0) && decide (extract32 s.inten (16 + i) 1 ≠ 0))

/-- The C function `update_irq`: drives the interrupt line. -/
def update_irq (s : NRF52840RTCState) : NRF52840RTCState :=
  { s with irq := (List.range NRF52840_RTC_REG_COUNT).foldl (update_irq_iter s) false }

/-- The first loop of `timer_expire`: `cc_remaining[i]`, a `uint32_t`. -/
def cc_remaining (s : NRF52840RTCState) (i : Nat) : Nat :=
  if s.cc i > s.counter then (s.cc i - s.counter) % 4294967296
  else wrap_distance s i % 4294967296

/-- One iteration of the second loop of `timer_expire`. -/
def timer_expire_iter (remaining : Nat → Nat) (ticks : Nat) (s : NRF52840RTCState)
    (i : Nat) : NRF52840RTCState :=
  if remaining i ≤ ticks then { s with events_compare := array_set s.events_compare i 1 }
  else s

/-- The C function `timer_expire`, at virtual-clock time `now`. -/
def timer_expire (s : NRF52840RTCState) (now : Int) : NRF52840RTCState :=
  rearm_timer
    (update_irq
      ((List.range NRF52840_RTC_REG_COUNT).foldl
        (timer_expire_iter (cc_remaining s) (update_counter s now).2)
        (update_counter s now).1))
    now

/-- The C function `nrf52840_rtc_read`: the new state and the value read.  A read of
COUNTER runs `timer_expire` first, whether or not the RTC is running. -/
def nrf52840_rtc_read (s : NRF52840RTCState) (offset : Nat) (now : Int) :
    NRF52840RTCState × Nat :=
  if NRF52840_RTC_EVENT_COMPARE_0 ≤ offset ∧ offset ≤ NRF52840_RTC_EVENT_COMPARE_3 then
    (s, s.events_compare ((offset - NRF52840_RTC_EVENT_COMPARE_0) / 4))
  else if offset = NRF52840_RTC_REG_INTENSET ∨ offset = NRF52840_RTC_REG_INTENCLR then
    (s, s.inten)
  else if offset = NRF52840_RTC_REG_COUNTER then
    (timer_expire s now, (timer_expire s now).counter)
  else if offset = NRF52840_RTC_REG_PRESCALER then (s, s.prescaler)
  else if NRF52840_RTC_REG_CC0 ≤ offset ∧ offset ≤ NRF52840_RTC_REG_CC3 then
    (s, s.cc ((offset - NRF52840_RTC_REG_CC0) / 4))
  else (s, 0)

/-- The body of `case NRF52840_RTC_TASK_START`. -/
def write_task_start (s : NRF52840RTCState) (value : Nat) (now : Int) : NRF52840RTCState :=
  if value = NRF52840_TRIGGER_TASK then
    rearm_timer
      { s with running := true, update_counter_ns := now - ticks_to_ns s s.counter } now
  else s

/-- The body of `case NRF52840_RTC_TASK_STOP`. -/
def write_task_stop (s : NRF52840RTCState) (value : Nat) : NRF52840RTCState :=
  if value = NRF52840_TRIGGER_TASK then { s with running := false, timer := none } else s

/-- The body of `case NRF52840_RTC_TASK_CLEAR`. -/
def write_task_clear (s : NRF52840RTCState) (value : Nat) (now : Int) : NRF52840RTCState :=
  if value = NRF52840_TRIGGER_TASK then
    if s.running then rearm_timer { s with update_counter_ns := now, counter := 0 } now
    else { s with update_counter_ns := now, counter := 0 }
  else s

/-- The state after the optional `if (s->running) timer_expire(s);`. -/
def timer_sync (s : NRF52840RTCState) (now : Int) : NRF52840RTCState :=
  if s.running then timer_expire s now else s

/-- The body of `case NRF52840_RTC_EVENT_COMPARE_0 ... NRF52840_RTC_EVENT_COMPARE_3`. -/
def write_event_compare (s : NRF52840RTCState) (offset value : Nat) (now : Int) :
    NRF52840RTCState :=
  if value = NRF52840_EVENT_CLEAR then
    timer_sync
      { s with events_compare :=
          array_set s.events_compare ((offset - NRF52840_RTC_EVENT_COMPARE_0) / 4) 0 } now
  else s

/-- The state of `case NRF52840_RTC_REG_CC0 ... NRF52840_RTC_REG_CC3` after the assignment
to `cc[idx]`. -/
def write_cc_store (s : NRF52840RTCState) (offset value : Nat) (now : Int) :
    NRF52840RTCState :=
  { timer_sync s now with
    cc := array_set (timer_sync s now).cc ((offset - NRF52840_RTC_REG_CC0) / 4)
            (value % BIT COUNTER_BITWIDTH) }

/-- The body of `case NRF52840_RTC_REG_CC0 ... NRF52840_RTC_REG_CC3`. -/
def write_cc (s : NRF52840RTCState) (offset value : Nat) (now : Int) : NRF52840RTCState :=
  if (write_cc_store s offset value now).running then
    rearm_timer (write_cc_store s offset value now) now
  else write_cc_store s offset value now

/-- The `switch` of `nrf52840_rtc_write`, before the closing `update_irq`. -/
def nrf52840_rtc_write_switch (s : NRF52840RTCState) (offset value : Nat) (now : Int) :
    NRF52840RTCState :=
  if offset = NRF52840_RTC_TASK_START then write_task_start s value now
  else if offset = NRF52840_RTC_TASK_STOP then write_task_stop s value
  else if offset = NRF52840_RTC_TASK_CLEAR then write_task_clear s value now
  else if NRF52840_RTC_EVENT_COMPARE_0 ≤ offset ∧ offset ≤ NRF52840_RTC_EVENT_COMPARE_3 then
    write_event_compare s offset value now
  else if offset = NRF52840_RTC_REG_INTENSET then
    { s with inten := s.inten ||| (value &&& NRF52840_RTC_REG_INTEN_MASK) }
  else if offset = NRF52840_RTC_REG_INTENCLR then
    { s with inten :=
        s.inten &&& (18446744073709551615 ^^^ (value &&& NRF52840_RTC_REG_INTEN_MASK)) }
  else if offset = NRF52840_RTC_REG_PRESCALER then
    { s with prescaler := value &&& NRF52840_RTC_REG_PRESCALER_MASK }
  else if NRF52840_RTC_REG_CC0 ≤ offset ∧ offset ≤ NRF52840_RTC_REG_CC3 then
    write_cc s offset value now
  else s

/-- The C function `nrf52840_rtc_write`, at virtual-clock time `now`. -/
def nrf52840_rtc_write (s : NRF52840RTCState) (offset value : Nat) (now : Int) :
    NRF52840RTCState :=
  update_irq (nrf52840_rtc_write_switch s offset value now)

/-- The C function `nrf52840_rtc_reset`; the interrupt line is not driven here. -/
def nrf52840_rtc_reset (s : NRF52840RTCState) : NRF52840RTCState :=
  { s with timer := none, update_counter_ns := 0, counter := 0, running := false,
           events_compare :=
             (fun i => if i < NRF52840_RTC_REG_COUNT then 0 else s.events_compare i),
           cc := (fun i => if i < NRF52840_RTC_REG_COUNT then 0 else s.cc i),
           inten := 0, prescaler := 0 }

/-- The device as allocated: zero-filled object, host timer not armed, line low. -/
def rtc_zero_state : NRF52840RTCState :=
  { timer := none, irq := false, update_counter_ns := 0, counter := 0, running := false,
    events_compare := fun _ => 0, cc := fun _ => 0, inten := 0, prescaler := 0 }

/-- The reset state of the RTC: the freshly allocated device after `nrf52840_rtc_reset`. -/
def rtc_reset_state : NRF52840RTCState := nrf52840_rtc_reset rtc_zero_state

/-- What can happen to an RTC: a guest MMIO read or write, or the host timer firing, each
at some time of the virtual clock. -/
inductive RTCEvent where
  | read (offset : Nat) (now : Int)
  | write (offset value : Nat) (now : Int)
  | expire (now : Int)

/-- One event.  When the host timer fires it is no longer pending while its callback
`timer_expire` runs. -/
def rtc_step (s : NRF52840RTCState) : RTCEvent → NRF52840RTCState
  | .read offset now => (nrf52840_rtc_read s offset now).1
  | .write offset value now => nrf52840_rtc_write s offset value now
  | .expire now => timer_expire { s with timer := none } now

/-- A sequence of events, applied in order. -/
def rtc_run (s : NRF52840RTCState) (evs : List RTCEvent) : NRF52840RTCState :=
  evs.foldl rtc_step s

/-- The counter and the four compare registers fit in 24 bits. -/
def width_ok (s : NRF52840RTCState) : Prop :=
  s.counter < 2 ^ 24 ∧ ∀ i, i < 4 → s.cc i < 2 ^ 24

end RTC

/-! ### Clock controller: hw/misc/nrf52840_clock.c

The register declarations (`A_CLOCK_*` addresses, `R_CLOCK_*` word indices, field masks
and shifts) live in include/hw/misc/nrf52840_clock.h, which is not among the sources; the
values below are those of the specification. -/

/-- Modelled from the spec: address of TASKS_HFCLKSTART. -/
def A_CLOCK_TASKS_HFCLKSTART : Nat := 0x000
/-- Modelled from the spec: address of TASKS_LFCLKSTART. -/
def A_CLOCK_TASKS_LFCLKSTART : Nat := 0x008
/-- Modelled from the spec: address of EVENTS_HFCLKSTARTED. -/
def A_CLOCK_EVENTS_HFCLKSTARTED : Nat := 0x100
/-- Modelled from the spec: address of EVENTS_LFCLKSTARTED. -/
def A_CLOCK_EVENTS_LFCLKSTARTED : Nat := 0x104
/-- Modelled from the spec: address of INTENSET. -/
def A_CLOCK_INTENSET : Nat := 0x304
/-- Modelled from the spec: address of INTENCLR. -/
def A_CLOCK_INTENCLR : Nat := 0x308
/-- Modelled from the spec: address of HFCLKSTAT. -/
def A_CLOCK_HFCLKSTAT : Nat := 0x40C
/-- Modelled from the spec: address of LFCLKSTAT. -/
def A_CLOCK_LFCLKSTAT : Nat := 0x418
/-- Modelled from the spec: address of LFCLKSRC, the 2-bit LFCLK source selector.  The
specification names the register without its offset; 0x518 is its place on the
hardware, and nothing below depends on it beyond its being none of the offsets above. -/
def A_CLOCK_LFCLKSRC : Nat := 0x518
/-- Modelled from the spec: the "generated" bit of EVENTS_HFCLKSTARTED is bit 0. -/
def R_CLOCK_EVENTS_HFCLKSTARTED_GENERATED_MASK : Nat := 0x1
/-- Modelled from the spec: the "generated" bit of EVENTS_LFCLKSTARTED is bit 0. -/
def R_CLOCK_EVENTS_LFCLKSTARTED_GENERATED_MASK : Nat := 0x1
/-- Modelled from the spec: INTENSET bit 0 enables the HFCLKSTARTED interrupt. -/
def R_CLOCK_INTENSET_HFCLKSTARTED_MASK : Nat := 0x1
/-- Modelled from the spec: INTENSET bit 1 enables the LFCLKSTARTED interrupt. -/
def R_CLOCK_INTENSET_LFCLKSTARTED_MASK : Nat := 0x2
/-- Modelled from the spec: INTENCLR bit 0 disables the HFCLKSTARTED interrupt. -/
def R_CLOCK_INTENCLR_HFCLKSTARTED_MASK : Nat := 0x1
/-- Modelled from the spec: INTENCLR bit 1 disables the LFCLKSTARTED interrupt. -/
def R_CLOCK_INTENCLR_LFCLKSTARTED_MASK : Nat := 0x2
/-- Modelled from the spec: the LFCLK source selector has two bits. -/
def R_CLOCK_LFCLKSRC_SRC_MASK : Nat := 0x3
/-- Modelled from the spec: position of the STATE bit of HFCLKSTAT.  The specification
speaks of "the STATE bit position"; bit 16 is its place on the hardware and in the
constant 0x00010001 returned for LFCLKSTAT. -/
def R_CLOCK_HFCLKSTAT_STATE_SHIFT : Nat := 16

/-- The fields of `struct NRF52840CLOCKState` that carry device state.  `reg` is the raw
backing store (the struct is declared in the absent header; its elements are taken to be
32-bit words, and its length is left open), `irq` the level last driven on the interrupt
line. -/
structure NRF52840CLOCKState where
  reg : Nat → Nat
  irq : Bool
  hfclk_started : Bool
  lfclk_started : Bool
  hfclk_started_event_enabled : Bool
  hfclk_event_generated : Bool
  lfclk_started_event_enabled : Bool
  lfclk_event_generated : Bool
  lfclk_source : Nat

/-- The C function `nrf52840_clock_update_irq`. -/
def nrf52840_clock_update_irq (s : NRF52840CLOCKState) : NRF52840CLOCKState :=
  { s with irq :=
      (false || (s.lfclk_started_event_enabled && s.lfclk_event_generated))
        || (s.hfclk_started_event_enabled && s.hfclk_event_generated) }

/-- The value of a `bool` used as an integer. -/
def bool_to_nat (b : Bool) : Nat := if b then 1 else 0

/-- The C function `clock_read`. -/
def clock_read (s : NRF52840CLOCKState) (addr : Nat) : Nat :=
  if addr = A_CLOCK_EVENTS_HFCLKSTARTED then bool_to_nat s.hfclk_event_generated
  else if addr = A_CLOCK_EVENTS_LFCLKSTARTED then bool_to_nat s.lfclk_event_generated
  else if addr = A_CLOCK_HFCLKSTAT then
    s.reg (A_CLOCK_HFCLKSTAT / 4)
      ||| (bool_to_nat s.hfclk_started <<< R_CLOCK_HFCLKSTAT_STATE_SHIFT)
  else if addr = A_CLOCK_LFCLKSTAT then 0x00010001
  else s.reg (addr / 4)

/-- The `switch` of `clock_write`, before the closing `nrf52840_clock_update_irq`.  A
store into `reg` truncates the 64-bit `value` to 32 bits. -/
def clock_write_switch (s : NRF52840CLOCKState) (addr value : Nat) : NRF52840CLOCKState :=
  if addr = A_CLOCK_TASKS_HFCLKSTART then
    let s1 := if value = 1 then
        nrf52840_clock_update_irq { s with hfclk_started := true, hfclk_event_generated := true }
      else s
    { s1 with reg := array_set s1.reg (A_CLOCK_TASKS_HFCLKSTART / 4) (value % 4294967296) }
  else if addr = A_CLOCK_TASKS_LFCLKSTART then
    let s1 := if value = 1 then
        nrf52840_clock_update_irq { s with lfclk_started := true, lfclk_event_generated := true }
      else s
    { s1 with reg := array_set s1.reg (A_CLOCK_TASKS_LFCLKSTART / 4) (value % 4294967296) }
  else if addr = A_CLOCK_EVENTS_HFCLKSTARTED then
    let s1 := if value &&& R_CLOCK_EVENTS_HFCLKSTARTED_GENERATED_MASK ≠ 0 then
        nrf52840_clock_update_irq { s with hfclk_event_generated := true }
      else { s with hfclk_event_generated := false }
    { s1 with reg := array_set s1.reg (A_CLOCK_EVENTS_HFCLKSTARTED / 4) (value % 4294967296) }
  else if addr = A_CLOCK_EVENTS_LFCLKSTARTED then
    let s1 := if value &&& R_CLOCK_EVENTS_LFCLKSTARTED_GENERATED_MASK ≠ 0 then
        nrf52840_clock_update_irq { s with lfclk_event_generated := true }
      else { s with lfclk_event_generated := false }
    { s1 with reg := array_set s1.reg (A_CLOCK_EVENTS_LFCLKSTARTED / 4) (value % 4294967296) }
  else if addr = A_CLOCK_INTENSET then
    let s1 := if value &&& R_CLOCK_INTENSET_HFCLKSTARTED_MASK ≠ 0 then
        { s with hfclk_started_event_enabled := true }
      else s
    let s2 := if value &&& R_CLOCK_INTENSET_LFCLKSTARTED_MASK ≠ 0 then
        { s1 with lfclk_started_event_enabled := true }
      else s1
    nrf52840_clock_update_irq s2
  else if addr = A_CLOCK_INTENCLR then
    let s1 := if value &&& R_CLOCK_INTENCLR_HFCLKSTARTED_MASK ≠ 0 then
        { s with hfclk_started_event_enabled := false }
      else s
    let s2 := if value &&& R_CLOCK_INTENCLR_LFCLKSTARTED_MASK ≠ 0 then
        { s1 with lfclk_started_event_enabled := false }
      else s1
    nrf52840_clock_update_irq s2
  else if addr = A_CLOCK_LFCLKSRC then
    { s with lfclk_source := value &&& R_CLOCK_LFCLKSRC_SRC_MASK,
             reg := array_set s.reg (A_CLOCK_LFCLKSRC / 4) (value % 4294967296) }
  else { s with reg := array_set s.reg (addr / 4) (value % 4294967296) }

/-- The C function `clock_write`. -/
def clock_write (s : NRF52840CLOCKState) (addr value : Nat) : NRF52840CLOCKState :=
  nrf52840_clock_update_irq (clock_write_switch s addr value)

/-- The C function `nrf52840_clock_reset`; `memset(s->reg, 0, sizeof(s->reg))` clears the
whole backing store. -/
def nrf52840_clock_reset (s : NRF52840CLOCKState) : NRF52840CLOCKState :=
  nrf52840_clock_update_irq
    { s with reg := (fun _ => 0), hfclk_started := false, lfclk_started := false,
             hfclk_started_event_enabled := false, hfclk_event_generated := false,
             lfclk_started_event_enabled := false, lfclk_event_generated := false,
             lfclk_source := 0 }

/-- The interrupt line of the clock agrees with its enabled events. -/
def clock_irq_matches (s : NRF52840CLOCKState) : Prop :=
  s.irq = true ↔
    (s.hfclk_started_event_enabled = true ∧ s.hfclk_event_generated = true) ∨
    (s.lfclk_started_event_enabled = true ∧ s.lfclk_event_generated = true)

/-- A clock state with every flag set, the line high and arbitrary register contents. -/
def clock_all_set : NRF52840CLOCKState :=
  { reg := fun i => i + 7, irq := true, hfclk_started := true, lfclk_started := true,
    hfclk_started_event_enabled := true, hfclk_event_generated := true,
    lfclk_started_event_enabled := true, lfclk_event_generated := true, lfclk_source := 3 }

/-! ### SoC composition: hw/arm/nrf52840_soc.c

The peripheral base addresses are declared in hw/arm/nrf52840.h, which is not among the
sources; they are the ones of the address map of the specification. -/

/-- Modelled from the spec: base address of the UART. -/
def NRF52840_UART_BASE : Nat := 0x40002000
/-- Modelled from the spec: base address of the clock controller. -/
def NRF52840_CLOCK_BASE : Nat := 0x40000000
/-- Modelled from the spec: base address of the RNG. -/
def NRF52840_RNG_BASE : Nat := 0x4000D000
/-- Modelled from the spec: base address of RTC0. -/
def NRF52840_RTC0_BASE : Nat := 0x4000B000
/-- Modelled from the spec: base address of RTC1. -/
def NRF52840_RTC1_BASE : Nat := 0x40011000
/-- Modelled from the spec: base address of RTC2. -/
def NRF52840_RTC2_BASE : Nat := 0x40024000
/-- Modelled from the spec: base address of TIMER0. -/
def NRF52840_TIMER_BASE : Nat := 0x40008000
/-- Modelled from the spec: every peripheral owns a 4 KiB window. -/
def NRF52840_PERIPHERAL_SIZE : Nat := 0x1000

def NRF52840_NUM_TIMERS : Nat := 3
def NRF52840_NUM_RTCS : Nat := 3

/-- The macro `BASE_TO_IRQ(base)`, that is `((base >> 12) & 0x1F)`. -/
def BASE_TO_IRQ (base : Nat) : Nat := (base >>> 12) &&& 0x1F

/-- The `switch (i)` of the RTC loop of `nrf52840_soc_realize`; `base_addr` keeps its
previous value in the `default` case, which the loop bound excludes. -/
def soc_rtc_base (i prev : Nat) : Nat :=
  if i = 0 then NRF52840_RTC0_BASE
  else if i = 1 then NRF52840_RTC1_BASE
  else if i = 2 then NRF52840_RTC2_BASE
  else prev

/-- The value set for the CPU property "num-irq" in `nrf52840_soc_init`. -/
def soc_num_irq : Nat := 32

/-- The CPU interrupt inputs connected by `nrf52840_soc_realize`, in the order of the
`sysbus_connect_irq` calls: UART, RNG, RTC0..2, TIMER0..2, CLOCK. -/
def soc_irq_lines : List Nat :=
  [BASE_TO_IRQ NRF52840_UART_BASE, BASE_TO_IRQ NRF52840_RNG_BASE]
    ++ (List.range NRF52840_NUM_RTCS).map (fun i => BASE_TO_IRQ (soc_rtc_base i 0))
    ++ (List.range NRF52840_NUM_TIMERS).map
        (fun i => BASE_TO_IRQ (NRF52840_TIMER_BASE + i * NRF52840_PERIPHERAL_SIZE))
    ++ [BASE_TO_IRQ NRF52840_CLOCK_BASE]

/-! ### Example states of the timer for the reconciliation rules -/

/-- A running timer right after START: the reset state (16-bit mode, prescaler 0, every
CC at 0) after TASK_START := 1 at time 0. -/
def timer_just_started : NRF52840TimerState :=
  timer_run timer_reset_state [.write NRF52840_TIMER_TASK_START 1 0]

/-- A running timer with one compare value ahead: the reset state after CC[0] := 50 and
TASK_START := 1 at time 0. -/
def timer_cc0_at_50 : NRF52840TimerState :=
  timer_run timer_reset_state
    [.write NRF52840_TIMER_REG_CC0 50 0,
     .write NRF52840_TIMER_TASK_START 1 0]

/-- A running timer with the stop shortcut of CC[2]: the reset state after CC[2] := 1000,
SHORTS := 0x400 and TASK_START := 1 at time 0 (16-bit mode, prescaler 0, 1000 ticks are
15625 ns). -/
def timer_stop_short_state : NRF52840TimerState :=
  timer_run timer_reset_state
    [.write (NRF52840_TIMER_REG_CC0 + 8) 1000 0,
     .write NRF52840_TIMER_REG_SHORTS 0x400 0,
     .write NRF52840_TIMER_TASK_START 1 0]

/-- A timer in counter mode: the reset state after MODE := 1, CC[1] := 1, CC[2] := 2 and
SHORTS := 0x2. -/
def timer_counter_mode_state : NRF52840TimerState :=
  timer_run timer_reset_state
    [.write NRF52840_TIMER_REG_MODE 1 0,
     .write (NRF52840_TIMER_REG_CC0 + 4) 1 0,
     .write (NRF52840_TIMER_REG_CC0 + 8) 2 0,
     .write NRF52840_TIMER_REG_SHORTS 0x2 0]

/-- A stopped timer in 32-bit mode: the reset state after BITMODE := 3. -/
def timer_32bit_state : NRF52840TimerState :=
  timer_run timer_reset_state [.write NRF52840_TIMER_REG_BITMODE 3 0]

/-- A running timer with prescaler 9 (125000 Hz): the reset state after PRESCALER := 9 and
TASK_START := 1 at time 0 (16-bit mode, counter 0, anchor 0). -/
def timer_prescaler9_state : NRF52840TimerState :=
  timer_run timer_reset_state
    [.write NRF52840_TIMER_REG_PRESCALER 9 0,
     .write NRF52840_TIMER_TASK_START 1 0]

/-! ### Division traps of the RTC and further example states -/

/-- The helper `muldiv64(a, b, c)` with the trap of its division made explicit: `none`
when `c = 0`. -/
def muldiv64_checked (a b c : Nat) : Option Nat :=
  if c = 0 then none else some (muldiv64 a b c)

/-- The C function `ticks_to_ns` of the RTC with the trap of its division made explicit:
`none` when `TIMER_CLK_FREQ >> prescaler` is 0. -/
def rtc_ticks_to_ns_checked (s : RTC.NRF52840RTCState) (ticks : Nat) : Option Int :=
  (muldiv64_checked (ticks % 4294967296) NANOSECONDS_PER_SECOND (RTC.clk_freq s)).map
    (fun n => (n : Int))

/-- The body of `case NRF52840_RTC_TASK_START` with the trap made explicit: its first
statement after `running = true` evaluates `ticks_to_ns(s, s->counter)`, and every later
call in `rearm_timer` divides by the same frequency. -/
def rtc_write_task_start_checked (s : RTC.NRF52840RTCState) (value : Nat) (now : Int) :
    Option RTC.NRF52840RTCState :=
  if value = NRF52840_TRIGGER_TASK then
    (rtc_ticks_to_ns_checked s s.counter).map (fun _ => RTC.write_task_start s value now)
  else some s

/-- A running RTC right after START: the reset state (prescaler 0, counter 0) after
TASK_START := 1 at time 0; the anchor update_counter_ns is 0. -/
def rtc_just_started : RTC.NRF52840RTCState :=
  RTC.rtc_run RTC.rtc_reset_state [.write RTC.NRF52840_RTC_TASK_START 1 0]

/-- A stopped RTC: the reset state after TASK_START := 1 at time 0 and TASK_STOP := 1 one
second later. -/
def rtc_stopped_state : RTC.NRF52840RTCState :=
  RTC.rtc_run RTC.rtc_reset_state
    [.write RTC.NRF52840_RTC_TASK_START 1 0,
     .write RTC.NRF52840_RTC_TASK_STOP 1 1000000000]

/-- An RTC with PRESCALER := 16 written on the reset state. -/
def rtc_prescaler16_state : RTC.NRF52840RTCState :=
  RTC.rtc_run RTC.rtc_reset_state [.write RTC.NRF52840_RTC_REG_PRESCALER 16 0]

/-- A running timer with CC[0] = 100: the reset state (16-bit mode, prescaler 0) after
CC[0] := 100 and TASK_START := 1 at time 0; counter 0, anchor 0. -/
def timer_cc0_at_100 : NRF52840TimerState :=
  timer_run timer_reset_state
    [.write NRF52840_TIMER_REG_CC0 100 0,
     .write NRF52840_TIMER_TASK_START 1 0]

/-- A flash of 2048 bytes (flash-size property 0x800) filled with zero bytes, EEN set. -/
def nvm_small_een : NRF52840NVMState :=
  { ficr_content := fun _ => 0xFFFFFFFF, uicr_content := fun _ => 0xFFFFFFFF,
    flash_size := 0x800, storage := fun _ => 0, config := 2 }

/-- A running timer in 32-bit mode with a clear compare flag whose CC will equal the
counter: from reset, PRESCALER := 4 (a tick is 250 ns), BITMODE := 3, CC[1] := 100,
SHORTS := 0x2 and TASK_START := 1 at time 0, the expiry that START schedules for time 0,
and EVENT_COMPARE[0] := 0 written twice at 12500 ns (50 ticks).  The counter is 50,
events_compare is 0, 0, 1, 1 and the host timer is armed for 25000 ns, where CC[1]
matches and its shortcut clears the counter. -/
def timer_rearm_wrap_state : NRF52840TimerState :=
  timer_run timer_reset_state
    [.write NRF52840_TIMER_REG_PRESCALER 4 0,
     .write NRF52840_TIMER_REG_BITMODE 3 0,
     .write (NRF52840_TIMER_REG_CC0 + 4) 100 0,
     .write NRF52840_TIMER_REG_SHORTS 0x2 0,
     .write NRF52840_TIMER_TASK_START 1 0,
     .expire 0,
     .write NRF52840_TIMER_EVENT_COMPARE_0 0 12500,
     .write NRF52840_TIMER_EVENT_COMPARE_0 0 12500]

/-! ## Part 2: auxiliary lemmas -/

theorem and_page_mask (v : Nat) (hv : v < 18446744073709551616) :
    v &&& (18446744073709551616 - NRF52840_PAGE_SIZE) = v / 4096 * 4096 := by
  apply Nat.eq_of_testBit_eq
  intro j
  have hM : (18446744073709551616 - NRF52840_PAGE_SIZE : Nat) = 2 ^ 12 * (2 ^ 52 - 1) := by
    norm_num [NRF52840_PAGE_SIZE]
  have hV : v / 4096 * 4096 = 2 ^ 12 * (v >>> 12) := by
    rw [Nat.shiftRight_eq_div_pow]
    norm_num [Nat.mul_comm]
  rw [Nat.testBit_and, hM, hV, Nat.testBit_mul_pow_two, Nat.testBit_mul_pow_two,
    Nat.testBit_two_pow_sub_one, Nat.testBit_shiftRight]
  by_cases h12 : 12 ≤ j
  · by_cases h64 : j < 64
    · have : j - 12 < 52 := by omega
      have e : 12 + (j - 12) = j := by omega
      simp [h12, this, e]
    · have hlt : v < 2 ^ j :=
        lt_of_lt_of_le hv (by
          have : (18446744073709551616 : Nat) = 2 ^ 64 := by norm_num
          rw [this]
          exact Nat.pow_le_pow_right (by decide) (by omega))
      have e : 12 + (j - 12) = j := by omega
      simp [Nat.testBit_lt_two_pow hlt, e]
  · simp [h12]

theorem and_shift_byte (x v n : Nat) :
    ((x &&& v) >>> n) % 2 ^ 8 = ((x >>> n) % 2 ^ 8) &&& ((v >>> n) % 2 ^ 8) := by
  apply Nat.eq_of_testBit_eq
  intro i
  simp only [Nat.testBit_mod_two_pow, Nat.testBit_shiftRight, Nat.testBit_and]
  cases decide (i < 8) <;> simp

theorem and_byte (x v : Nat) (k : Nat) :
    (x &&& v) / 2 ^ (8 * k) % 256 = (x / 2 ^ (8 * k) % 256) &&& (v / 2 ^ (8 * k) % 256) := by
  have h := and_shift_byte x v (8 * k)
  simp only [Nat.shiftRight_eq_div_pow] at h
  simpa using h

/-! ### Timer lemmas -/

theorem range_reg_count : List.range NRF52840_TIMER_REG_COUNT = [0, 1, 2, 3] := by decide

theorem extract32_one (v n : Nat) : extract32 v n 1 ≠ 0 ↔ v.testBit n = true := by
  have h : (0xFFFFFFFF >>> (32 - 1) : Nat) = 1 := by decide
  unfold extract32
  rw [h, Nat.and_one_is_mod, Nat.testBit_to_div_mod, Nat.shiftRight_eq_div_pow]
  simp only [decide_eq_true_eq]
  omega

theorem rearm_timer_fields (s : NRF52840TimerState) (now : Int) :
    (rearm_timer s now).counter = s.counter ∧ (rearm_timer s now).bitmode = s.bitmode ∧
    (rearm_timer s now).irq = s.irq ∧ (rearm_timer s now).events_compare = s.events_compare ∧
    (rearm_timer s now).inten = s.inten ∧ (rearm_timer s now).cc = s.cc ∧
    (rearm_timer s now).running = s.running := by
  simp only [rearm_timer]
  split_ifs <;> simp

theorem update_irq_matches (s : NRF52840TimerState) : irq_matches (update_irq s) := by
  unfold irq_matches
  simp only [update_irq, range_reg_count, List.foldl, update_irq_iter, extract32_one,
    Bool.false_or, Bool.or_eq_true, Bool.and_eq_true, decide_eq_true_eq]
  constructor
  · rintro (((h | h) | h) | h)
    · exact ⟨0, by decide, h.1, h.2⟩
    · exact ⟨1, by decide, h.1, h.2⟩
    · exact ⟨2, by decide, h.1, h.2⟩
    · exact ⟨3, by decide, h.1, h.2⟩
  · rintro ⟨i, hi, he, hb⟩
    interval_cases i
    · exact Or.inl (Or.inl (Or.inl ⟨he, hb⟩))
    · exact Or.inl (Or.inl (Or.inr ⟨he, hb⟩))
    · exact Or.inl (Or.inr ⟨he, hb⟩)
    · exact Or.inr ⟨he, hb⟩

theorem irq_matches_congr (s t : NRF52840TimerState) (h1 : t.irq = s.irq)
    (h2 : t.events_compare = s.events_compare) (h3 : t.inten = s.inten) :
    irq_matches t ↔ irq_matches s := by
  unfold irq_matches
  rw [h1, h2, h3]

theorem timer_expire_irq_matches (s : NRF52840TimerState) (now : Int) :
    irq_matches (timer_expire s now) := by
  simp only [timer_expire]
  split_ifs
  · exact (irq_matches_congr _ _ rfl rfl rfl).2 (update_irq_matches _)
  · have h := rearm_timer_fields
      (update_irq (List.foldl (timer_expire_iter now (cc_remaining s) (update_counter s now).2)
        ((update_counter s now).1, false) (List.range NRF52840_TIMER_REG_COUNT)).1) now
    exact (irq_matches_congr _ _ h.2.2.1 h.2.2.2.1 h.2.2.2.2.1).2 (update_irq_matches _)

theorem timer_step_irq_matches (s : NRF52840TimerState) (e : TimerEvent) :
    irq_matches (timer_step s e) := by
  cases e with
  | write offset value now => exact update_irq_matches _
  | expire now => exact timer_expire_irq_matches _ now

theorem timer_reset_state_irq_matches : irq_matches timer_reset_state := by
  unfold irq_matches
  constructor
  · intro h
    exact absurd h (by decide)
  · rintro ⟨i, hi, he, _⟩
    exfalso
    apply he
    simp [timer_reset_state, nrf52840_timer_reset, timer_zero_state]

theorem timer_run_irq_matches (evs : List TimerEvent) (s : NRF52840TimerState)
    (h : irq_matches s) : irq_matches (timer_run s evs) := by
  induction evs generalizing s with
  | nil => exact h
  | cons e es ih => exact ih (timer_step s e) (timer_step_irq_matches s e)

theorem range_ok_congr (s t : NRF52840TimerState) (h1 : t.counter = s.counter)
    (h2 : t.bitmode = s.bitmode) : range_ok t ↔ range_ok s := by
  unfold range_ok
  rw [h1, h2]

theorem foldl_invariant {α β : Type} (P : α → Prop) (f : α → β → α)
    (h : ∀ a b, P a → P (f a b)) : ∀ (l : List β) (a : α), P a → P (l.foldl f a) := by
  intro l
  induction l with
  | nil => intro a ha; exact ha
  | cons b bs ih => intro a ha; exact ih (f a b) (h a b ha)

theorem timer_expire_iter_range (now : Int) (remaining : Nat → Nat) (ticks : Nat)
    (acc : NRF52840TimerState × Bool) (i : Nat) (h : range_ok acc.1) :
    range_ok (timer_expire_iter now remaining ticks acc i).1 := by
  simp only [timer_expire_iter]
  split_ifs
  · exact ⟨Nat.two_pow_pos _, h.2⟩
  · exact h
  · exact h

theorem timer_expire_range (s : NRF52840TimerState) (now : Int) (hb : s.bitmode < 4) :
    range_ok (timer_expire s now) := by
  have h0 : range_ok (update_counter s now).1 :=
    ⟨Nat.mod_lt _ (Nat.two_pow_pos _), hb⟩
  have h1 := foldl_invariant (fun acc : NRF52840TimerState × Bool => range_ok acc.1)
    (timer_expire_iter now (cc_remaining s) (update_counter s now).2)
    (fun a b ha => timer_expire_iter_range now _ _ a b ha)
    (List.range NRF52840_TIMER_REG_COUNT) ((update_counter s now).1, false) h0
  simp only [timer_expire]
  split_ifs
  · exact h1
  · have h := rearm_timer_fields
      (update_irq (List.foldl (timer_expire_iter now (cc_remaining s) (update_counter s now).2)
        ((update_counter s now).1, false) (List.range NRF52840_TIMER_REG_COUNT)).1) now
    exact (range_ok_congr _ _ h.1 h.2.1).2 h1

theorem counter_compare_iter_range (c : Nat) (s : NRF52840TimerState) (i : Nat)
    (h : range_ok s) : range_ok (counter_compare_iter c s i) := by
  simp only [counter_compare_iter]
  split_ifs
  · exact ⟨Nat.two_pow_pos _, h.2⟩
  · exact h
  · exact h

theorem counter_compare_range (s : NRF52840TimerState) (h : range_ok s) :
    range_ok (counter_compare s) :=
  foldl_invariant range_ok (counter_compare_iter s.counter)
    (fun a b ha => counter_compare_iter_range s.counter a b ha) _ s h

theorem timer_sync_range (s : NRF52840TimerState) (now : Int) (h : range_ok s) :
    range_ok (timer_sync s now) := by
  unfold timer_sync
  split_ifs
  · exact timer_expire_range s now h.2
  · exact h

theorem timer_write_switch_cases (P : NRF52840TimerState → Prop)
    (s : NRF52840TimerState) (offset value : Nat) (now : Int)
    (h_start : P (timer_write_task_start s value now))
    (h_stop : P (timer_write_task_stop s value))
    (h_count : P (timer_write_task_count s value))
    (h_clear : P (timer_write_task_clear s value now))
    (h_capture : P (timer_write_task_capture s offset value now))
    (h_event : P (timer_write_event_compare s offset value now))
    (h_shorts : P { s with shorts := value &&& NRF52840_TIMER_REG_SHORTS_MASK })
    (h_intenset :
      P { s with inten := s.inten ||| (value &&& NRF52840_TIMER_REG_INTEN_MASK) })
    (h_intenclr : P { s with inten :=
        s.inten &&& (18446744073709551615 ^^^ (value &&& NRF52840_TIMER_REG_INTEN_MASK)) })
    (h_mode : P { s with mode := value % 4294967296 })
    (h_bitmode : offset = NRF52840_TIMER_REG_BITMODE →
      P { s with bitmode := value &&& NRF52840_TIMER_REG_BITMODE_MASK })
    (h_prescaler : P { s with prescaler := value &&& NRF52840_TIMER_REG_PRESCALER_MASK })
    (h_cc : P (timer_write_cc s offset value now))
    (h_other : P s) :
    P (nrf52840_timer_write_switch s offset value now) := by
  unfold nrf52840_timer_write_switch
  by_cases c1 : offset = NRF52840_TIMER_TASK_START
  · rw [if_pos c1]; exact h_start
  rw [if_neg c1]
  by_cases c2 : offset = NRF52840_TIMER_TASK_STOP ∨ offset = NRF52840_TIMER_TASK_SHUTDOWN
  · rw [if_pos c2]; exact h_stop
  rw [if_neg c2]
  by_cases c3 : offset = NRF52840_TIMER_TASK_COUNT
  · rw [if_pos c3]; exact h_count
  rw [if_neg c3]
  by_cases c4 : offset = NRF52840_TIMER_TASK_CLEAR
  · rw [if_pos c4]; exact h_clear
  rw [if_neg c4]
  by_cases c5 : NRF52840_TIMER_TASK_CAPTURE_0 ≤ offset ∧ offset ≤ NRF52840_TIMER_TASK_CAPTURE_3
  · rw [if_pos c5]; exact h_capture
  rw [if_neg c5]
  by_cases c6 :
      NRF52840_TIMER_EVENT_COMPARE_0 ≤ offset ∧ offset ≤ NRF52840_TIMER_EVENT_COMPARE_3
  · rw [if_pos c6]; exact h_event
  rw [if_neg c6]
  by_cases c7 : offset = NRF52840_TIMER_REG_SHORTS
  · rw [if_pos c7]; exact h_shorts
  rw [if_neg c7]
  by_cases c8 : offset = NRF52840_TIMER_REG_INTENSET
  · rw [if_pos c8]; exact h_intenset
  rw [if_neg c8]
  by_cases c9 : offset = NRF52840_TIMER_REG_INTENCLR
  · rw [if_pos c9]; exact h_intenclr
  rw [if_neg c9]
  by_cases c10 : offset = NRF52840_TIMER_REG_MODE
  · rw [if_pos c10]; exact h_mode
  rw [if_neg c10]
  by_cases c11 : offset = NRF52840_TIMER_REG_BITMODE
  · rw [if_pos c11]; exact h_bitmode c11
  rw [if_neg c11]
  by_cases c12 : offset = NRF52840_TIMER_REG_PRESCALER
  · rw [if_pos c12]; exact h_prescaler
  rw [if_neg c12]
  by_cases c13 : NRF52840_TIMER_REG_CC0 ≤ offset ∧ offset ≤ NRF52840_TIMER_REG_CC3
  · rw [if_pos c13]; exact h_cc
  rw [if_neg c13]
  exact h_other

theorem timer_write_switch_range (s : NRF52840TimerState) (offset value : Nat) (now : Int)
    (h : range_ok s)
    (hfit : offset = NRF52840_TIMER_REG_BITMODE →
      s.counter < BIT (bitwidths (value &&& NRF52840_TIMER_REG_BITMODE_MASK))) :
    range_ok (nrf52840_timer_write_switch s offset value now) := by
  apply timer_write_switch_cases
  · unfold timer_write_task_start
    split_ifs
    · exact (range_ok_congr _ _ (rearm_timer_fields _ now).1 (rearm_timer_fields _ now).2.1).2 h
    · exact h
  · unfold timer_write_task_stop
    split_ifs
    · exact h
    · exact h
  · unfold timer_write_task_count
    split_ifs
    · exact counter_compare_range _ ⟨Nat.mod_lt _ (Nat.two_pow_pos _), h.2⟩
    · exact h
  · unfold timer_write_task_clear
    split_ifs
    · exact (range_ok_congr _ _ (rearm_timer_fields _ now).1 (rearm_timer_fields _ now).2.1).2
        ⟨Nat.two_pow_pos _, h.2⟩
    · exact ⟨Nat.two_pow_pos _, h.2⟩
    · exact h
  · unfold timer_write_task_capture
    split_ifs
    · exact (range_ok_congr _ (timer_sync s now) rfl rfl).2 (timer_sync_range s now h)
    · exact h
  · unfold timer_write_event_compare
    split_ifs
    · exact timer_sync_range _ now h
    · exact h
  · exact h
  · exact h
  · exact h
  · exact h
  · intro hb
    exact ⟨hfit hb, Nat.lt_succ_of_le Nat.and_le_right⟩
  · exact h
  · have hs : range_ok (timer_write_cc_store s offset value now) :=
      (range_ok_congr _ (timer_sync s now) rfl rfl).2 (timer_sync_range s now h)
    unfold timer_write_cc
    split_ifs
    · exact (range_ok_congr _ _ (rearm_timer_fields _ now).1 (rearm_timer_fields _ now).2.1).2 hs
    · exact hs
  · exact h

theorem timer_step_range (s : NRF52840TimerState) (e : TimerEvent) (h : range_ok s)
    (hfit : bitmode_write_fits s e) : range_ok (timer_step s e) := by
  cases e with
  | write offset value now => exact timer_write_switch_range s offset value now h hfit
  | expire now => exact timer_expire_range _ now h.2

theorem timer_run_range (evs : List TimerEvent) (s : NRF52840TimerState) (h : range_ok s)
    (hfit : bitmode_writes_fit s evs) : range_ok (timer_run s evs) := by
  induction evs generalizing s with
  | nil => exact h
  | cons e es ih => exact ih (timer_step s e) (timer_step_range s e h hfit.1) hfit.2

theorem rearm_timer_eq (s : NRF52840TimerState) (now : Int) :
    rearm_timer s now = { s with timer := (rearm_timer s now).timer } := by
  simp only [rearm_timer]
  split_ifs <;> rfl

theorem timer_expire_iter_frame (now : Int) (remaining : Nat → Nat) (ticks : Nat)
    (acc : NRF52840TimerState × Bool) (i : Nat) :
    (timer_expire_iter now remaining ticks acc i).1.cc = acc.1.cc ∧
    (timer_expire_iter now remaining ticks acc i).1.bitmode = acc.1.bitmode ∧
    (timer_expire_iter now remaining ticks acc i).1.shorts = acc.1.shorts ∧
    (timer_expire_iter now remaining ticks acc i).1.inten = acc.1.inten ∧
    (timer_expire_iter now remaining ticks acc i).1.mode = acc.1.mode ∧
    (timer_expire_iter now remaining ticks acc i).1.prescaler = acc.1.prescaler ∧
    (timer_expire_iter now remaining ticks acc i).1.running = acc.1.running ∧
    (timer_expire_iter now remaining ticks acc i).1.timer = acc.1.timer := by
  simp only [timer_expire_iter]
  split_ifs <;> exact ⟨rfl, rfl, rfl, rfl, rfl, rfl, rfl, rfl⟩

theorem timer_expire_eq (s : NRF52840TimerState) (now : Int) :
    timer_expire s now =
      if (timer_expire_loop s now).2 then
        { update_irq (timer_expire_loop s now).1 with running := false, timer := none }
      else rearm_timer (update_irq (timer_expire_loop s now).1) now := rfl

theorem timer_expire_loop_frame (s : NRF52840TimerState) (now : Int) :
    (timer_expire_loop s now).1.cc = s.cc ∧
    (timer_expire_loop s now).1.bitmode = s.bitmode ∧
    (timer_expire_loop s now).1.shorts = s.shorts ∧
    (timer_expire_loop s now).1.inten = s.inten ∧
    (timer_expire_loop s now).1.mode = s.mode ∧
    (timer_expire_loop s now).1.prescaler = s.prescaler ∧
    (timer_expire_loop s now).1.running = s.running ∧
    (timer_expire_loop s now).1.timer = s.timer := by
  refine foldl_invariant
    (fun acc : NRF52840TimerState × Bool =>
      acc.1.cc = s.cc ∧ acc.1.bitmode = s.bitmode ∧ acc.1.shorts = s.shorts ∧
      acc.1.inten = s.inten ∧ acc.1.mode = s.mode ∧ acc.1.prescaler = s.prescaler ∧
      acc.1.running = s.running ∧ acc.1.timer = s.timer)
    (timer_expire_iter now (cc_remaining s) (update_counter s now).2) ?_
    (List.range NRF52840_TIMER_REG_COUNT) ((update_counter s now).1, false)
    ⟨rfl, rfl, rfl, rfl, rfl, rfl, rfl, rfl⟩
  intro a b ha
  have h := timer_expire_iter_frame now (cc_remaining s) (update_counter s now).2 a b
  exact ⟨h.1.trans ha.1, h.2.1.trans ha.2.1, h.2.2.1.trans ha.2.2.1,
    h.2.2.2.1.trans ha.2.2.2.1, h.2.2.2.2.1.trans ha.2.2.2.2.1,
    h.2.2.2.2.2.1.trans ha.2.2.2.2.2.1, h.2.2.2.2.2.2.1.trans ha.2.2.2.2.2.2.1,
    h.2.2.2.2.2.2.2.trans ha.2.2.2.2.2.2.2⟩

theorem timer_expire_frame (s : NRF52840TimerState) (now : Int) :
    (timer_expire s now).cc = s.cc ∧ (timer_expire s now).bitmode = s.bitmode ∧
    (timer_expire s now).shorts = s.shorts ∧ (timer_expire s now).inten = s.inten ∧
    (timer_expire s now).mode = s.mode ∧ (timer_expire s now).prescaler = s.prescaler := by
  have h := timer_expire_loop_frame s now
  rw [timer_expire_eq]
  split_ifs
  · exact ⟨h.1, h.2.1, h.2.2.1, h.2.2.2.1, h.2.2.2.2.1, h.2.2.2.2.2.1⟩
  · rw [rearm_timer_eq]
    exact ⟨h.1, h.2.1, h.2.2.1, h.2.2.2.1, h.2.2.2.2.1, h.2.2.2.2.2.1⟩

theorem timer_sync_frame (s : NRF52840TimerState) (now : Int) :
    (timer_sync s now).cc = s.cc ∧ (timer_sync s now).bitmode = s.bitmode ∧
    (timer_sync s now).shorts = s.shorts ∧ (timer_sync s now).inten = s.inten ∧
    (timer_sync s now).mode = s.mode ∧ (timer_sync s now).prescaler = s.prescaler := by
  unfold timer_sync
  split_ifs
  · exact timer_expire_frame s now
  · exact ⟨rfl, rfl, rfl, rfl, rfl, rfl⟩

theorem counter_compare_frame (s : NRF52840TimerState) :
    (counter_compare s).cc = s.cc ∧ (counter_compare s).bitmode = s.bitmode := by
  refine foldl_invariant
    (fun a : NRF52840TimerState => a.cc = s.cc ∧ a.bitmode = s.bitmode)
    (counter_compare_iter s.counter) ?_ (List.range NRF52840_TIMER_REG_COUNT) s ⟨rfl, rfl⟩
  intro a b ha
  simp only [counter_compare_iter]
  split_ifs <;> exact ha

theorem cc_ok_congr (s t : NRF52840TimerState) (h1 : t.cc = s.cc)
    (h2 : t.bitmode = s.bitmode) : cc_ok t ↔ cc_ok s := by
  unfold cc_ok
  rw [h1, h2]

theorem cc_ok_array_set (s : NRF52840TimerState) (idx v : Nat) (h : cc_ok s)
    (hv : v < 2 ^ bitwidths s.bitmode) :
    cc_ok { s with cc := array_set s.cc idx v } := by
  intro i hi
  show array_set s.cc idx v i < 2 ^ bitwidths s.bitmode
  unfold array_set
  split_ifs
  · exact hv
  · exact h i hi

theorem timer_write_switch_cc_ok (s : NRF52840TimerState) (offset value : Nat) (now : Int)
    (h : range_ok s) (hc : cc_ok s)
    (hfit : offset = NRF52840_TIMER_REG_BITMODE →
      ∀ i, i < 4 → s.cc i < BIT (bitwidths (value &&& NRF52840_TIMER_REG_BITMODE_MASK))) :
    cc_ok (nrf52840_timer_write_switch s offset value now) := by
  have hsync : cc_ok (timer_sync s now) :=
    (cc_ok_congr s _ (timer_sync_frame s now).1 (timer_sync_frame s now).2.1).2 hc
  apply timer_write_switch_cases
  · unfold timer_write_task_start
    split_ifs
    · rw [rearm_timer_eq]; exact hc
    · exact hc
  · unfold timer_write_task_stop
    split_ifs
    · exact hc
    · exact hc
  · unfold timer_write_task_count
    split_ifs
    · exact (cc_ok_congr _ _ (counter_compare_frame _).1 (counter_compare_frame _).2).2 hc
    · exact hc
  · unfold timer_write_task_clear
    split_ifs
    · rw [rearm_timer_eq]; exact hc
    · exact hc
    · exact hc
  · unfold timer_write_task_capture
    split_ifs
    · exact cc_ok_array_set _ _ _ hsync (timer_sync_range s now h).1
    · exact hc
  · unfold timer_write_event_compare
    split_ifs
    · exact (cc_ok_congr _ _ (timer_sync_frame _ now).1 (timer_sync_frame _ now).2.1).2 hc
    · exact hc
  · exact hc
  · exact hc
  · exact hc
  · exact hc
  · intro hb
    exact hfit hb
  · exact hc
  · have hs : cc_ok (timer_write_cc_store s offset value now) :=
      cc_ok_array_set _ _ _ hsync (Nat.mod_lt _ (Nat.two_pow_pos _))
    unfold timer_write_cc
    split_ifs
    · rw [rearm_timer_eq]; exact hs
    · exact hs
  · exact hc

theorem timer_step_range_cc (s : NRF52840TimerState) (e : TimerEvent)
    (h : range_ok s ∧ cc_ok s) (hfit : bitmode_write_fits_cc s e) :
    range_ok (timer_step s e) ∧ cc_ok (timer_step s e) := by
  cases e with
  | write offset value now =>
    exact ⟨timer_write_switch_range s offset value now h.1 (fun hb => (hfit hb).1),
      timer_write_switch_cc_ok s offset value now h.1 h.2 (fun hb => (hfit hb).2)⟩
  | expire now =>
    exact ⟨timer_expire_range _ now h.1.2,
      (cc_ok_congr { s with timer := none } _ (timer_expire_frame _ now).1
        (timer_expire_frame _ now).2.1).2 h.2⟩

theorem timer_run_range_cc (evs : List TimerEvent) (s : NRF52840TimerState)
    (h : range_ok s ∧ cc_ok s) (hfit : bitmode_writes_fit_cc s evs) :
    range_ok (timer_run s evs) ∧ cc_ok (timer_run s evs) := by
  induction evs generalizing s with
  | nil => exact h
  | cons e es ih => exact ih (timer_step s e) (timer_step_range_cc s e h hfit.1) hfit.2

theorem timer_reset_state_cc_ok : cc_ok timer_reset_state := by
  intro i _
  simp [timer_reset_state, nrf52840_timer_reset, timer_zero_state, bitwidths]

theorem timer_write_switch_at_start (s : NRF52840TimerState) (value : Nat) (now : Int) :
    nrf52840_timer_write_switch s NRF52840_TIMER_TASK_START value now
      = timer_write_task_start s value now := rfl

theorem timer_write_switch_at_clear (s : NRF52840TimerState) (value : Nat) (now : Int) :
    nrf52840_timer_write_switch s NRF52840_TIMER_TASK_CLEAR value now
      = timer_write_task_clear s value now := rfl

theorem timer_write_switch_at_bitmode (s : NRF52840TimerState) (value : Nat) (now : Int) :
    nrf52840_timer_write_switch s NRF52840_TIMER_REG_BITMODE value now
      = { s with bitmode := value &&& NRF52840_TIMER_REG_BITMODE_MASK } := rfl

theorem timer_write_switch_at_prescaler (s : NRF52840TimerState) (value : Nat) (now : Int) :
    nrf52840_timer_write_switch s NRF52840_TIMER_REG_PRESCALER value now
      = { s with prescaler := value &&& NRF52840_TIMER_REG_PRESCALER_MASK } := rfl

theorem timer_write_switch_at_capture (s : NRF52840TimerState) (i value : Nat) (now : Int)
    (hi : i < 4) :
    nrf52840_timer_write_switch s (NRF52840_TIMER_TASK_CAPTURE_0 + 4 * i) value now
      = timer_write_task_capture s (NRF52840_TIMER_TASK_CAPTURE_0 + 4 * i) value now := by
  interval_cases i <;> rfl

theorem timer_write_switch_at_event (s : NRF52840TimerState) (i value : Nat) (now : Int)
    (hi : i < 4) :
    nrf52840_timer_write_switch s (NRF52840_TIMER_EVENT_COMPARE_0 + 4 * i) value now
      = timer_write_event_compare s (NRF52840_TIMER_EVENT_COMPARE_0 + 4 * i) value now := by
  interval_cases i <;> rfl

theorem timer_write_switch_at_cc (s : NRF52840TimerState) (i value : Nat) (now : Int)
    (hi : i < 4) :
    nrf52840_timer_write_switch s (NRF52840_TIMER_REG_CC0 + 4 * i) value now
      = timer_write_cc s (NRF52840_TIMER_REG_CC0 + 4 * i) value now := by
  interval_cases i <;> rfl

theorem timer_read_at_cc (s : NRF52840TimerState) (i : Nat) (hi : i < 4) :
    nrf52840_timer_read s (NRF52840_TIMER_REG_CC0 + 4 * i) = s.cc i := by
  interval_cases i <;> rfl

theorem timer_read_at_event (s : NRF52840TimerState) (i : Nat) (hi : i < 4) :
    nrf52840_timer_read s (NRF52840_TIMER_EVENT_COMPARE_0 + 4 * i) = s.events_compare i := by
  interval_cases i <;> rfl

theorem timer_write_cc_fields (s : NRF52840TimerState) (offset value : Nat) (now : Int) :
    (timer_write_cc s offset value now).cc
      = array_set s.cc ((offset - NRF52840_TIMER_REG_CC0) / 4)
          (value % BIT (bitwidths s.bitmode)) ∧
    (timer_write_cc s offset value now).bitmode = s.bitmode := by
  have hf := timer_sync_frame s now
  have hs : (timer_write_cc_store s offset value now).cc
      = array_set s.cc ((offset - NRF52840_TIMER_REG_CC0) / 4)
          (value % BIT (bitwidths s.bitmode)) := by
    show array_set (timer_sync s now).cc _ (value % BIT (bitwidths (timer_sync s now).bitmode)) = _
    rw [hf.1, hf.2.1]
  have hb : (timer_write_cc_store s offset value now).bitmode = s.bitmode := hf.2.1
  unfold timer_write_cc
  split_ifs
  · rw [rearm_timer_eq]; exact ⟨hs, hb⟩
  · exact ⟨hs, hb⟩

theorem ns_to_ticks_zero (s : NRF52840TimerState) : ns_to_ticks s 0 = 0 := by
  simp [ns_to_ticks, muldiv64]

theorem timer_expire_iter_counter_zero (now : Int) (remaining : Nat → Nat) (ticks : Nat)
    (acc : NRF52840TimerState × Bool) (i : Nat) (h : acc.1.counter = 0) :
    (timer_expire_iter now remaining ticks acc i).1.counter = 0 := by
  simp only [timer_expire_iter]
  split_ifs
  · rfl
  · exact h
  · exact h

theorem timer_expire_counter_zero (s : NRF52840TimerState) (now : Int)
    (hc : s.counter = 0) (hn : s.update_counter_ns = now) :
    (timer_expire s now).counter = 0 := by
  have h0 : (update_counter s now).1.counter = 0 := by
    simp [update_counter, hc, hn, ns_to_ticks_zero]
  have h1 : (timer_expire_loop s now).1.counter = 0 :=
    foldl_invariant (fun acc : NRF52840TimerState × Bool => acc.1.counter = 0)
      (timer_expire_iter now (cc_remaining s) (update_counter s now).2)
      (fun a b ha => timer_expire_iter_counter_zero now _ _ a b ha)
      (List.range NRF52840_TIMER_REG_COUNT) ((update_counter s now).1, false) h0
  rw [timer_expire_eq]
  split_ifs
  · exact h1
  · rw [rearm_timer_eq]; exact h1

theorem timer_write_task_clear_fields (s : NRF52840TimerState) (now : Int) :
    (timer_write_task_clear s NRF52840_TRIGGER_TASK now).counter = 0 ∧
    (timer_write_task_clear s NRF52840_TRIGGER_TASK now).update_counter_ns = now := by
  unfold timer_write_task_clear
  rw [if_pos rfl]
  split_ifs
  · rw [rearm_timer_eq]; exact ⟨rfl, rfl⟩
  · exact ⟨rfl, rfl⟩

theorem timer_expire_iter_events (now : Int) (remaining : Nat → Nat) (ticks : Nat)
    (acc : NRF52840TimerState × Bool) (i j : Nat) :
    (timer_expire_iter now remaining ticks acc i).1.events_compare j
      = if j = i ∧ remaining i ≤ ticks then 1 else acc.1.events_compare j := by
  simp only [timer_expire_iter]
  by_cases hj : j = i
  · split_ifs <;> simp_all [array_set]
  · split_ifs <;> simp_all [array_set]

theorem timer_expire_foldl_events (now : Int) (remaining : Nat → Nat) (ticks : Nat) (j : Nat) :
    ∀ (l : List Nat) (acc : NRF52840TimerState × Bool),
      (l.foldl (timer_expire_iter now remaining ticks) acc).1.events_compare j
        = if j ∈ l ∧ remaining j ≤ ticks then 1 else acc.1.events_compare j := by
  intro l
  induction l with
  | nil => intro acc; simp
  | cons b bs ih =>
    intro acc
    rw [List.foldl_cons, ih, timer_expire_iter_events]
    by_cases hb : j = b
    · subst hb
      by_cases hr : remaining j ≤ ticks
      · simp [hr]
      · simp [hr]
    · by_cases hr : remaining j ≤ ticks
      · simp [hr, hb]
      · simp [hr, hb]

theorem timer_expire_events (s : NRF52840TimerState) (now : Int) (j : Nat) :
    (timer_expire s now).events_compare j
      = if j < 4 ∧ cc_remaining s j ≤ ns_to_ticks s (now - s.update_counter_ns) then 1
        else s.events_compare j := by
  have h1 : (timer_expire_loop s now).1.events_compare j
      = if j < 4 ∧ cc_remaining s j ≤ ns_to_ticks s (now - s.update_counter_ns) then 1
        else s.events_compare j := by
    unfold timer_expire_loop
    rw [timer_expire_foldl_events, range_reg_count]
    have hm : j ∈ [0, 1, 2, 3] ↔ j < 4 := by
      simp only [List.mem_cons, List.mem_singleton, List.not_mem_nil, or_false]
      omega
    simp only [hm]
    rfl
  rw [timer_expire_eq]
  by_cases hs : (timer_expire_loop s now).2 = true
  · rw [if_pos hs]; exact h1
  · rw [if_neg hs, rearm_timer_eq]; exact h1

theorem rearm_timer_eq_min (s : NRF52840TimerState) (now : Int) :
    rearm_timer s now
      = if rearm_min s ≠ INT64_MAX then { s with timer := some (now + rearm_min s) }
        else s := rfl

theorem rearm_min_unfold (s : NRF52840TimerState) :
    rearm_min s = rearm_timer_iter s (rearm_timer_iter s (rearm_timer_iter s
      (rearm_timer_iter s INT64_MAX 0) 1) 2) 3 := rfl

theorem timer_expire_iter_no_shorts (now : Int) (remaining : Nat → Nat) (ticks : Nat)
    (acc : NRF52840TimerState × Bool) (i : Nat) (h : acc.1.shorts = 0) :
    timer_expire_iter now remaining ticks acc i
      = if remaining i ≤ ticks then
          ({ acc.1 with events_compare := array_set acc.1.events_compare i 1 }, acc.2)
        else acc := by
  simp only [timer_expire_iter, h, Nat.zero_and, ne_eq, not_true_eq_false, if_false,
    decide_False, Bool.or_false]

theorem timer_expire_loop_no_shorts (s : NRF52840TimerState) (now : Int)
    (h : s.shorts = 0) :
    (timer_expire_loop s now).2 = false ∧
    (timer_expire_loop s now).1 = timer_expire_plain s now := by
  have hinv := foldl_invariant
    (fun acc : NRF52840TimerState × Bool =>
      acc.2 = false ∧
      acc.1 = { (update_counter s now).1 with events_compare := acc.1.events_compare })
    (timer_expire_iter now (cc_remaining s) (update_counter s now).2)
    (fun a b ha => by
      have hs : a.1.shorts = 0 := by rw [ha.2]; exact h
      rw [timer_expire_iter_no_shorts now _ _ a b hs]
      split_ifs
      · refine ⟨ha.1, ?_⟩
        show { a.1 with events_compare := array_set a.1.events_compare b 1 } = _
        rw [ha.2]
      · exact ha)
    (List.range NRF52840_TIMER_REG_COUNT) ((update_counter s now).1, false) ⟨rfl, rfl⟩
  refine ⟨hinv.1, ?_⟩
  have hev : (timer_expire_loop s now).1.events_compare
      = (timer_expire_plain s now).events_compare := by
    funext j
    unfold timer_expire_loop
    rw [timer_expire_foldl_events, range_reg_count]
    have hm : j ∈ [0, 1, 2, 3] ↔ j < 4 := by
      simp only [List.mem_cons, List.mem_singleton, List.not_mem_nil, or_false]
      omega
    simp only [hm]
    rfl
  have h2 : (timer_expire_loop s now).1
      = { (update_counter s now).1 with
          events_compare := (timer_expire_loop s now).1.events_compare } := hinv.2
  rw [h2, hev]
  rfl

theorem timer_expire_no_shorts (s : NRF52840TimerState) (now : Int) (h : s.shorts = 0) :
    timer_expire s now = rearm_timer (update_irq (timer_expire_plain s now)) now := by
  have hl := timer_expire_loop_no_shorts s now h
  rw [timer_expire_eq, hl.1, hl.2]
  rfl

theorem rearm_min_all_set (s : NRF52840TimerState)
    (h : ∀ i, i < 4 → s.events_compare i ≠ 0) : rearm_min s = INT64_MAX := by
  rw [rearm_min_unfold]
  simp only [rearm_timer_iter, h 0 (by decide), h 1 (by decide), h 2 (by decide),
    h 3 (by decide), ne_eq, not_false_eq_true, if_true]

theorem ticks_to_ns_prescaler4 (s : NRF52840TimerState) (hp : s.prescaler = 4) (k : Nat)
    (hk : k < 4294967296) : ticks_to_ns s k = 250 * (k : Int) := by
  have hf : (TIMER_CLK_FREQ >>> 4) % 4294967296 = 4000000 := by decide
  have hd : k * 1000000000 / 4000000 = 250 * k := by omega
  simp only [ticks_to_ns, hp, hf, muldiv64, NANOSECONDS_PER_SECOND, Nat.mod_eq_of_lt hk, hd]
  rw [Nat.mod_eq_of_lt (by omega)]
  push_cast
  rfl

theorem ticks_to_ns_full_wrap (s : NRF52840TimerState) : ticks_to_ns s 4294967296 = 0 := by
  simp [ticks_to_ns, muldiv64]

theorem ns_to_ticks_prescaler4 (s : NRF52840TimerState) (hp : s.prescaler = 4) (k : Nat)
    (hk : k < 4294967296) : ns_to_ticks s (250 * (k : Int)) = k := by
  have hf : (TIMER_CLK_FREQ >>> 4) % 4294967296 = 4000000 := by decide
  have hi : (250 * (k : Int)) % 18446744073709551616 = ((250 * k : Nat) : Int) := by
    push_cast
    exact Int.emod_eq_of_lt (by omega) (by omega)
  have hd : 250 * k * 4000000 / 1000000000 = k := by omega
  simp only [ns_to_ticks, hp, hf, muldiv64, NANOSECONDS_PER_SECOND, hi, Int.toNat_ofNat, hd]
  omega

theorem rearm_min_one_shot_start (s : NRF52840TimerState) (n : Nat)
    (h1 : 1 ≤ n) (h2 : n < 4294967296)
    (hcc0 : s.cc 0 = n) (hcc1 : s.cc 1 = 0) (hcc2 : s.cc 2 = 0) (hcc3 : s.cc 3 = 0)
    (hc : s.counter = 0) (hb : s.bitmode = 3) (hp : s.prescaler = 4)
    (he0 : s.events_compare 0 = 0) (he1 : s.events_compare 1 = 0)
    (he2 : s.events_compare 2 = 0) (he3 : s.events_compare 3 = 0) :
    rearm_min s = 0 := by
  have hw : ∀ i, s.cc i = 0 → wrap_distance s i = 4294967296 := by
    intro i hi
    simp [wrap_distance, hi, hc, hb, BIT, bitwidths]
  have hn : ¬ n ≤ 0 := by omega
  have hlt : (250 * (n : Int) < INT64_MAX) := by
    simp only [INT64_MAX]; omega
  have hpos : (0 : Int) < 250 * (n : Int) := by omega
  rw [rearm_min_unfold]
  simp only [rearm_timer_iter, he0, he1, he2, he3, hcc0, hcc1, hcc2, hcc3, hc, hw 1 hcc1,
    hw 2 hcc2, hw 3 hcc3, ticks_to_ns_full_wrap, Nat.sub_zero,
    ticks_to_ns_prescaler4 s hp n h2, ne_eq, not_true_eq_false, if_false, hn, hlt, if_true,
    le_refl, hpos, lt_self_iff_false]

theorem rearm_min_one_shot_armed (s : NRF52840TimerState) (n : Nat)
    (h1 : 1 ≤ n) (h2 : n < 4294967296)
    (hcc0 : s.cc 0 = n) (hc : s.counter = 0) (hp : s.prescaler = 4)
    (he0 : s.events_compare 0 = 0) (he1 : s.events_compare 1 = 1)
    (he2 : s.events_compare 2 = 1) (he3 : s.events_compare 3 = 1) :
    rearm_min s = 250 * (n : Int) := by
  have hn : ¬ n ≤ 0 := by omega
  have hlt : (250 * (n : Int) < INT64_MAX) := by
    simp only [INT64_MAX]; omega
  rw [rearm_min_unfold]
  simp only [rearm_timer_iter, he0, he1, he2, he3, hcc0, hc, Nat.sub_zero,
    ticks_to_ns_prescaler4 s hp n h2, ne_eq, not_true_eq_false, if_false, hn, hlt, if_true,
    one_ne_zero, not_false_eq_true]

theorem timer_write_start_eq (s : NRF52840TimerState) (now : Int)
    (hm : s.mode = NRF52840_TIMER_TIMER) :
    nrf52840_timer_write s NRF52840_TIMER_TASK_START 1 now
      = update_irq (rearm_timer
          { s with running := true,
                   timer_start_ns := now - ticks_to_ns s s.counter,
                   update_counter_ns := now - ticks_to_ns s s.counter } now) := by
  unfold nrf52840_timer_write
  rw [timer_write_switch_at_start]
  unfold timer_write_task_start
  rw [if_pos ⟨rfl, hm⟩]

theorem one_shot_start (s : NRF52840TimerState) (n : Nat) (t0 : Int)
    (h1 : 1 ≤ n) (h2 : n < 4294967296)
    (hcc0 : s.cc 0 = n) (hcc1 : s.cc 1 = 0) (hcc2 : s.cc 2 = 0) (hcc3 : s.cc 3 = 0)
    (hc : s.counter = 0) (hb : s.bitmode = 3) (hp : s.prescaler = 4) (hm : s.mode = 0)
    (he0 : s.events_compare 0 = 0) (he1 : s.events_compare 1 = 0)
    (he2 : s.events_compare 2 = 0) (he3 : s.events_compare 3 = 0) :
    (nrf52840_timer_write s NRF52840_TIMER_TASK_START 1 t0).timer = some t0 ∧
    (nrf52840_timer_write s NRF52840_TIMER_TASK_START 1 t0).update_counter_ns = t0 ∧
    (nrf52840_timer_write s NRF52840_TIMER_TASK_START 1 t0).counter = 0 ∧
    (nrf52840_timer_write s NRF52840_TIMER_TASK_START 1 t0).cc = s.cc ∧
    (nrf52840_timer_write s NRF52840_TIMER_TASK_START 1 t0).events_compare
      = s.events_compare ∧
    (nrf52840_timer_write s NRF52840_TIMER_TASK_START 1 t0).bitmode = s.bitmode ∧
    (nrf52840_timer_write s NRF52840_TIMER_TASK_START 1 t0).prescaler = s.prescaler ∧
    (nrf52840_timer_write s NRF52840_TIMER_TASK_START 1 t0).shorts = s.shorts ∧
    (nrf52840_timer_write s NRF52840_TIMER_TASK_START 1 t0).inten = s.inten := by
  have hz : ticks_to_ns s s.counter = 0 := by
    rw [hc, ticks_to_ns_prescaler4 s hp 0 (by decide)]; rfl
  have hmin := rearm_min_one_shot_start
    { s with running := true,
             timer_start_ns := t0 - ticks_to_ns s s.counter,
             update_counter_ns := t0 - ticks_to_ns s s.counter }
    n h1 h2 hcc0 hcc1 hcc2 hcc3 hc hb hp he0 he1 he2 he3
  rw [timer_write_start_eq s t0 hm, rearm_timer_eq_min, hmin,
    if_pos (by simp [INT64_MAX]), hz]
  refine ⟨?_, ?_, hc, rfl, rfl, rfl, rfl, rfl, rfl⟩
  · show some (t0 + 0) = some t0
    rw [add_zero]
  · show t0 - 0 = t0
    rw [sub_zero]

theorem one_shot_first_expiry (s : NRF52840TimerState) (n : Nat) (t0 : Int)
    (h1 : 1 ≤ n) (h2 : n < 4294967296)
    (hcc0 : s.cc 0 = n) (hcc1 : s.cc 1 = 0) (hcc2 : s.cc 2 = 0) (hcc3 : s.cc 3 = 0)
    (hc : s.counter = 0) (hb : s.bitmode = 3) (hp : s.prescaler = 4) (hs : s.shorts = 0)
    (hu : s.update_counter_ns = t0)
    (he0 : s.events_compare 0 = 0) :
    (timer_expire s t0).timer = some (t0 + 250 * (n : Int)) ∧
    (timer_expire s t0).update_counter_ns = t0 ∧
    (timer_expire s t0).counter = 0 ∧
    (timer_expire s t0).cc = s.cc ∧
    (timer_expire s t0).events_compare 0 = 0 ∧
    (timer_expire s t0).events_compare 1 = 1 ∧
    (timer_expire s t0).events_compare 2 = 1 ∧
    (timer_expire s t0).events_compare 3 = 1 ∧
    (timer_expire s t0).bitmode = s.bitmode ∧
    (timer_expire s t0).prescaler = s.prescaler ∧
    (timer_expire s t0).shorts = s.shorts ∧
    (timer_expire s t0).inten = s.inten := by
  have ht : (update_counter s t0).2 = 0 := by
    show ns_to_ticks s (t0 - s.update_counter_ns) = 0
    rw [hu, sub_self, ns_to_ticks_zero]
  have hcnt : (update_counter s t0).1.counter = 0 := by
    show (s.counter + ns_to_ticks s (t0 - s.update_counter_ns)) % 4294967296
      % BIT (bitwidths s.bitmode) = 0
    rw [hu, sub_self, ns_to_ticks_zero, hc]
    rfl
  have hr0 : cc_remaining s 0 = n := by
    simp only [cc_remaining, hcc0, hc]
    rw [if_pos (by omega)]
    omega
  have hrz : ∀ i, s.cc i = 0 → cc_remaining s i = 0 := by
    intro i hi
    simp [cc_remaining, wrap_distance, hi, hc, hb, BIT, bitwidths]
  have hp0 : (timer_expire_plain s t0).events_compare 0 = 0 := by
    simp only [timer_expire_plain, ht, hr0]
    rw [if_neg (by omega)]
    exact he0
  have hpz : ∀ i, i < 4 → s.cc i = 0 → (timer_expire_plain s t0).events_compare i = 1 := by
    intro i hi hcci
    simp only [timer_expire_plain, ht, hrz i hcci]
    rw [if_pos ⟨hi, le_refl 0⟩]
  have hmin := rearm_min_one_shot_armed (update_irq (timer_expire_plain s t0)) n h1 h2
    hcc0 hcnt hp hp0 (hpz 1 (by decide) hcc1) (hpz 2 (by decide) hcc2)
    (hpz 3 (by decide) hcc3)
  rw [timer_expire_no_shorts s t0 hs, rearm_timer_eq_min, hmin,
    if_pos (by simp only [INT64_MAX]; omega)]
  exact ⟨rfl, rfl, hcnt, rfl, hp0, hpz 1 (by decide) hcc1, hpz 2 (by decide) hcc2,
    hpz 3 (by decide) hcc3, rfl, rfl, rfl, rfl⟩

theorem one_shot_second_expiry (s : NRF52840TimerState) (n : Nat) (t0 : Int)
    (h1 : 1 ≤ n) (h2 : n < 4294967296)
    (hcc0 : s.cc 0 = n)
    (hc : s.counter = 0) (hp : s.prescaler = 4) (hs : s.shorts = 0)
    (hi : s.inten = 0x10000) (hu : s.update_counter_ns = t0) (htm : s.timer = none)
    (he1 : s.events_compare 1 = 1) (he2 : s.events_compare 2 = 1)
    (he3 : s.events_compare 3 = 1) :
    (timer_expire s (t0 + 250 * (n : Int))).timer = none ∧
    (timer_expire s (t0 + 250 * (n : Int))).events_compare 0 = 1 ∧
    (timer_expire s (t0 + 250 * (n : Int))).irq = true := by
  have ht : (update_counter s (t0 + 250 * (n : Int))).2 = n := by
    show ns_to_ticks s (t0 + 250 * (n : Int) - s.update_counter_ns) = n
    rw [hu, add_sub_cancel_left, ns_to_ticks_prescaler4 s hp n h2]
  have hr0 : cc_remaining s 0 = n := by
    simp only [cc_remaining, hcc0, hc]
    rw [if_pos (by omega)]
    omega
  have hev : ∀ i, i < 4 →
      (timer_expire_plain s (t0 + 250 * (n : Int))).events_compare i = 1 := by
    intro i hi4
    simp only [timer_expire_plain, ht]
    interval_cases i
    · rw [hr0, if_pos ⟨by decide, le_refl n⟩]
    · split_ifs
      · rfl
      · exact he1
    · split_ifs
      · rfl
      · exact he2
    · split_ifs
      · rfl
      · exact he3
  have hmin := rearm_min_all_set (update_irq (timer_expire_plain s (t0 + 250 * (n : Int))))
    (fun i hi4 => by
      show (timer_expire_plain s (t0 + 250 * (n : Int))).events_compare i ≠ 0
      rw [hev i hi4]; decide)
  have hirq := update_irq_matches (timer_expire_plain s (t0 + 250 * (n : Int)))
  rw [timer_expire_no_shorts s _ hs, rearm_timer_eq_min, hmin, if_neg (by simp)]
  refine ⟨htm, hev 0 (by decide), hirq.2 ⟨0, by decide, ?_, ?_⟩⟩
  · show (timer_expire_plain s (t0 + 250 * (n : Int))).events_compare 0 ≠ 0
    rw [hev 0 (by decide)]; decide
  · show s.inten.testBit (16 + 0) = true
    rw [hi]; decide

theorem timer_fire_due_step (fuel : Nat) (s : NRF52840TimerState) (t_end d : Int)
    (h : s.timer = some d) (hle : d ≤ t_end) :
    timer_fire_due (fuel + 1) s t_end
      = timer_fire_due fuel (timer_expire { s with timer := none } d) t_end := by
  rw [timer_fire_due, h]
  simp only [if_pos hle]
  rfl

theorem timer_fire_due_idle (fuel : Nat) (s : NRF52840TimerState) (t_end : Int)
    (h : s.timer = none) : timer_fire_due fuel s t_end = some s := by
  cases fuel <;> rw [timer_fire_due, h]

theorem one_shot_configured (n : Nat) (t0 : Int) (h2 : n < 4294967296) :
    (timer_run timer_reset_state
      [.write NRF52840_TIMER_REG_PRESCALER 4 t0, .write NRF52840_TIMER_REG_BITMODE 3 t0,
       .write NRF52840_TIMER_REG_CC0 n t0, .write NRF52840_TIMER_REG_INTENSET 0x10000 t0]).cc 0 = n ∧
    (∀ i, i < 4 → i ≠ 0 → (timer_run timer_reset_state
      [.write NRF52840_TIMER_REG_PRESCALER 4 t0, .write NRF52840_TIMER_REG_BITMODE 3 t0,
       .write NRF52840_TIMER_REG_CC0 n t0, .write NRF52840_TIMER_REG_INTENSET 0x10000 t0]).cc i = 0) ∧
    (∀ i, i < 4 → (timer_run timer_reset_state
      [.write NRF52840_TIMER_REG_PRESCALER 4 t0, .write NRF52840_TIMER_REG_BITMODE 3 t0,
       .write NRF52840_TIMER_REG_CC0 n t0, .write NRF52840_TIMER_REG_INTENSET 0x10000 t0]).events_compare i = 0) ∧
    (timer_run timer_reset_state
      [.write NRF52840_TIMER_REG_PRESCALER 4 t0, .write NRF52840_TIMER_REG_BITMODE 3 t0,
       .write NRF52840_TIMER_REG_CC0 n t0, .write NRF52840_TIMER_REG_INTENSET 0x10000 t0]).counter = 0 ∧
    (timer_run timer_reset_state
      [.write NRF52840_TIMER_REG_PRESCALER 4 t0, .write NRF52840_TIMER_REG_BITMODE 3 t0,
       .write NRF52840_TIMER_REG_CC0 n t0, .write NRF52840_TIMER_REG_INTENSET 0x10000 t0]).bitmode = 3 ∧
    (timer_run timer_reset_state
      [.write NRF52840_TIMER_REG_PRESCALER 4 t0, .write NRF52840_TIMER_REG_BITMODE 3 t0,
       .write NRF52840_TIMER_REG_CC0 n t0, .write NRF52840_TIMER_REG_INTENSET 0x10000 t0]).prescaler = 4 ∧
    (timer_run timer_reset_state
      [.write NRF52840_TIMER_REG_PRESCALER 4 t0, .write NRF52840_TIMER_REG_BITMODE 3 t0,
       .write NRF52840_TIMER_REG_CC0 n t0, .write NRF52840_TIMER_REG_INTENSET 0x10000 t0]).mode = 0 ∧
    (timer_run timer_reset_state
      [.write NRF52840_TIMER_REG_PRESCALER 4 t0, .write NRF52840_TIMER_REG_BITMODE 3 t0,
       .write NRF52840_TIMER_REG_CC0 n t0, .write NRF52840_TIMER_REG_INTENSET 0x10000 t0]).shorts = 0 ∧
    (timer_run timer_reset_state
      [.write NRF52840_TIMER_REG_PRESCALER 4 t0, .write NRF52840_TIMER_REG_BITMODE 3 t0,
       .write NRF52840_TIMER_REG_CC0 n t0, .write NRF52840_TIMER_REG_INTENSET 0x10000 t0]).inten = 0x10000 := by
  refine ⟨Nat.mod_eq_of_lt h2, ?_, ?_, rfl, rfl, rfl, rfl, rfl, ?_⟩
  · intro i hi hne
    interval_cases i
    · exact absurd rfl hne
    · rfl
    · rfl
    · rfl
  · intro i hi
    interval_cases i <;> rfl
  · show (0 ||| (0x10000 &&& 0xF0000) : Nat) = 0x10000
    decide

/-! ### RTC lemmas -/

theorem rtc_rearm_timer_eq (s : RTC.NRF52840RTCState) (now : Int) :
    RTC.rearm_timer s now = { s with timer := (RTC.rearm_timer s now).timer } := by
  simp only [RTC.rearm_timer]
  split_ifs <;> rfl

theorem rtc_width_ok_congr (s t : RTC.NRF52840RTCState) (h1 : t.counter = s.counter)
    (h2 : t.cc = s.cc) : RTC.width_ok t ↔ RTC.width_ok s := by
  unfold RTC.width_ok
  rw [h1, h2]

theorem rtc_timer_expire_iter_frame (remaining : Nat → Nat) (ticks : Nat)
    (s : RTC.NRF52840RTCState) (i : Nat) :
    (RTC.timer_expire_iter remaining ticks s i).counter = s.counter ∧
    (RTC.timer_expire_iter remaining ticks s i).cc = s.cc := by
  unfold RTC.timer_expire_iter
  split_ifs <;> exact ⟨rfl, rfl⟩

theorem rtc_timer_expire_fields (s : RTC.NRF52840RTCState) (now : Int) :
    (RTC.timer_expire s now).counter
      = (s.counter + RTC.ns_to_ticks s (now - s.update_counter_ns)) % 4294967296
          % BIT RTC.COUNTER_BITWIDTH ∧
    (RTC.timer_expire s now).cc = s.cc := by
  have h := foldl_invariant
    (fun a : RTC.NRF52840RTCState =>
      a.counter = (RTC.update_counter s now).1.counter ∧ a.cc = s.cc)
    (RTC.timer_expire_iter (RTC.cc_remaining s) (RTC.update_counter s now).2)
    (fun a b ha =>
      ⟨(rtc_timer_expire_iter_frame _ _ a b).1.trans ha.1,
        (rtc_timer_expire_iter_frame _ _ a b).2.trans ha.2⟩)
    (List.range RTC.NRF52840_RTC_REG_COUNT) (RTC.update_counter s now).1 ⟨rfl, rfl⟩
  unfold RTC.timer_expire
  rw [rtc_rearm_timer_eq]
  exact h

theorem rtc_timer_expire_width (s : RTC.NRF52840RTCState) (now : Int)
    (h : RTC.width_ok s) : RTC.width_ok (RTC.timer_expire s now) := by
  have hf := rtc_timer_expire_fields s now
  refine ⟨?_, ?_⟩
  · rw [hf.1]
    exact Nat.mod_lt _ (Nat.two_pow_pos _)
  · rw [hf.2]
    exact h.2

theorem rtc_timer_sync_width (s : RTC.NRF52840RTCState) (now : Int)
    (h : RTC.width_ok s) : RTC.width_ok (RTC.timer_sync s now) := by
  unfold RTC.timer_sync
  split_ifs
  · exact rtc_timer_expire_width s now h
  · exact h

theorem rtc_write_switch_cases (P : RTC.NRF52840RTCState → Prop)
    (s : RTC.NRF52840RTCState) (offset value : Nat) (now : Int)
    (h_start : P (RTC.write_task_start s value now))
    (h_stop : P (RTC.write_task_stop s value))
    (h_clear : P (RTC.write_task_clear s value now))
    (h_event : P (RTC.write_event_compare s offset value now))
    (h_intenset :
      P { s with inten := s.inten ||| (value &&& RTC.NRF52840_RTC_REG_INTEN_MASK) })
    (h_intenclr : P { s with inten := s.inten &&&
        (18446744073709551615 ^^^ (value &&& RTC.NRF52840_RTC_REG_INTEN_MASK)) })
    (h_prescaler : P { s with prescaler := value &&& RTC.NRF52840_RTC_REG_PRESCALER_MASK })
    (h_cc : P (RTC.write_cc s offset value now))
    (h_other : P s) :
    P (RTC.nrf52840_rtc_write_switch s offset value now) := by
  unfold RTC.nrf52840_rtc_write_switch
  by_cases c1 : offset = RTC.NRF52840_RTC_TASK_START
  · rw [if_pos c1]; exact h_start
  rw [if_neg c1]
  by_cases c2 : offset = RTC.NRF52840_RTC_TASK_STOP
  · rw [if_pos c2]; exact h_stop
  rw [if_neg c2]
  by_cases c3 : offset = RTC.NRF52840_RTC_TASK_CLEAR
  · rw [if_pos c3]; exact h_clear
  rw [if_neg c3]
  by_cases c4 : RTC.NRF52840_RTC_EVENT_COMPARE_0 ≤ offset ∧
      offset ≤ RTC.NRF52840_RTC_EVENT_COMPARE_3
  · rw [if_pos c4]; exact h_event
  rw [if_neg c4]
  by_cases c5 : offset = RTC.NRF52840_RTC_REG_INTENSET
  · rw [if_pos c5]; exact h_intenset
  rw [if_neg c5]
  by_cases c6 : offset = RTC.NRF52840_RTC_REG_INTENCLR
  · rw [if_pos c6]; exact h_intenclr
  rw [if_neg c6]
  by_cases c7 : offset = RTC.NRF52840_RTC_REG_PRESCALER
  · rw [if_pos c7]; exact h_prescaler
  rw [if_neg c7]
  by_cases c8 : RTC.NRF52840_RTC_REG_CC0 ≤ offset ∧ offset ≤ RTC.NRF52840_RTC_REG_CC3
  · rw [if_pos c8]; exact h_cc
  rw [if_neg c8]
  exact h_other

theorem rtc_write_width (s : RTC.NRF52840RTCState) (offset value : Nat) (now : Int)
    (h : RTC.width_ok s) : RTC.width_ok (RTC.nrf52840_rtc_write s offset value now) := by
  show RTC.width_ok (RTC.nrf52840_rtc_write_switch s offset value now)
  apply rtc_write_switch_cases
  · unfold RTC.write_task_start
    split_ifs
    · rw [rtc_rearm_timer_eq]; exact h
    · exact h
  · unfold RTC.write_task_stop
    split_ifs
    · exact h
    · exact h
  · unfold RTC.write_task_clear
    split_ifs
    · rw [rtc_rearm_timer_eq]; exact ⟨Nat.two_pow_pos _, h.2⟩
    · exact ⟨Nat.two_pow_pos _, h.2⟩
    · exact h
  · unfold RTC.write_event_compare
    split_ifs
    · exact rtc_timer_sync_width _ now h
    · exact h
  · exact h
  · exact h
  · exact h
  · have hs := rtc_timer_sync_width s now h
    have hst : RTC.width_ok (RTC.write_cc_store s offset value now) := by
      refine ⟨hs.1, ?_⟩
      intro i hi
      show array_set (RTC.timer_sync s now).cc _ (value % BIT RTC.COUNTER_BITWIDTH) i < 2 ^ 24
      unfold array_set
      split_ifs
      · exact Nat.mod_lt _ (Nat.two_pow_pos _)
      · exact hs.2 i hi
    unfold RTC.write_cc
    split_ifs
    · rw [rtc_rearm_timer_eq]; exact hst
    · exact hst
  · exact h

theorem rtc_read_width (s : RTC.NRF52840RTCState) (offset : Nat) (now : Int)
    (h : RTC.width_ok s) : RTC.width_ok (RTC.nrf52840_rtc_read s offset now).1 := by
  unfold RTC.nrf52840_rtc_read
  split_ifs
  · exact h
  · exact h
  · exact rtc_timer_expire_width s now h
  · exact h
  · exact h
  · exact h

theorem rtc_step_width (s : RTC.NRF52840RTCState) (e : RTC.RTCEvent)
    (h : RTC.width_ok s) : RTC.width_ok (RTC.rtc_step s e) := by
  cases e with
  | read offset now => exact rtc_read_width s offset now h
  | write offset value now => exact rtc_write_width s offset value now h
  | expire now => exact rtc_timer_expire_width _ now h

theorem rtc_run_width (evs : List RTC.RTCEvent) (s : RTC.NRF52840RTCState)
    (h : RTC.width_ok s) : RTC.width_ok (RTC.rtc_run s evs) := by
  induction evs generalizing s with
  | nil => exact h
  | cons e es ih => exact ih (RTC.rtc_step s e) (rtc_step_width s e h)

theorem rtc_reset_state_width : RTC.width_ok RTC.rtc_reset_state := by
  refine ⟨by decide, ?_⟩
  intro i hi
  interval_cases i <;> decide

/-! ### Reconciliation arithmetic and the compare distances of the timer -/

theorem bitwidths_le (b : Nat) : bitwidths b ≤ 32 := by
  unfold bitwidths
  match b with
  | 0 => decide
  | 1 => decide
  | 2 => decide
  | 3 => decide
  | n + 4 => simp [List.getD]

theorem bitwidths_cases (b : Nat) (hb : b < 4) :
    bitwidths b = 16 ∨ bitwidths b = 8 ∨ bitwidths b = 24 ∨ bitwidths b = 32 := by
  interval_cases b
  · exact Or.inl rfl
  · exact Or.inr (Or.inl rfl)
  · exact Or.inr (Or.inr (Or.inl rfl))
  · exact Or.inr (Or.inr (Or.inr rfl))

theorem mod32_mod_width (b x : Nat) :
    x % 4294967296 % BIT (bitwidths b) = x % 2 ^ bitwidths b := by
  unfold BIT
  exact Nat.mod_mod_of_dvd x (show 2 ^ bitwidths b ∣ 2 ^ 32 from pow_dvd_pow 2 (bitwidths_le b))

theorem and_bit_ne_zero (x i : Nat) : x &&& BIT i ≠ 0 ↔ x.testBit i = true := by
  unfold BIT
  rw [Nat.and_two_pow]
  cases x.testBit i <;> simp

theorem ns_to_ticks_exact (s : NRF52840TimerState) (ns : Int) (h0 : 0 ≤ ns)
    (h1 : ns < 9223372036854775808) :
    ns_to_ticks s ns = ns.toNat * (64000000 >>> s.prescaler) / 1000000000 % 4294967296 := by
  have hf : (64000000 >>> s.prescaler : Nat) ≤ 64000000 := by
    rw [Nat.shiftRight_eq_div_pow]
    exact Nat.div_le_self _ _
  have hn : (ns % 18446744073709551616).toNat = ns.toNat := by
    rw [Int.emod_eq_of_lt h0 (by omega)]
  have hm : ns.toNat * (64000000 >>> s.prescaler) / 1000000000 < 18446744073709551616 := by
    have h2 : ns.toNat * (64000000 >>> s.prescaler) ≤ ns.toNat * 64000000 :=
      Nat.mul_le_mul_left _ hf
    have h3 := Nat.div_le_div_right (c := 1000000000) h2
    omega
  have hf32 : (64000000 >>> s.prescaler : Nat) % 4294967296 = 64000000 >>> s.prescaler :=
    Nat.mod_eq_of_lt (by omega)
  simp only [ns_to_ticks, muldiv64, NANOSECONDS_PER_SECOND, TIMER_CLK_FREQ, hn, hf32,
    Nat.mod_eq_of_lt hm]

theorem update_counter_counter (s : NRF52840TimerState) (now : Int) :
    (update_counter s now).1.counter
      = (s.counter + ns_to_ticks s (now - s.update_counter_ns)) % 2 ^ bitwidths s.bitmode :=
  mod32_mod_width s.bitmode _

theorem cc_remaining_eq (s : NRF52840TimerState) (i : Nat) (hb : s.bitmode < 4)
    (hc : s.counter < 2 ^ bitwidths s.bitmode) (hcc : s.cc i < 2 ^ bitwidths s.bitmode) :
    cc_remaining s i
      = if s.cc i = s.counter ∧ bitwidths s.bitmode < 32 then 2 ^ bitwidths s.bitmode
        else (s.cc i + 2 ^ bitwidths s.bitmode - s.counter) % 2 ^ bitwidths s.bitmode := by
  have hw := bitwidths_cases s.bitmode hb
  unfold cc_remaining wrap_distance BIT
  generalize bitwidths s.bitmode = w at *
  rcases hw with rfl | rfl | rfl | rfl <;> norm_num at hc hcc ⊢ <;> split_ifs <;> omega
/-! ### The shortcuts in the second loop of `timer_expire` and in `counter_compare` -/

theorem timer_expire_iter_shorts (now : Int) (remaining : Nat → Nat) (ticks : Nat)
    (acc : NRF52840TimerState × Bool) (i : Nat) :
    (timer_expire_iter now remaining ticks acc i).1.shorts = acc.1.shorts ∧
    (timer_expire_iter now remaining ticks acc i).1.counter
      = (if remaining i ≤ ticks ∧ acc.1.shorts.testBit i = true then 0 else acc.1.counter) ∧
    (timer_expire_iter now remaining ticks acc i).1.update_counter_ns
      = (if remaining i ≤ ticks ∧ acc.1.shorts.testBit i = true then now
         else acc.1.update_counter_ns) ∧
    (timer_expire_iter now remaining ticks acc i).2
      = (acc.2 || (decide (remaining i ≤ ticks) && acc.1.shorts.testBit (i + 8))) := by
  simp only [timer_expire_iter, and_bit_ne_zero]
  by_cases hr : remaining i ≤ ticks
  · by_cases hs : acc.1.shorts.testBit i = true
    · simp [hr, hs]
    · simp [hr, hs]
  · simp [hr]

theorem timer_expire_foldl_shorts (now : Int) (remaining : Nat → Nat) (ticks : Nat) :
    ∀ (l : List Nat) (acc : NRF52840TimerState × Bool),
      (l.foldl (timer_expire_iter now remaining ticks) acc).1.shorts = acc.1.shorts ∧
      (l.foldl (timer_expire_iter now remaining ticks) acc).1.counter
        = (if l.any (fun i => decide (remaining i ≤ ticks) && acc.1.shorts.testBit i) = true
           then 0 else acc.1.counter) ∧
      (l.foldl (timer_expire_iter now remaining ticks) acc).1.update_counter_ns
        = (if l.any (fun i => decide (remaining i ≤ ticks) && acc.1.shorts.testBit i) = true
           then now else acc.1.update_counter_ns) ∧
      (l.foldl (timer_expire_iter now remaining ticks) acc).2
        = (acc.2 ||
            l.any (fun i => decide (remaining i ≤ ticks) && acc.1.shorts.testBit (i + 8))) := by
  intro l
  induction l with
  | nil => intro acc; simp
  | cons b bs ih =>
    intro acc
    obtain ⟨h1, h2, h3, h4⟩ := ih (timer_expire_iter now remaining ticks acc b)
    obtain ⟨g1, g2, g3, g4⟩ := timer_expire_iter_shorts now remaining ticks acc b
    rw [List.foldl_cons, h1, h2, h3, h4, g1, g2, g3, g4]
    refine ⟨rfl, ?_, ?_, ?_⟩
    · by_cases hb : remaining b ≤ ticks ∧ acc.1.shorts.testBit b = true
      · simp [hb.1, hb.2]
      · by_cases hr : remaining b ≤ ticks
        · have hs : acc.1.shorts.testBit b = false := by
            cases h : acc.1.shorts.testBit b
            · rfl
            · exact absurd ⟨hr, h⟩ hb
          simp [hr, hs]
        · simp [hr]
    · by_cases hb : remaining b ≤ ticks ∧ acc.1.shorts.testBit b = true
      · simp [hb.1, hb.2]
      · by_cases hr : remaining b ≤ ticks
        · have hs : acc.1.shorts.testBit b = false := by
            cases h : acc.1.shorts.testBit b
            · rfl
            · exact absurd ⟨hr, h⟩ hb
          simp [hr, hs]
        · simp [hr]
    · simp [Bool.or_assoc]

theorem any_range_reg_count (p : Nat → Bool) :
    (List.range NRF52840_TIMER_REG_COUNT).any p = true ↔ ∃ i, i < 4 ∧ p i = true := by
  rw [range_reg_count]
  simp only [List.any_cons, List.any_nil, Bool.or_false, Bool.or_eq_true]
  constructor
  · rintro (h | h | h | h)
    · exact ⟨0, by decide, h⟩
    · exact ⟨1, by decide, h⟩
    · exact ⟨2, by decide, h⟩
    · exact ⟨3, by decide, h⟩
  · rintro ⟨i, hi, h⟩
    interval_cases i
    · exact Or.inl h
    · exact Or.inr (Or.inl h)
    · exact Or.inr (Or.inr (Or.inl h))
    · exact Or.inr (Or.inr (Or.inr h))

theorem timer_expire_loop_stop (s : NRF52840TimerState) (now : Int) :
    (timer_expire_loop s now).2 = true ↔
      ∃ i, i < 4 ∧ cc_remaining s i ≤ ns_to_ticks s (now - s.update_counter_ns) ∧
        s.shorts.testBit (i + 8) = true := by
  unfold timer_expire_loop
  rw [(timer_expire_foldl_shorts now _ _ _ _).2.2.2, Bool.false_or, any_range_reg_count]
  simp only [Bool.and_eq_true, decide_eq_true_eq]
  rfl

theorem rearm_min_rearm_timer (s : NRF52840TimerState) (now : Int) :
    rearm_min (rearm_timer s now) = rearm_min s := by
  rw [rearm_timer_eq]
  rfl
/-! ### Bounds on the deltas of `rearm_timer` -/

theorem ticks_to_ns_lt (s : NRF52840TimerState) (t : Nat) :
    ticks_to_ns s t < 4611686018427387904 := by
  have h1 : t % 4294967296 < 4294967296 := Nat.mod_lt _ (by decide)
  have h2 : t % 4294967296 * 1000000000 / ((TIMER_CLK_FREQ >>> s.prescaler) % 4294967296)
      ≤ t % 4294967296 * 1000000000 := Nat.div_le_self _ _
  have h3 := Nat.mod_le
    (t % 4294967296 * 1000000000 / ((TIMER_CLK_FREQ >>> s.prescaler) % 4294967296))
    18446744073709551616
  simp only [ticks_to_ns, muldiv64, NANOSECONDS_PER_SECOND]
  omega

theorem rearm_timer_iter_le (s : NRF52840TimerState) (m : Int) (i : Nat) :
    rearm_timer_iter s m i ≤ m := by
  simp only [rearm_timer_iter]
  split_ifs <;> omega

theorem rearm_timer_iter_lt (s : NRF52840TimerState) (m : Int) (i : Nat)
    (h : s.events_compare i = 0) : rearm_timer_iter s m i < INT64_MAX := by
  have h1 := ticks_to_ns_lt s (wrap_distance s i)
  have h2 := ticks_to_ns_lt s (s.cc i - s.counter)
  simp only [rearm_timer_iter, h, INT64_MAX]
  split_ifs <;> omega

theorem rearm_min_ne_max_iff (s : NRF52840TimerState) :
    (∃ i, i < 4 ∧ s.events_compare i = 0) ↔ rearm_min s ≠ INT64_MAX := by
  constructor
  · rintro ⟨i, hi, he⟩
    rw [rearm_min_unfold]
    have l3 := fun m => rearm_timer_iter_le s m 3
    have l2 := fun m => rearm_timer_iter_le s m 2
    have l1 := fun m => rearm_timer_iter_le s m 1
    apply ne_of_lt
    interval_cases i
    · exact lt_of_le_of_lt ((l3 _).trans ((l2 _).trans (l1 _))) (rearm_timer_iter_lt s _ 0 he)
    · exact lt_of_le_of_lt ((l3 _).trans (l2 _)) (rearm_timer_iter_lt s _ 1 he)
    · exact lt_of_le_of_lt (l3 _) (rearm_timer_iter_lt s _ 2 he)
    · exact rearm_timer_iter_lt s _ 3 he
  · intro h
    by_contra hne
    apply h
    apply rearm_min_all_set
    intro i hi he
    exact hne ⟨i, hi, he⟩
/-! ### The loop of `counter_compare` -/

theorem counter_compare_iter_fields (c : Nat) (s : NRF52840TimerState) (i : Nat) :
    (counter_compare_iter c s i).cc = s.cc ∧
    (counter_compare_iter c s i).shorts = s.shorts ∧
    (∀ j, (counter_compare_iter c s i).events_compare j
      = if j = i ∧ c = s.cc i then 1 else s.events_compare j) ∧
    (counter_compare_iter c s i).counter
      = (if c = s.cc i ∧ s.shorts.testBit i = true then 0 else s.counter) := by
  simp only [counter_compare_iter, and_bit_ne_zero]
  by_cases hc : c = s.cc i
  · by_cases hs : s.shorts.testBit i = true
    · refine ⟨?_, ?_, ?_, ?_⟩ <;> simp [hc, hs, array_set]
    · refine ⟨?_, ?_, ?_, ?_⟩ <;> simp [hc, hs, array_set]
  · refine ⟨?_, ?_, ?_, ?_⟩ <;> simp [hc]

theorem counter_compare_foldl_fields (c : Nat) :
    ∀ (l : List Nat) (s : NRF52840TimerState),
      (l.foldl (counter_compare_iter c) s).cc = s.cc ∧
      (l.foldl (counter_compare_iter c) s).shorts = s.shorts ∧
      (∀ j, (l.foldl (counter_compare_iter c) s).events_compare j
        = if j ∈ l ∧ c = s.cc j then 1 else s.events_compare j) ∧
      (l.foldl (counter_compare_iter c) s).counter
        = (if l.any (fun i => decide (c = s.cc i) && s.shorts.testBit i) = true then 0
           else s.counter) := by
  intro l
  induction l with
  | nil => intro s; simp
  | cons b bs ih =>
    intro s
    obtain ⟨h1, h2, h3, h4⟩ := ih (counter_compare_iter c s b)
    obtain ⟨g1, g2, g3, g4⟩ := counter_compare_iter_fields c s b
    rw [List.foldl_cons, h1, h2, h4, g1, g2, g4]
    refine ⟨rfl, rfl, ?_, ?_⟩
    · intro j
      rw [h3, g1, g3]
      by_cases hj : j = b
      · subst hj
        by_cases hc : c = s.cc j <;> simp [hc]
      · simp [hj]
    · by_cases hb : c = s.cc b ∧ s.shorts.testBit b = true
      · simp [hb.1.symm, hb.2]
      · by_cases hc : c = s.cc b
        · have hs : s.shorts.testBit b = false := by
            cases h : s.shorts.testBit b
            · rfl
            · exact absurd ⟨hc, h⟩ hb
          simp [hc.symm, hs]
        · simp [hc]

theorem counter_compare_fields (s : NRF52840TimerState) :
    (∀ j, j < 4 → (counter_compare s).events_compare j
      = if s.cc j = s.counter then 1 else s.events_compare j) ∧
    ((∃ i, i < 4 ∧ s.cc i = s.counter ∧ s.shorts.testBit i = true) →
      (counter_compare s).counter = 0) ∧
    ((¬ ∃ i, i < 4 ∧ s.cc i = s.counter ∧ s.shorts.testBit i = true) →
      (counter_compare s).counter = s.counter) := by
  obtain ⟨_, _, h3, h4⟩ := counter_compare_foldl_fields s.counter
    (List.range NRF52840_TIMER_REG_COUNT) s
  have hany : (List.range NRF52840_TIMER_REG_COUNT).any
      (fun i => decide (s.counter = s.cc i) && s.shorts.testBit i) = true ↔
      ∃ i, i < 4 ∧ s.cc i = s.counter ∧ s.shorts.testBit i = true := by
    rw [any_range_reg_count]
    simp only [Bool.and_eq_true, decide_eq_true_eq]
    constructor
    · rintro ⟨i, hi, h1, h2⟩
      exact ⟨i, hi, h1.symm, h2⟩
    · rintro ⟨i, hi, h1, h2⟩
      exact ⟨i, hi, h1.symm, h2⟩
  refine ⟨?_, ?_, ?_⟩
  · intro j hj
    unfold counter_compare
    rw [h3, range_reg_count]
    have hm : j ∈ [0, 1, 2, 3] := by interval_cases j <;> simp
    simp only [hm, true_and]
    by_cases hc : s.cc j = s.counter
    · rw [if_pos hc, if_pos hc.symm]
    · rw [if_neg hc, if_neg (fun h => hc h.symm)]
  · intro h
    unfold counter_compare
    rw [h4, if_pos (hany.mpr h)]
  · intro h
    unfold counter_compare
    rw [h4, if_neg (fun hh => h (hany.mp hh))]

theorem timer_write_switch_at_count (s : NRF52840TimerState) (value : Nat) (now : Int) :
    nrf52840_timer_write_switch s NRF52840_TIMER_TASK_COUNT value now
      = timer_write_task_count s value := rfl

theorem update_irq_fields (s : NRF52840TimerState) :
    update_irq s = { s with irq := (update_irq s).irq } := rfl

theorem update_irq_eq_self (s : NRF52840TimerState) (h : irq_matches s) : update_irq s = s := by
  have h2 := update_irq_matches s
  unfold irq_matches at h h2
  have hirq : (update_irq s).irq = s.irq := by
    have h3 : (update_irq s).irq = true ↔ s.irq = true := h2.trans h.symm
    cases h4 : s.irq
    · cases h5 : (update_irq s).irq
      · rfl
      · rw [h3.mp h5] at h4
        exact Bool.noConfusion h4
    · exact h3.mpr h4
  rw [update_irq_fields, hirq]

/-! ### The deltas of `rearm_timer` -/

theorem rearm_timer_iter_rule (s : NRF52840TimerState) (m : Int) (i : Nat)
    (hb : s.bitmode < 4) (hc : s.counter < 2 ^ bitwidths s.bitmode)
    (hcc : s.cc i < 2 ^ bitwidths s.bitmode)
    (h32 : bitwidths s.bitmode < 32 ∨ s.cc i ≠ s.counter)
    (he : s.events_compare i = 0) :
    rearm_timer_iter s m i
      = min ((((s.cc i + 2 ^ bitwidths s.bitmode - s.counter - 1) % 2 ^ bitwidths s.bitmode + 1)
          * 1000000000 / (64000000 >>> s.prescaler) : Nat) : Int) m := by
  have hf : (64000000 >>> s.prescaler : Nat) ≤ 64000000 := by
    rw [Nat.shiftRight_eq_div_pow]
    exact Nat.div_le_self _ _
  have hf32 : (64000000 >>> s.prescaler : Nat) % 4294967296 = 64000000 >>> s.prescaler :=
    Nat.mod_eq_of_lt (by omega)
  have hns : ∀ d : Nat, d < 4294967296 →
      ticks_to_ns s d = ((d * 1000000000 / (64000000 >>> s.prescaler) : Nat) : Int) := by
    intro d hd
    have h2 : d * 1000000000 / (64000000 >>> s.prescaler) ≤ d * 1000000000 :=
      Nat.div_le_self _ _
    simp only [ticks_to_ns, muldiv64, NANOSECONDS_PER_SECOND, TIMER_CLK_FREQ, hf32,
      Nat.mod_eq_of_lt hd]
    rw [Nat.mod_eq_of_lt (by omega)]
  have hw := bitwidths_cases s.bitmode hb
  have hd1 : s.cc i ≤ s.counter → wrap_distance s i
      = (s.cc i + 2 ^ bitwidths s.bitmode - s.counter - 1) % 2 ^ bitwidths s.bitmode + 1 := by
    intro hle
    unfold wrap_distance BIT
    generalize bitwidths s.bitmode = w at *
    rcases hw with rfl | rfl | rfl | rfl <;> norm_num at hc hcc h32 ⊢ <;> omega
  have hd2 : ¬ s.cc i ≤ s.counter → s.cc i - s.counter
      = (s.cc i + 2 ^ bitwidths s.bitmode - s.counter - 1) % 2 ^ bitwidths s.bitmode + 1 := by
    intro hle
    generalize bitwidths s.bitmode = w at *
    rcases hw with rfl | rfl | rfl | rfl <;> norm_num at hc hcc h32 ⊢ <;> omega
  have hlt : (s.cc i + 2 ^ bitwidths s.bitmode - s.counter - 1) % 2 ^ bitwidths s.bitmode + 1
      < 4294967296 := by
    generalize bitwidths s.bitmode = w at *
    rcases hw with rfl | rfl | rfl | rfl <;> norm_num at hc hcc h32 ⊢ <;> omega
  simp only [rearm_timer_iter, he, ne_eq, not_true_eq_false, if_false]
  by_cases hle : s.cc i ≤ s.counter
  · rw [if_pos hle, hd1 hle, hns _ hlt]
    rw [min_def]
    split_ifs <;> omega
  · rw [if_neg hle, hd2 hle, hns _ hlt]
    rw [min_def]
    split_ifs <;> omega

/-! ### Flash stores, page erase bounds -/

theorem stl_le_p_stl_le_p (m : Nat → Nat) (p v w : Nat) :
    stl_le_p (stl_le_p m p v) p w = stl_le_p m p w := by
  funext a
  unfold stl_le_p
  split_ifs <;> rfl

theorem ldl_le_p_stl_le_p (m : Nat → Nat) (p v : Nat) :
    ldl_le_p (stl_le_p m p v) p = v % 4294967296 := by
  have n1 : ¬ (p + 1 = p) := by omega
  have n2 : ¬ (p + 2 = p) := by omega
  have n3 : ¬ (p + 2 = p + 1) := by omega
  have n4 : ¬ (p + 3 = p) := by omega
  have n5 : ¬ (p + 3 = p + 1) := by omega
  have n6 : ¬ (p + 3 = p + 2) := by omega
  simp only [ldl_le_p, stl_le_p, if_true, if_neg n1, if_neg n2, if_neg n3, if_neg n4,
    if_neg n5, if_neg n6]
  omega

theorem mod32_and_mod32 (x a b : Nat) :
    ((x &&& a) % 4294967296 &&& b) % 4294967296 = (x &&& (a &&& b)) % 4294967296 := by
  apply Nat.eq_of_testBit_eq
  intro i
  have h : (4294967296 : Nat) = 2 ^ 32 := by norm_num
  rw [h]
  simp only [Nat.testBit_mod_two_pow, Nat.testBit_and]
  cases decide (i < 32) <;> simp [Bool.and_assoc]

theorem flash_write_twice (s : NRF52840NVMState) (offset a b size : Nat) :
    (flash_write s offset a size).bind (fun s1 => flash_write s1 offset b size)
      = flash_write s offset (a &&& b) size := by
  by_cases hw : s.config &&& NRF52840_NVMC_CONFIG_WEN ≠ 0
  · by_cases ho : offset + size ≤ s.flash_size
    · have h1 : flash_write s offset a size
          = some { s with storage :=
              (stl_le_p s.storage offset ((ldl_le_p s.storage offset &&& a) % 4294967296)) } := by
        simp only [flash_write, if_pos hw, if_pos ho]
      rw [h1, Option.some_bind]
      simp only [flash_write, if_pos hw, if_pos ho, stl_le_p_stl_le_p, ldl_le_p_stl_le_p,
        Nat.mod_mod, mod32_and_mod32]
    · simp only [flash_write, if_pos hw, if_neg ho, Option.none_bind]
  · simp only [flash_write, if_neg hw, Option.some_bind]

theorem io_write_storage_in_bounds (s : NRF52840NVMState) (offset value a : Nat)
    (hfs : NRF52840_PAGE_SIZE ≤ s.flash_size) (hfs32 : s.flash_size < 4294967296)
    (ha : ¬ a < s.flash_size) : (io_write s offset value).storage a = s.storage a := by
  simp only [io_write]
  split_ifs
  all_goals first
    | rfl
    | (show memset _ _ _ _ a = s.storage a
       unfold memset
       rw [if_neg]
       simp only [NRF52840_PAGE_SIZE] at *
       omega)

/-! ### The RTC frequency -/

theorem rtc_clk_freq_eq_zero_iff (s : RTC.NRF52840RTCState) :
    RTC.clk_freq s = 0 ↔ 16 ≤ s.prescaler := by
  have hle : (32768 >>> s.prescaler : Nat) ≤ 32768 := by
    rw [Nat.shiftRight_eq_div_pow]
    exact Nat.div_le_self _ _
  unfold RTC.clk_freq RTC.TIMER_CLK_FREQ
  rw [Nat.mod_eq_of_lt (by omega), Nat.shiftRight_eq_div_pow,
    Nat.div_eq_zero_iff (Nat.two_pow_pos _)]
  constructor
  · intro h
    by_contra hlt
    have h2 : 2 ^ s.prescaler ≤ 2 ^ 15 := Nat.pow_le_pow_right (by decide) (by omega)
    omega
  · intro h
    have h2 : 2 ^ 16 ≤ 2 ^ s.prescaler := Nat.pow_le_pow_right (by decide) h
    omega

/-! ### Scheduled expiries of the timer when a tick is a whole number of nanoseconds -/

theorem ticks_to_ns_mod (s : NRF52840TimerState) (t : Nat) :
    ticks_to_ns s (t % 4294967296) = ticks_to_ns s t := by
  simp only [ticks_to_ns, Nat.mod_mod]

theorem rearm_timer_iter_delta (s : NRF52840TimerState) (i : Nat)
    (he : s.events_compare i = 0) :
    rearm_timer_iter s INT64_MAX i = ticks_to_ns s (cc_remaining s i) := by
  have h1 := ticks_to_ns_lt s (wrap_distance s i)
  have h2 := ticks_to_ns_lt s (s.cc i - s.counter)
  have hev : ¬ s.events_compare i ≠ 0 := fun h => h he
  unfold rearm_timer_iter cc_remaining
  rw [if_neg hev]
  by_cases hle : s.cc i ≤ s.counter
  · have hgt : ¬ s.cc i > s.counter := by omega
    simp only [if_pos hle, if_neg hgt, ticks_to_ns_mod]
    exact if_pos (by unfold INT64_MAX; omega)
  · have hgt : s.cc i > s.counter := by omega
    simp only [if_neg hle, if_pos hgt, ticks_to_ns_mod]
    exact if_pos (by unfold INT64_MAX; omega)

theorem tick_roundtrip (f k d : Nat) (hfk : k * f = 1000000000) (hd : d < 4294967296) :
    d * 1000000000 / f % 18446744073709551616 * f / 1000000000 % 4294967296 = d := by
  have hf : 0 < f := by
    rcases Nat.eq_zero_or_pos f with h | h
    · rw [h, Nat.mul_zero] at hfk
      exact absurd hfk (by decide)
    · exact h
  have h1 : d * 1000000000 / f = d * k := by
    rw [← hfk, ← Nat.mul_assoc]
    exact Nat.mul_div_cancel _ hf
  have hk : k ≤ 1000000000 := by
    rw [← hfk]
    exact Nat.le_mul_of_pos_right _ hf
  have h3 : d * k ≤ d * 1000000000 := Nat.mul_le_mul_left d hk
  have h2 : d * k < 18446744073709551616 := by omega
  rw [h1, Nat.mod_eq_of_lt h2, Nat.mul_assoc, hfk, Nat.mul_div_cancel _ (by decide),
    Nat.mod_eq_of_lt hd]

theorem ns_to_ticks_ticks_to_ns (s : NRF52840TimerState) (d : Nat)
    (hp3 : 3 ≤ s.prescaler) (hp9 : s.prescaler ≤ 9) (hd : d < 4294967296) :
    ns_to_ticks s (ticks_to_ns s d) = d := by
  have h0 : (0 : Int) ≤ ticks_to_ns s d := by
    unfold ticks_to_ns
    exact Int.ofNat_nonneg _
  have h1 := ticks_to_ns_lt s d
  have hf : (64000000 >>> s.prescaler : Nat) ≤ 64000000 := by
    rw [Nat.shiftRight_eq_div_pow]
    exact Nat.div_le_self _ _
  have hf32 : (64000000 >>> s.prescaler : Nat) % 4294967296 = 64000000 >>> s.prescaler :=
    Nat.mod_eq_of_lt (by omega)
  have hk : ∃ k, k * (64000000 >>> s.prescaler) = 1000000000 := by
    generalize s.prescaler = p at hp3 hp9
    interval_cases p
    · exact ⟨125, by decide⟩
    · exact ⟨250, by decide⟩
    · exact ⟨500, by decide⟩
    · exact ⟨1000, by decide⟩
    · exact ⟨2000, by decide⟩
    · exact ⟨4000, by decide⟩
    · exact ⟨8000, by decide⟩
  obtain ⟨k, hk⟩ := hk
  rw [ns_to_ticks_exact s _ h0 (by omega)]
  simp only [ticks_to_ns, muldiv64, NANOSECONDS_PER_SECOND, TIMER_CLK_FREQ, Int.toNat_ofNat,
    Nat.mod_eq_of_lt hd, hf32]
  exact tick_roundtrip _ k d hk hd

theorem timer_scheduled_expiry_exact (s : NRF52840TimerState) (now : Int) (i : Nat)
    (hi : i < 4) (hp3 : 3 ≤ s.prescaler) (hp9 : s.prescaler ≤ 9)
    (hn : s.update_counter_ns = now) (he : s.events_compare i = 0)
    (hmin : rearm_timer_iter s INT64_MAX i = rearm_min s) :
    (rearm_timer s now).timer = some (now + rearm_min s) ∧
    (timer_expire s (now + rearm_min s)).events_compare i = 1 := by
  have hr : cc_remaining s i < 4294967296 := by
    unfold cc_remaining
    split_ifs <;> exact Nat.mod_lt _ (by decide)
  have hd := rearm_timer_iter_delta s i he
  constructor
  · rw [rearm_timer_eq_min, if_pos ((rearm_min_ne_max_iff s).mp ⟨i, hi, he⟩)]
  · rw [timer_expire_events, hn, ← hmin, hd]
    have hsub : now + ticks_to_ns s (cc_remaining s i) - now
        = ticks_to_ns s (cc_remaining s i) := by omega
    rw [hsub, ns_to_ticks_ticks_to_ns s _ hp3 hp9 hr, if_pos ⟨hi, le_refl _⟩]
/-! ### The started flags of the clock controller -/

theorem clock_write_switch_started (s : NRF52840CLOCKState) (addr value : Nat) :
    (clock_write_switch s addr value).hfclk_started
      = (s.hfclk_started || decide (addr = A_CLOCK_TASKS_HFCLKSTART ∧ value = 1)) ∧
    (clock_write_switch s addr value).lfclk_started
      = (s.lfclk_started || decide (addr = A_CLOCK_TASKS_LFCLKSTART ∧ value = 1)) := by
  unfold clock_write_switch
  by_cases h1 : addr = A_CLOCK_TASKS_HFCLKSTART
  · subst h1
    have h2 : ¬ A_CLOCK_TASKS_HFCLKSTART = A_CLOCK_TASKS_LFCLKSTART := by decide
    rw [if_pos rfl]
    by_cases hv : value = 1
    · simp [h2, hv, nrf52840_clock_update_irq]
    · simp [h2, hv]
  · rw [if_neg h1]
    by_cases h2 : addr = A_CLOCK_TASKS_LFCLKSTART
    · subst h2
      rw [if_pos rfl]
      by_cases hv : value = 1
      · simp [h1, hv, nrf52840_clock_update_irq]
      · simp [h1, hv]
    · rw [if_neg h2]
      have d1 : decide (addr = A_CLOCK_TASKS_HFCLKSTART ∧ value = 1) = false := by simp [h1]
      have d2 : decide (addr = A_CLOCK_TASKS_LFCLKSTART ∧ value = 1) = false := by simp [h2]
      rw [d1, d2, Bool.or_false, Bool.or_false]
      split_ifs <;> exact ⟨rfl, rfl⟩

/-! ### The interrupt line across a reset; distances without the 32-bit overflow -/

theorem timer_reset_irq_matches_iff (s : NRF52840TimerState) :
    irq_matches (nrf52840_timer_reset s) ↔ s.irq = false := by
  have he : ∀ i, i < 4 → (nrf52840_timer_reset s).events_compare i = 0 := by
    intro i hi
    simp [nrf52840_timer_reset, NRF52840_TIMER_REG_COUNT, hi]
  have hirq : (nrf52840_timer_reset s).irq = s.irq := rfl
  unfold irq_matches
  rw [hirq]
  constructor
  · intro h
    cases hs : s.irq
    · rfl
    · obtain ⟨i, hi, hne, _⟩ := h.mp hs
      exact absurd (he i hi) hne
  · intro h
    rw [h]
    constructor
    · intro h1
      exact Bool.noConfusion h1
    · rintro ⟨i, hi, hne, _⟩
      exact absurd (he i hi) hne

theorem cc_remaining_full_wrap (s : NRF52840TimerState) (i : Nat) (hb : s.bitmode < 4)
    (hc : s.counter < 2 ^ bitwidths s.bitmode) (hcc : s.cc i < 2 ^ bitwidths s.bitmode)
    (h32 : bitwidths s.bitmode < 32 ∨ s.cc i ≠ s.counter) :
    cc_remaining s i
      = (s.cc i + 2 ^ bitwidths s.bitmode - s.counter - 1) % 2 ^ bitwidths s.bitmode + 1 := by
  have hw := bitwidths_cases s.bitmode hb
  unfold cc_remaining wrap_distance BIT
  generalize bitwidths s.bitmode = w at *
  rcases hw with rfl | rfl | rfl | rfl <;> norm_num at hc hcc h32 ⊢ <;> split_ifs <;> omega

theorem timer_event_clear_read_code (s : NRF52840TimerState) (i : Nat) (now : Int)
    (hi : i < 4) :
    nrf52840_timer_read
        (nrf52840_timer_write s (NRF52840_TIMER_EVENT_COMPARE_0 + 4 * i) 0 now)
        (NRF52840_TIMER_EVENT_COMPARE_0 + 4 * i)
      = if s.running = true ∧
            cc_remaining s i ≤ ns_to_ticks s (now - s.update_counter_ns) then 1 else 0 := by
  have hidx : (NRF52840_TIMER_EVENT_COMPARE_0 + 4 * i - NRF52840_TIMER_EVENT_COMPARE_0) / 4
      = i := by
    simp only [NRF52840_TIMER_EVENT_COMPARE_0]; omega
  rw [timer_read_at_event _ i hi]
  show (nrf52840_timer_write_switch s (NRF52840_TIMER_EVENT_COMPARE_0 + 4 * i) 0 now
    ).events_compare i = _
  rw [timer_write_switch_at_event s i 0 now hi]
  unfold timer_write_event_compare
  rw [if_pos (show (0 : Nat) = NRF52840_EVENT_CLEAR from rfl), hidx]
  unfold timer_sync
  by_cases hr : s.running = true
  · rw [if_pos hr, timer_expire_events]
    simp only [hi, hr, true_and]
    by_cases hd : cc_remaining s i ≤ ns_to_ticks s (now - s.update_counter_ns)
    · rw [if_pos hd]
      exact if_pos hd
    · rw [if_neg hd]
      exact (if_neg hd).trans (by simp [array_set])
  · rw [if_neg hr]
    simp [hr, array_set]

/-! ### The two branches of `timer_expire` after its loop -/

theorem timer_expire_stop_or_rearm (s : NRF52840TimerState) (now : Int) :
    ((∃ i, i < 4 ∧ cc_remaining s i ≤ ns_to_ticks s (now - s.update_counter_ns) ∧
        s.shorts.testBit (8 + i) = true) →
      (timer_expire s now).running = false ∧ (timer_expire s now).timer = none) ∧
    ((¬ ∃ i, i < 4 ∧ cc_remaining s i ≤ ns_to_ticks s (now - s.update_counter_ns) ∧
        s.shorts.testBit (8 + i) = true) →
      (timer_expire s now).running = s.running ∧
      (timer_expire s now).timer
        = (if rearm_min (timer_expire s now) ≠ INT64_MAX
           then some (now + rearm_min (timer_expire s now)) else s.timer) ∧
      ((∃ i, i < 4 ∧ (timer_expire s now).events_compare i = 0) ↔
        rearm_min (timer_expire s now) ≠ INT64_MAX)) := by
  have hstop := timer_expire_loop_stop s now
  simp only [Nat.add_comm _ 8] at hstop
  have hfr := timer_expire_loop_frame s now
  constructor
  · intro h
    rw [timer_expire_eq, if_pos (hstop.mpr h)]
    exact ⟨rfl, rfl⟩
  · intro h
    have hns : ¬ (timer_expire_loop s now).2 = true := fun hh => h (hstop.mp hh)
    have he : timer_expire s now = rearm_timer (update_irq (timer_expire_loop s now).1) now := by
      rw [timer_expire_eq, if_neg hns]
    have hm : rearm_min (timer_expire s now)
        = rearm_min (update_irq (timer_expire_loop s now).1) := by
      rw [he, rearm_min_rearm_timer]
    refine ⟨?_, ?_, ?_⟩
    · rw [he, (rearm_timer_fields _ now).2.2.2.2.2.2]
      exact hfr.2.2.2.2.2.2.1
    · rw [hm, he, rearm_timer_eq_min]
      split_ifs
      · rfl
      · exact hfr.2.2.2.2.2.2.2
    · exact rearm_min_ne_max_iff (timer_expire s now)

theorem rearm_min_rule (s : NRF52840TimerState) (hb : s.bitmode < 4)
    (hc : s.counter < 2 ^ bitwidths s.bitmode)
    (hcc : ∀ i, i < 4 → s.cc i < 2 ^ bitwidths s.bitmode)
    (h32 : ∀ i, i < 4 → s.events_compare i = 0 →
      bitwidths s.bitmode < 32 ∨ s.cc i ≠ s.counter) :
    rearm_min s
      = [0, 1, 2, 3].foldl
          (fun m i =>
            if s.events_compare i ≠ 0 then m
            else min ((((s.cc i + 2 ^ bitwidths s.bitmode - s.counter - 1)
                % 2 ^ bitwidths s.bitmode + 1)
                * 1000000000 / (64000000 >>> s.prescaler) : Nat) : Int) m)
          INT64_MAX := by
  have hstep : ∀ (m : Int) (i : Nat), i < 4 →
      rearm_timer_iter s m i
        = if s.events_compare i ≠ 0 then m
          else min ((((s.cc i + 2 ^ bitwidths s.bitmode - s.counter - 1)
              % 2 ^ bitwidths s.bitmode + 1)
              * 1000000000 / (64000000 >>> s.prescaler) : Nat) : Int) m := by
    intro m i hi
    by_cases he : s.events_compare i = 0
    · rw [if_neg (fun h => h he)]
      exact rearm_timer_iter_rule s m i hb hc (hcc i hi) (h32 i hi he) he
    · rw [if_pos he]
      simp only [rearm_timer_iter, if_pos he]
  rw [rearm_min_unfold, hstep _ 3 (by decide), hstep _ 2 (by decide), hstep _ 1 (by decide),
    hstep _ 0 (by decide)]
  rfl

theorem timer_expire_stop_example :
    timer_stop_short_state.running = true ∧
    timer_stop_short_state.timer = some 15625 ∧
    ns_to_ticks timer_stop_short_state (15625 - timer_stop_short_state.update_counter_ns)
      = 1000 ∧
    ((timer_expire timer_stop_short_state 15625).running = false ∧
      (timer_expire timer_stop_short_state 15625).timer = none) ∧
    (timer_expire timer_stop_short_state 15625).events_compare 2 = 1 ∧
    (timer_expire timer_stop_short_state 15625).events_compare 0 = 0 ∧
    (timer_expire timer_stop_short_state 15625).events_compare 1 = 0 ∧
    (timer_expire timer_stop_short_state 15625).events_compare 3 = 0 :=
  ⟨by decide, by decide, by decide,
    (timer_expire_stop_or_rearm timer_stop_short_state 15625).1
      ⟨2, by decide, by decide, by decide⟩,
    by decide, by decide, by decide, by decide⟩

/-! ## Part 3: the claims -/

/-! ### NVM -/

/-- C1: with WEN set and the word inside the flash, a flash store of `v` at `offset`
succeeds, leaves each of the four bytes equal to its old value AND byte `k` of `v`
(little-endian), and changes no other storage byte, nor UICR, FICR, config. -/
theorem flash_write_nor_store (s : NRF52840NVMState) (offset v : Nat)
    (hbytes : ∀ a, a < s.flash_size → s.storage a < 256)
    (hwen : s.config &&& NRF52840_NVMC_CONFIG_WEN ≠ 0)
    (hoff : offset + 4 ≤ s.flash_size) (hv : v < 4294967296) :
    ∃ s', flash_write s offset v 4 = some s' ∧
      (∀ k, k < 4 → s'.storage (offset + k) = s.storage (offset + k) &&& (v / 256 ^ k % 256)) ∧
      (∀ a, (a < offset ∨ offset + 4 ≤ a) → s'.storage a = s.storage a) ∧
      s'.uicr_content = s.uicr_content ∧ s'.ficr_content = s.ficr_content ∧
      s'.config = s.config ∧ s'.flash_size = s.flash_size := by
  have _ := hv
  refine ⟨⟨s.ficr_content, s.uicr_content, s.flash_size,
      stl_le_p s.storage offset ((ldl_le_p s.storage offset &&& v) % 4294967296), s.config⟩,
    by simp only [flash_write, if_pos hwen, if_pos hoff], ?_, ?_, rfl, rfl, rfl, rfl⟩
  · intro k hk
    have h0 := hbytes offset (by omega)
    have h1 := hbytes (offset + 1) (by omega)
    have h2 := hbytes (offset + 2) (by omega)
    have h3 := hbytes (offset + 3) (by omega)
    have e0 := and_byte (ldl_le_p s.storage offset) v 0
    have e1 := and_byte (ldl_le_p s.storage offset) v 1
    have e2 := and_byte (ldl_le_p s.storage offset) v 2
    have e3 := and_byte (ldl_le_p s.storage offset) v 3
    norm_num at e0 e1 e2 e3
    have l0 : ldl_le_p s.storage offset % 256 = s.storage offset := by
      unfold ldl_le_p; omega
    have l1 : ldl_le_p s.storage offset / 256 % 256 = s.storage (offset + 1) := by
      unfold ldl_le_p; omega
    have l2 : ldl_le_p s.storage offset / 65536 % 256 = s.storage (offset + 2) := by
      unfold ldl_le_p; omega
    have l3 : ldl_le_p s.storage offset / 16777216 % 256 = s.storage (offset + 3) := by
      unfold ldl_le_p; omega
    rw [l0] at e0; rw [l1] at e1; rw [l2] at e2; rw [l3] at e3
    generalize ldl_le_p s.storage offset &&& v = y at e0 e1 e2 e3 ⊢
    interval_cases k
    · simp only [stl_le_p, Nat.add_zero, if_true, pow_zero, Nat.div_one]
      rw [← e0]; omega
    · have n1 : ¬ (offset + 1 = offset) := by omega
      simp only [stl_le_p, if_neg n1, if_true, pow_one]
      rw [← e1]; omega
    · have n1 : ¬ (offset + 2 = offset) := by omega
      have n2 : ¬ (offset + 2 = offset + 1) := by omega
      simp only [stl_le_p, if_neg n1, if_neg n2, if_true]
      norm_num
      rw [← e2]; omega
    · have n1 : ¬ (offset + 3 = offset) := by omega
      have n2 : ¬ (offset + 3 = offset + 1) := by omega
      have n3 : ¬ (offset + 3 = offset + 2) := by omega
      simp only [stl_le_p, if_neg n1, if_neg n2, if_neg n3, if_true]
      norm_num
      rw [← e3]; omega
  · intro a ha
    have n0 : ¬ (a = offset) := by omega
    have n1 : ¬ (a = offset + 1) := by omega
    have n2 : ¬ (a = offset + 2) := by omega
    have n3 : ¬ (a = offset + 3) := by omega
    simp only [stl_le_p, if_neg n0, if_neg n1, if_neg n2, if_neg n3]

/-- C1 (witness): the erased word 0xFFFFFFFF, stored with 0x12345678 and then with
0xF0F0F0F0, reads back 0x10305070. -/
theorem flash_write_nor_store_witness :
    ((∀ a, a < nvm_erased_wen.flash_size → nvm_erased_wen.storage a < 256) ∧
      nvm_erased_wen.config &&& NRF52840_NVMC_CONFIG_WEN ≠ 0 ∧
      0 + 4 ≤ nvm_erased_wen.flash_size ∧ 0x12345678 < 4294967296) ∧
    (∃ s', flash_write nvm_erased_wen 0 0x12345678 4 = some s' ∧
      (∀ k, k < 4 →
        s'.storage (0 + k) = nvm_erased_wen.storage (0 + k) &&& (0x12345678 / 256 ^ k % 256)) ∧
      (∀ a, (a < 0 ∨ 0 + 4 ≤ a) → s'.storage a = nvm_erased_wen.storage a) ∧
      s'.uicr_content = nvm_erased_wen.uicr_content ∧
      s'.ficr_content = nvm_erased_wen.ficr_content ∧
      s'.config = nvm_erased_wen.config ∧ s'.flash_size = nvm_erased_wen.flash_size) ∧
    (flash_read_word nvm_erased_wen 0 = 0xFFFFFFFF ∧
      ((flash_write nvm_erased_wen 0 0x12345678 4).map fun s1 => flash_read_word s1 0)
        = some 0x12345678 ∧
      (((flash_write nvm_erased_wen 0 0x12345678 4).bind fun s1 =>
          flash_write s1 0 0xF0F0F0F0 4).map fun s2 => flash_read_word s2 0)
        = some 0x10305070) :=
  ⟨⟨fun _ _ => (by decide : (0xFF : Nat) < 256), by decide, by decide, by decide⟩,
    flash_write_nor_store nvm_erased_wen 0 0x12345678
      (fun _ _ => (by decide : (0xFF : Nat) < 256)) (by decide)
      (by decide) (by decide),
    by decide, by decide, by decide⟩

/-- C2: with WEN clear a flash store, whatever the offset, value and access size,
returns normally and leaves the whole NVM state unchanged. -/
theorem flash_write_without_wen (s : NRF52840NVMState) (offset v size : Nat)
    (hwen : s.config &&& NRF52840_NVMC_CONFIG_WEN = 0) :
    flash_write s offset v size = some s := by
  simp [flash_write, hwen]

/-- C2 (witness): scenario 4, a store of 0x12345678 at flash offset 0 without WEN. -/
theorem flash_write_without_wen_witness :
    nvm_erased_locked.config &&& NRF52840_NVMC_CONFIG_WEN = 0 ∧
    flash_write nvm_erased_locked 0 0x12345678 4 = some nvm_erased_locked :=
  ⟨by decide, flash_write_without_wen nvm_erased_locked 0 0x12345678 4 (by decide)⟩

/-- C3: with EEN set and `4096 ≤ flash_size`, a write of a 32-bit `v` to ERASEPCR0 or
ERASEPCR1 erases the page at `p = v` with its low 12 bits cleared when
`p ≤ flash_size - 4096` (bytes `p .. p+4095` become 0xFF, all others keep their value)
and leaves storage alone otherwise; UICR and config are unchanged in both cases. -/
theorem io_write_page_erase (s : NRF52840NVMState) (off v : Nat)
    (hfs : s.flash_size < 4294967296)
    (heen : s.config &&& NRF52840_NVMC_CONFIG_EEN ≠ 0)
    (hsz : 4096 ≤ s.flash_size) (hv : v < 4294967296)
    (hoff : off = NRF52840_NVMC_ERASEPCR0 ∨ off = NRF52840_NVMC_ERASEPCR1) :
    (v - v % 4096 ≤ s.flash_size - 4096 →
      (∀ a, v - v % 4096 ≤ a → a < v - v % 4096 + 4096 → (io_write s off v).storage a = 0xFF) ∧
      (∀ a, (a < v - v % 4096 ∨ v - v % 4096 + 4096 ≤ a) →
        (io_write s off v).storage a = s.storage a)) ∧
    (¬ v - v % 4096 ≤ s.flash_size - 4096 → (io_write s off v).storage = s.storage) ∧
    (io_write s off v).uicr_content = s.uicr_content ∧
    (io_write s off v).config = s.config := by
  have hne : ¬ off = NRF52840_NVMC_CONFIG := by
    rcases hoff with h | h <;> rw [h] <;> decide
  have hmask := and_page_mask v (by omega)
  have hp : v / 4096 * 4096 = v - v % 4096 := by omega
  have hbound : (s.flash_size + 4294967296 - NRF52840_PAGE_SIZE) % 4294967296
      = s.flash_size - 4096 := by
    simp only [NRF52840_PAGE_SIZE]; omega
  have hio : io_write s off v =
      if v - v % 4096 ≤ s.flash_size - 4096 then
        { s with storage := memset s.storage (v - v % 4096) 0xFF NRF52840_PAGE_SIZE }
      else s := by
    simp only [io_write, if_neg hne, if_pos hoff, if_pos heen, hmask, hp, hbound]
  rw [hio]
  by_cases hc : v - v % 4096 ≤ s.flash_size - 4096
  · rw [if_pos hc]
    refine ⟨fun _ => ⟨?_, ?_⟩, fun h => absurd hc h, rfl, rfl⟩
    · intro a h1 h2
      simp only [memset, NRF52840_PAGE_SIZE]
      rw [if_pos ⟨h1, h2⟩]
    · intro a h
      simp only [memset, NRF52840_PAGE_SIZE]
      rw [if_neg (by omega)]
  · rw [if_neg hc]
    exact ⟨fun h => absurd h hc, fun _ => rfl, rfl, rfl⟩

/-- C3 (witness): scenario 5, ERASEPCR0 written with 0x2000 erases bytes 0x2000..0x2FFF
and leaves bytes 0x1FFF and 0x3000 untouched. -/
theorem io_write_page_erase_witness :
    (nvm_zeroed_een.flash_size < 4294967296 ∧
      nvm_zeroed_een.config &&& NRF52840_NVMC_CONFIG_EEN ≠ 0 ∧
      4096 ≤ nvm_zeroed_een.flash_size ∧ 0x2000 < 4294967296) ∧
    ((io_write nvm_zeroed_een NRF52840_NVMC_ERASEPCR0 0x2000).storage 0x2000 = 0xFF ∧
      (io_write nvm_zeroed_een NRF52840_NVMC_ERASEPCR0 0x2000).storage 0x2FFF = 0xFF ∧
      (io_write nvm_zeroed_een NRF52840_NVMC_ERASEPCR0 0x2000).storage 0x1FFF = 0 ∧
      (io_write nvm_zeroed_een NRF52840_NVMC_ERASEPCR0 0x2000).storage 0x3000 = 0) :=
  have h := io_write_page_erase nvm_zeroed_een NRF52840_NVMC_ERASEPCR0 0x2000
    (by decide) (by decide) (by decide) (by decide) (Or.inl rfl)
  have hp := h.1 (by decide)
  ⟨⟨by decide, by decide, by decide, by decide⟩,
    hp.1 0x2000 (by decide) (by decide), hp.1 0x2FFF (by decide) (by decide),
    hp.2 0x1FFF (Or.inl (by decide)), hp.2 0x3000 (Or.inr (by decide))⟩

/-- C4: with EEN set, writing 1 to ERASEALL sets every flash byte below `flash_size` to
0xFF and every one of the 352 UICR words to 0xFFFFFFFF, with config and FICR unchanged;
writing any other value to ERASEALL changes nothing. -/
theorem io_write_eraseall (s : NRF52840NVMState) (v : Nat)
    (heen : s.config &&& NRF52840_NVMC_CONFIG_EEN ≠ 0) :
    ((∀ a, a < s.flash_size → (io_write s NRF52840_NVMC_ERASEALL 1).storage a = 0xFF) ∧
      (∀ i, i < NRF52840_UICR_FIXTURE_SIZE →
        (io_write s NRF52840_NVMC_ERASEALL 1).uicr_content i = 0xFFFFFFFF) ∧
      (io_write s NRF52840_NVMC_ERASEALL 1).config = s.config ∧
      (io_write s NRF52840_NVMC_ERASEALL 1).ficr_content = s.ficr_content) ∧
    (v ≠ 1 → io_write s NRF52840_NVMC_ERASEALL v = s) := by
  have h1 : io_write s NRF52840_NVMC_ERASEALL 1 =
      { s with storage := memset s.storage 0 0xFF s.flash_size,
               uicr_content := memset_words_FF s.uicr_content NRF52840_UICR_FIXTURE_SIZE } := by
    have n1 : ¬ NRF52840_NVMC_ERASEALL = NRF52840_NVMC_CONFIG := by decide
    have n2 : ¬ (NRF52840_NVMC_ERASEALL = NRF52840_NVMC_ERASEPCR0 ∨
        NRF52840_NVMC_ERASEALL = NRF52840_NVMC_ERASEPCR1) := by decide
    have e : (1 : Nat) = NRF52840_NVMC_ERASE := rfl
    simp only [io_write, if_neg n1, if_neg n2, if_pos e, if_pos heen, if_true]
  refine ⟨?_, ?_⟩
  · rw [h1]
    refine ⟨?_, ?_, rfl, rfl⟩
    · intro a ha
      simp only [memset]
      rw [if_pos ⟨Nat.zero_le a, by omega⟩]
    · intro i hi
      simp only [memset_words_FF]
      rw [if_pos hi]
  · intro hv
    have n1 : ¬ NRF52840_NVMC_ERASEALL = NRF52840_NVMC_CONFIG := by decide
    have n2 : ¬ (NRF52840_NVMC_ERASEALL = NRF52840_NVMC_ERASEPCR0 ∨
        NRF52840_NVMC_ERASEALL = NRF52840_NVMC_ERASEPCR1) := by decide
    have n3 : ¬ v = NRF52840_NVMC_ERASE := hv
    simp only [io_write, if_neg n1, if_neg n2, if_neg n3, if_true]

/-- C4 (witness): ERASEALL on the zero-filled flash with EEN set. -/
theorem io_write_eraseall_witness :
    nvm_zeroed_een.config &&& NRF52840_NVMC_CONFIG_EEN ≠ 0 ∧
    (io_write nvm_zeroed_een NRF52840_NVMC_ERASEALL 1).storage 0x3FFFF = 0xFF ∧
    (io_write nvm_zeroed_een NRF52840_NVMC_ERASEALL 1).uicr_content 351 = 0xFFFFFFFF ∧
    io_write nvm_zeroed_een NRF52840_NVMC_ERASEALL 0 = nvm_zeroed_een :=
  have h := io_write_eraseall nvm_zeroed_een 0 (by decide)
  ⟨by decide, h.1.1 0x3FFFF (by decide), h.1.2.1 351 (by decide), h.2 (by decide)⟩

/-- C5: with EEN clear, a write of any value to ERASEPCR0, ERASEPCR1 or ERASEALL leaves
the whole NVM state (storage, UICR, FICR, config) unchanged. -/
theorem io_write_erase_without_een (s : NRF52840NVMState) (off v : Nat)
    (heen : s.config &&& NRF52840_NVMC_CONFIG_EEN = 0)
    (hoff : off = NRF52840_NVMC_ERASEPCR0 ∨ off = NRF52840_NVMC_ERASEPCR1 ∨
      off = NRF52840_NVMC_ERASEALL) :
    io_write s off v = s := by
  have hn : ¬ (s.config &&& NRF52840_NVMC_CONFIG_EEN ≠ 0) := by simp [heen]
  rcases hoff with h | h | h
  · subst h
    have n1 : ¬ NRF52840_NVMC_ERASEPCR0 = NRF52840_NVMC_CONFIG := by decide
    simp only [io_write, if_neg n1, if_neg hn, true_or, if_true]
  · subst h
    have n1 : ¬ NRF52840_NVMC_ERASEPCR1 = NRF52840_NVMC_CONFIG := by decide
    simp only [io_write, if_neg n1, if_neg hn, or_true, if_true]
  · subst h
    have n1 : ¬ NRF52840_NVMC_ERASEALL = NRF52840_NVMC_CONFIG := by decide
    have n2 : ¬ (NRF52840_NVMC_ERASEALL = NRF52840_NVMC_ERASEPCR0 ∨
        NRF52840_NVMC_ERASEALL = NRF52840_NVMC_ERASEPCR1) := by decide
    simp only [io_write, if_neg n1, if_neg n2, if_neg hn, if_true, ite_self]

/-- C5 (witness): ERASEALL = 1 with only WEN set changes nothing. -/
theorem io_write_erase_without_een_witness :
    nvm_zeroed_wen.config &&& NRF52840_NVMC_CONFIG_EEN = 0 ∧
    io_write nvm_zeroed_wen NRF52840_NVMC_ERASEALL 1 = nvm_zeroed_wen :=
  ⟨by decide,
    io_write_erase_without_een nvm_zeroed_wen NRF52840_NVMC_ERASEALL 1 (by decide)
      (Or.inr (Or.inr rfl))⟩

/-- C6 (the code at the failing input): with config = 1 (EEN clear) and UICR word 0
holding 0, writing 1 to ERASEUICR turns UICR word 0 into 0xFFFFFFFF, whereas the
same state is left untouched by ERASEALL = 1. -/
theorem io_write_eraseuicr_ignores_een :
    nvm_zeroed_wen.config &&& NRF52840_NVMC_CONFIG_EEN = 0 ∧
    nvm_zeroed_wen.uicr_content 0 = 0 ∧
    (io_write nvm_zeroed_wen NRF52840_NVMC_ERASEUICR 1).uicr_content 0 = 0xFFFFFFFF ∧
    (io_write nvm_zeroed_wen NRF52840_NVMC_ERASEALL 1).uicr_content 0 = 0 := by
  decide

/-- C7 (counterexample): reset does not touch the flash bytes; a flash holding zero
bytes still holds them after reset, and its first word does not read 0xFFFFFFFF. -/
theorem nvm_reset_keeps_storage_counterexample :
    0 < (nrf52840_nvm_reset nvm_zeroed_wen).flash_size ∧
    (nrf52840_nvm_reset nvm_zeroed_wen).storage 0 ≠ 0xFF ∧
    flash_read_word (nrf52840_nvm_reset nvm_zeroed_wen) 0 ≠ 0xFFFFFFFF := by
  decide

/-- C7 (amended): after a reset config is 0 and every FICR word and every UICR word is
0xFFFFFFFF, while the flash bytes and `flash_size` are exactly what they were. -/
theorem nvm_reset_state (s : NRF52840NVMState) :
    (nrf52840_nvm_reset s).config = 0 ∧
    (∀ i, i < NRF52840_FICR_FIXTURE_SIZE →
      (nrf52840_nvm_reset s).ficr_content i = 0xFFFFFFFF) ∧
    (∀ i, i < NRF52840_UICR_FIXTURE_SIZE →
      (nrf52840_nvm_reset s).uicr_content i = 0xFFFFFFFF) ∧
    (nrf52840_nvm_reset s).storage = s.storage ∧
    (nrf52840_nvm_reset s).flash_size = s.flash_size := by
  refine ⟨rfl, ?_, ?_, rfl, rfl⟩
  · intro i hi
    simp only [nrf52840_nvm_reset, memset_words_FF]
    rw [if_pos hi]
  · intro i hi
    simp only [nrf52840_nvm_reset, memset_words_FF]
    rw [if_pos hi]

/-- C8: for a word-aligned offset `o < 1408` and a 32-bit `v`, a UICR write of `v` at `o`
succeeds and a following UICR read at `o` returns `v`, except at 0x200 and 0x204 where it
returns 0; the write changes no UICR word other than word `o / 4`, and no storage, FICR,
config or flash_size. -/
theorem uicr_write_read (s : NRF52840NVMState) (o v : Nat)
    (hal : o % 4 = 0) (ho : o < 1408) (hv : v < 4294967296) :
    ∃ s', uicr_write s o v = some s' ∧
      uicr_read s' o = some (if o = 0x200 ∨ o = 0x204 then 0 else v) ∧
      (∀ i, i ≠ o / 4 → s'.uicr_content i = s.uicr_content i) ∧
      s'.storage = s.storage ∧ s'.ficr_content = s.ficr_content ∧
      s'.config = s.config ∧ s'.flash_size = s.flash_size := by
  have _ := hal
  have hlt : o < 4 * NRF52840_UICR_FIXTURE_SIZE := by
    simp only [NRF52840_UICR_FIXTURE_SIZE]; omega
  refine ⟨⟨s.ficr_content, fun i => if i = o / 4 then v % 4294967296 else s.uicr_content i,
      s.flash_size, s.storage, s.config⟩, ?_, ?_, ?_, rfl, rfl, rfl, rfl⟩
  · simp only [uicr_write, if_pos hlt]
  · simp only [uicr_read, if_pos hlt, NRF52840_UICR_PSELRESET_0, NRF52840_UICR_PSELRESET_1]
    by_cases hp : o = 0x200 ∨ o = 0x204
    · rw [if_pos hp, if_pos hp]
    · rw [if_neg hp, if_neg hp, if_pos trivial, Nat.mod_eq_of_lt hv]
  · intro i hi
    simp only [if_neg hi]

/-- C8 (witness): 0xDEADBEEF written to UICR offset 0x80 reads back; written to the
PSELRESET offset 0x200 it reads as 0. -/
theorem uicr_write_read_witness :
    ((0x80 % 4 = 0 ∧ 0x80 < 1408 ∧ 0xDEADBEEF < 4294967296) ∧
      ((uicr_write nvm_zeroed_wen 0x80 0xDEADBEEF).bind fun s1 => uicr_read s1 0x80)
        = some 0xDEADBEEF ∧
      ((uicr_write nvm_zeroed_wen 0x200 0xDEADBEEF).bind fun s1 => uicr_read s1 0x200)
        = some 0) ∧
    (∃ s', uicr_write nvm_zeroed_wen 0x80 0xDEADBEEF = some s' ∧
      uicr_read s' 0x80 = some (if 0x80 = 0x200 ∨ 0x80 = 0x204 then 0 else 0xDEADBEEF) ∧
      (∀ i, i ≠ 0x80 / 4 → s'.uicr_content i = nvm_zeroed_wen.uicr_content i) ∧
      s'.storage = nvm_zeroed_wen.storage ∧ s'.ficr_content = nvm_zeroed_wen.ficr_content ∧
      s'.config = nvm_zeroed_wen.config ∧ s'.flash_size = nvm_zeroed_wen.flash_size) :=
  ⟨⟨⟨by decide, by decide, by decide⟩, by decide, by decide⟩,
    uicr_write_read nvm_zeroed_wen 0x80 0xDEADBEEF (by decide) (by decide) (by decide)⟩

/-! ### Timer -/

/-- C9 (counterexample): the state reached from reset by INTENSET := 0x10000, START and
the expiry one full wrap later has its interrupt line asserted; resetting it gives a reset
state, reached from itself by the empty sequence of events, in which the line is asserted
although `inten` is 0 and no `events_compare[i]` is set. -/
theorem timer_irq_invariant_counterexample :
    (timer_run (nrf52840_timer_reset timer_irq_high_state) []).irq = true ∧
    (timer_run (nrf52840_timer_reset timer_irq_high_state) []).inten = 0 ∧
    ¬ ∃ i, i < 4 ∧
      (timer_run (nrf52840_timer_reset timer_irq_high_state) []).events_compare i ≠ 0 ∧
      (timer_run (nrf52840_timer_reset timer_irq_high_state) []).inten.testBit (16 + i)
        = true := by
  refine ⟨by decide, by decide, ?_⟩
  rintro ⟨i, hi, he, _⟩
  interval_cases i <;> exact he (by decide)

/-- C9 (amended): in every state reached by one or more MMIO writes and host-timer
expiries (at arbitrary times) from any state whatever, a reset state included, the
interrupt line is asserted if and only if some `i < 4` has `events_compare[i]` set and
bit `16 + i` of `inten` set.  A reset does not drive the line: in the reset state itself
the equivalence holds exactly when the line was low before the reset, and from such a
reset state it holds after every sequence of writes and expiries, the empty one too. -/
theorem timer_irq_invariant :
    (∀ (s : NRF52840TimerState) (e : TimerEvent) (evs : List TimerEvent),
      ((timer_run s (e :: evs)).irq = true ↔
        ∃ i, i < 4 ∧ (timer_run s (e :: evs)).events_compare i ≠ 0 ∧
          (timer_run s (e :: evs)).inten.testBit (16 + i) = true)) ∧
    (∀ (s : NRF52840TimerState) (evs : List TimerEvent), s.irq = false →
      ((timer_run (nrf52840_timer_reset s) evs).irq = true ↔
        ∃ i, i < 4 ∧ (timer_run (nrf52840_timer_reset s) evs).events_compare i ≠ 0 ∧
          (timer_run (nrf52840_timer_reset s) evs).inten.testBit (16 + i) = true)) ∧
    (∀ (s : NRF52840TimerState),
      (((nrf52840_timer_reset s).irq = true ↔
        ∃ i, i < 4 ∧ (nrf52840_timer_reset s).events_compare i ≠ 0 ∧
          (nrf52840_timer_reset s).inten.testBit (16 + i) = true) ↔ s.irq = false)) :=
  ⟨fun s e evs => timer_run_irq_matches evs (timer_step s e) (timer_step_irq_matches s e),
    fun s evs h => timer_run_irq_matches evs (nrf52840_timer_reset s)
      ((timer_reset_irq_matches_iff s).mpr h),
    fun s => timer_reset_irq_matches_iff s⟩

/-- C10 (counterexample): START at time 0, CAPTURE[0] one millisecond later (64000 ticks
in the default 16-bit mode), STOP, then BITMODE := 1 (8 bits): the timer is stopped, the
stored counter is 64000, and 64000 is not below 2^8. -/
theorem timer_counter_range_counterexample :
    (timer_run timer_reset_state timer_narrowing_trace).counter = 64000 ∧
    (timer_run timer_reset_state timer_narrowing_trace).bitmode = 1 ∧
    (timer_run timer_reset_state timer_narrowing_trace).running = false ∧
    ¬ (timer_run timer_reset_state timer_narrowing_trace).counter
      < 2 ^ bitwidths (timer_run timer_reset_state timer_narrowing_trace).bitmode := by
  decide

/-- C10 (amended): in every state reached from the reset state by MMIO writes and
host-timer expiries in which each BITMODE write finds the stored counter below
2^bitwidth of the bit mode it selects, `counter < 2^bitwidth(bitmode)`, with bitmode in
0..3 and bitwidth 16, 8, 24, 32 for bitmode 0, 1, 2, 3. -/
theorem timer_counter_range_invariant (evs : List TimerEvent)
    (hfit : bitmode_writes_fit timer_reset_state evs) :
    (timer_run timer_reset_state evs).counter
        < 2 ^ bitwidths (timer_run timer_reset_state evs).bitmode ∧
    (timer_run timer_reset_state evs).bitmode < 4 ∧
    bitwidths 0 = 16 ∧ bitwidths 1 = 8 ∧ bitwidths 2 = 24 ∧ bitwidths 3 = 32 :=
  ⟨(timer_run_range evs timer_reset_state ⟨by decide, by decide⟩ hfit).1,
    (timer_run_range evs timer_reset_state ⟨by decide, by decide⟩ hfit).2,
    rfl, rfl, rfl, rfl⟩

/-- C10 (witness): the fitting trace selects 8-bit mode while the counter is 0; CAPTURE[0]
after 64 ticks stores 64, and at the expiry 192 ticks later the 8-bit counter has wrapped
to 0. -/
theorem timer_counter_range_invariant_witness :
    bitmode_writes_fit timer_reset_state timer_fitting_trace ∧
    ((timer_run timer_reset_state timer_fitting_trace).counter
        < 2 ^ bitwidths (timer_run timer_reset_state timer_fitting_trace).bitmode ∧
      (timer_run timer_reset_state timer_fitting_trace).bitmode < 4 ∧
      bitwidths 0 = 16 ∧ bitwidths 1 = 8 ∧ bitwidths 2 = 24 ∧ bitwidths 3 = 32) ∧
    (timer_run timer_reset_state timer_fitting_trace).counter = 0 ∧
    (timer_run timer_reset_state timer_fitting_trace).cc 0 = 64 ∧
    (timer_run timer_reset_state timer_fitting_trace).bitmode = 1 :=
  have hfit : bitmode_writes_fit timer_reset_state timer_fitting_trace :=
    ⟨fun _ => by decide, fun h => absurd h (by decide), fun h => absurd h (by decide),
      trivial, trivial⟩
  ⟨hfit, timer_counter_range_invariant timer_fitting_trace hfit, by decide, by decide,
    by decide⟩

/-- C11 (counterexample): on the reset state (16-bit mode) CC[0] := 60000 is stored as
60000; BITMODE := 1 then selects 8 bits and leaves cc[0] = 60000, not below 2^8. -/
theorem timer_cc_range_counterexample :
    (timer_run timer_reset_state timer_cc_narrowing_trace).cc 0 = 60000 ∧
    (timer_run timer_reset_state timer_cc_narrowing_trace).bitmode = 1 ∧
    ¬ (timer_run timer_reset_state timer_cc_narrowing_trace).cc 0
      < 2 ^ bitwidths (timer_run timer_reset_state timer_cc_narrowing_trace).bitmode := by
  decide

/-- C11 (amended): in every state reached from the reset state by MMIO writes and
host-timer expiries in which each BITMODE write finds the stored counter and the four
compare registers below 2^bitwidth of the bit mode it selects,
`cc[i] < 2^bitwidth(bitmode)` for every `i < 4` (and bitmode is in 0..3). -/
theorem timer_cc_range_invariant (evs : List TimerEvent)
    (hfit : bitmode_writes_fit_cc timer_reset_state evs) :
    (∀ i, i < 4 → (timer_run timer_reset_state evs).cc i
        < 2 ^ bitwidths (timer_run timer_reset_state evs).bitmode) ∧
    (timer_run timer_reset_state evs).bitmode < 4 :=
  ⟨(timer_run_range_cc evs timer_reset_state
      ⟨⟨by decide, by decide⟩, timer_reset_state_cc_ok⟩ hfit).2,
    (timer_run_range_cc evs timer_reset_state
      ⟨⟨by decide, by decide⟩, timer_reset_state_cc_ok⟩ hfit).1.2⟩

/-- C11 (witness): the fitting trace selects 8-bit mode on the reset state; CC[2] := 1000
is stored as 232 and CAPTURE[0] after 64 ticks stores 64. -/
theorem timer_cc_range_invariant_witness :
    bitmode_writes_fit_cc timer_reset_state timer_cc_fitting_trace ∧
    ((∀ i, i < 4 → (timer_run timer_reset_state timer_cc_fitting_trace).cc i
        < 2 ^ bitwidths (timer_run timer_reset_state timer_cc_fitting_trace).bitmode) ∧
      (timer_run timer_reset_state timer_cc_fitting_trace).bitmode < 4) ∧
    (timer_run timer_reset_state timer_cc_fitting_trace).cc 2 = 232 ∧
    (timer_run timer_reset_state timer_cc_fitting_trace).cc 0 = 64 ∧
    (timer_run timer_reset_state timer_cc_fitting_trace).bitmode = 1 :=
  have hfit : bitmode_writes_fit_cc timer_reset_state timer_cc_fitting_trace :=
    ⟨fun _ => ⟨by decide, fun i hi => by interval_cases i <;> decide⟩, fun h => absurd h (by decide),
      fun h => absurd h (by decide), fun h => absurd h (by decide), trivial⟩
  ⟨hfit, timer_cc_range_invariant timer_cc_fitting_trace hfit, by decide, by decide,
    by decide⟩

/-- C12: for `i < 4` and a 32-bit `v` (in particular `v ≥ 2^bitwidth`), a write of `v` to
CC[i] (0x540 + 4i) leaves `cc[i] = v mod 2^bitwidth(bitmode)`, a following read of CC[i]
returns that value, the other compare registers are unchanged, and so is bitmode. -/
theorem timer_write_cc_modulo (s : NRF52840TimerState) (i v : Nat) (now : Int)
    (hi : i < 4) (hv : v < 4294967296) :
    (nrf52840_timer_write s (NRF52840_TIMER_REG_CC0 + 4 * i) v now).cc i
      = v % 2 ^ bitwidths s.bitmode ∧
    nrf52840_timer_read (nrf52840_timer_write s (NRF52840_TIMER_REG_CC0 + 4 * i) v now)
        (NRF52840_TIMER_REG_CC0 + 4 * i) = v % 2 ^ bitwidths s.bitmode ∧
    (∀ j, j ≠ i →
      (nrf52840_timer_write s (NRF52840_TIMER_REG_CC0 + 4 * i) v now).cc j = s.cc j) ∧
    (nrf52840_timer_write s (NRF52840_TIMER_REG_CC0 + 4 * i) v now).bitmode = s.bitmode := by
  have _ := hv
  have hidx : (NRF52840_TIMER_REG_CC0 + 4 * i - NRF52840_TIMER_REG_CC0) / 4 = i := by
    simp only [NRF52840_TIMER_REG_CC0]; omega
  have hcc : (nrf52840_timer_write s (NRF52840_TIMER_REG_CC0 + 4 * i) v now).cc
      = array_set s.cc i (v % BIT (bitwidths s.bitmode)) := by
    show (nrf52840_timer_write_switch s (NRF52840_TIMER_REG_CC0 + 4 * i) v now).cc = _
    rw [timer_write_switch_at_cc s i v now hi, (timer_write_cc_fields s _ v now).1, hidx]
  have hb : (nrf52840_timer_write s (NRF52840_TIMER_REG_CC0 + 4 * i) v now).bitmode
      = s.bitmode := by
    show (nrf52840_timer_write_switch s (NRF52840_TIMER_REG_CC0 + 4 * i) v now).bitmode = _
    rw [timer_write_switch_at_cc s i v now hi, (timer_write_cc_fields s _ v now).2]
  refine ⟨?_, ?_, ?_, hb⟩
  · rw [hcc]; simp [array_set, BIT]
  · rw [timer_read_at_cc _ i hi, hcc]; simp [array_set, BIT]
  · intro j hj
    rw [hcc]; simp [array_set, hj]

/-- C12 (witness): on the reset state (16-bit mode) the value 0x12345678 written to CC[1]
is stored, and read back, as 0x5678. -/
theorem timer_write_cc_modulo_witness :
    (1 < 4 ∧ 0x12345678 < 4294967296) ∧
    ((nrf52840_timer_write timer_reset_state (NRF52840_TIMER_REG_CC0 + 4 * 1) 0x12345678 0).cc 1
        = 0x12345678 % 2 ^ bitwidths timer_reset_state.bitmode ∧
      nrf52840_timer_read
          (nrf52840_timer_write timer_reset_state (NRF52840_TIMER_REG_CC0 + 4 * 1) 0x12345678 0)
          (NRF52840_TIMER_REG_CC0 + 4 * 1) = 0x12345678 % 2 ^ bitwidths timer_reset_state.bitmode ∧
      (∀ j, j ≠ 1 →
        (nrf52840_timer_write timer_reset_state (NRF52840_TIMER_REG_CC0 + 4 * 1) 0x12345678 0).cc j
          = timer_reset_state.cc j) ∧
      (nrf52840_timer_write timer_reset_state (NRF52840_TIMER_REG_CC0 + 4 * 1) 0x12345678 0).bitmode
        = timer_reset_state.bitmode) ∧
    0x12345678 % 2 ^ bitwidths timer_reset_state.bitmode = 0x5678 :=
  ⟨⟨by decide, by decide⟩,
    timer_write_cc_modulo timer_reset_state 1 0x12345678 0 (by decide) (by decide),
    by decide⟩

/-- C13 (the code at the failing input): the stopped timer holds counter = 100 in timer
mode with prescaler 0.  TASK_START at time 2000 marks it running and sets the anchor
`update_counter_ns` to 2000 - 1562, so TASK_CAPTURE[0] at the same time 2000 adds the 99
ticks of those 1562 ns to the stored 100 and stores 199, with no compare event raised. -/
theorem timer_task_start_counts_twice :
    timer_stopped_at_100.running = false ∧ timer_stopped_at_100.mode = 0 ∧
    timer_stopped_at_100.counter = 100 ∧ timer_stopped_at_100.prescaler = 0 ∧
    timer_stopped_at_100.bitmode = 0 ∧
    (nrf52840_timer_write timer_stopped_at_100 NRF52840_TIMER_TASK_START 1 2000).running
      = true ∧
    (nrf52840_timer_write timer_stopped_at_100 NRF52840_TIMER_TASK_START 1 2000
      ).update_counter_ns = 438 ∧
    (nrf52840_timer_write
      (nrf52840_timer_write timer_stopped_at_100 NRF52840_TIMER_TASK_START 1 2000)
      NRF52840_TIMER_TASK_CAPTURE_0 1 2000).cc 0 = 199 ∧
    (∀ i, i < 4 →
      (nrf52840_timer_write
        (nrf52840_timer_write timer_stopped_at_100 NRF52840_TIMER_TASK_START 1 2000)
        NRF52840_TIMER_TASK_CAPTURE_0 1 2000).events_compare i = 0) := by
  refine ⟨by decide, by decide, by decide, by decide, by decide, by decide, by decide,
    by decide, ?_⟩
  intro i hi
  interval_cases i <;> decide

/-- C14: for every timer state, running or stopped, and every time `t`, after writing 1
to TASK_CLEAR at `t` the counter is 0, and a TASK_CAPTURE[i] written at the same time `t`
stores 0 in CC[i] (the counter still being 0). -/
theorem timer_task_clear_zero (s : NRF52840TimerState) (t : Int) (i : Nat) (hi : i < 4) :
    (nrf52840_timer_write s NRF52840_TIMER_TASK_CLEAR 1 t).counter = 0 ∧
    (nrf52840_timer_write (nrf52840_timer_write s NRF52840_TIMER_TASK_CLEAR 1 t)
        (NRF52840_TIMER_TASK_CAPTURE_0 + 4 * i) 1 t).cc i = 0 ∧
    (nrf52840_timer_write (nrf52840_timer_write s NRF52840_TIMER_TASK_CLEAR 1 t)
        (NRF52840_TIMER_TASK_CAPTURE_0 + 4 * i) 1 t).counter = 0 := by
  have hclr := timer_write_task_clear_fields s t
  have hc : (nrf52840_timer_write s NRF52840_TIMER_TASK_CLEAR 1 t).counter = 0 := hclr.1
  have hn : (nrf52840_timer_write s NRF52840_TIMER_TASK_CLEAR 1 t).update_counter_ns = t :=
    hclr.2
  generalize nrf52840_timer_write s NRF52840_TIMER_TASK_CLEAR 1 t = s1 at hc hn ⊢
  have hsync : (timer_sync s1 t).counter = 0 := by
    unfold timer_sync
    split_ifs
    · exact timer_expire_counter_zero s1 t hc hn
    · exact hc
  have hidx : (NRF52840_TIMER_TASK_CAPTURE_0 + 4 * i - NRF52840_TIMER_TASK_CAPTURE_0) / 4
      = i := by
    simp only [NRF52840_TIMER_TASK_CAPTURE_0]; omega
  have hw : nrf52840_timer_write s1 (NRF52840_TIMER_TASK_CAPTURE_0 + 4 * i) 1 t
      = update_irq { timer_sync s1 t with
          cc := array_set (timer_sync s1 t).cc i (timer_sync s1 t).counter } := by
    unfold nrf52840_timer_write
    rw [timer_write_switch_at_capture s1 i 1 t hi]
    unfold timer_write_task_capture
    rw [if_pos (show (1 : Nat) = NRF52840_TRIGGER_TASK from rfl), hidx]
  rw [hw]
  refine ⟨hc, ?_, hsync⟩
  show array_set (timer_sync s1 t).cc i (timer_sync s1 t).counter i = 0
  rw [hsync]
  simp [array_set]

/-- C14 (witness): TASK_CLEAR and CAPTURE[1], both at time 1030000, on the running timer
left by START and one full wrap of the 16-bit counter. -/
theorem timer_task_clear_zero_witness :
    (1 < 4) ∧
    ((nrf52840_timer_write timer_irq_high_state NRF52840_TIMER_TASK_CLEAR 1 1030000).counter
        = 0 ∧
      (nrf52840_timer_write
          (nrf52840_timer_write timer_irq_high_state NRF52840_TIMER_TASK_CLEAR 1 1030000)
          (NRF52840_TIMER_TASK_CAPTURE_0 + 4 * 1) 1 1030000).cc 1 = 0 ∧
      (nrf52840_timer_write
          (nrf52840_timer_write timer_irq_high_state NRF52840_TIMER_TASK_CLEAR 1 1030000)
          (NRF52840_TIMER_TASK_CAPTURE_0 + 4 * 1) 1 1030000).counter = 0) ∧
    timer_irq_high_state.running = true :=
  ⟨by decide, timer_task_clear_zero timer_irq_high_state 1030000 1 (by decide), by decide⟩

/-- C15 (counterexample): START at time 0, expiry after one full 16-bit wrap (all four
events set, host timer left unarmed), then EVENT_COMPARE[0] := 0 one more full wrap later:
the reconciliation that follows the clearing finds CC[0] reached again, and the read
returns 1. -/
theorem timer_event_clear_counterexample :
    nrf52840_timer_read (timer_run timer_reset_state timer_event_clear_trace)
      NRF52840_TIMER_EVENT_COMPARE_0 = 1 := by
  decide

/-- C15 (amended): for `i < 4`, after writing 0 to EVENT_COMPARE[i] at time `now` a read
of EVENT_COMPARE[i] returns 0 when the timer is stopped.  When it is running, with
bitmode in 0..3, counter < 2^w and cc[i] < 2^w (w = bitwidth(bitmode)), and apart from
the case cc[i] = counter in 32-bit mode, the read returns 0 when the distance
d_i = ((cc[i] - counter - 1) mod 2^w) + 1 from the stored counter to CC[i] exceeds the
ticks elapsed since the last reconciliation, and 1 when d_i is within them: the
reconciliation made by the write sets the flag again. -/
theorem timer_event_clear_read (s : NRF52840TimerState) (i : Nat) (now : Int) (hi : i < 4) :
    (s.running = false →
      nrf52840_timer_read
          (nrf52840_timer_write s (NRF52840_TIMER_EVENT_COMPARE_0 + 4 * i) 0 now)
          (NRF52840_TIMER_EVENT_COMPARE_0 + 4 * i) = 0) ∧
    (s.running = true → s.bitmode < 4 → s.counter < 2 ^ bitwidths s.bitmode →
      s.cc i < 2 ^ bitwidths s.bitmode →
      (bitwidths s.bitmode < 32 ∨ s.cc i ≠ s.counter) →
      nrf52840_timer_read
          (nrf52840_timer_write s (NRF52840_TIMER_EVENT_COMPARE_0 + 4 * i) 0 now)
          (NRF52840_TIMER_EVENT_COMPARE_0 + 4 * i)
        = if (s.cc i + 2 ^ bitwidths s.bitmode - s.counter - 1) % 2 ^ bitwidths s.bitmode + 1
              ≤ ns_to_ticks s (now - s.update_counter_ns)
          then 1 else 0) := by
  constructor
  · intro hr
    rw [timer_event_clear_read_code s i now hi, if_neg]
    rintro ⟨h, _⟩
    rw [hr] at h
    exact Bool.noConfusion h
  · intro hr hb hc hcc h32
    rw [timer_event_clear_read_code s i now hi, cc_remaining_full_wrap s i hb hc hcc h32]
    simp only [hr, true_and]

/-- C15 (witness): on the running 16-bit timer left by START and one full wrap, 6000 ns
(384 ticks) after its last reconciliation, EVENT_COMPARE[2] is set and CC[2] = counter = 0
is a full wrap of 65536 ticks away: clearing the flag reads back 0. -/
theorem timer_event_clear_read_witness :
    (2 < 4 ∧ timer_irq_high_state.running = true ∧ timer_irq_high_state.bitmode < 4 ∧
      timer_irq_high_state.counter < 2 ^ bitwidths timer_irq_high_state.bitmode ∧
      timer_irq_high_state.cc 2 < 2 ^ bitwidths timer_irq_high_state.bitmode ∧
      bitwidths timer_irq_high_state.bitmode < 32) ∧
    timer_irq_high_state.events_compare 2 = 1 ∧
    (timer_irq_high_state.cc 2 + 2 ^ bitwidths timer_irq_high_state.bitmode
      - timer_irq_high_state.counter - 1) % 2 ^ bitwidths timer_irq_high_state.bitmode + 1
      = 65536 ∧
    ns_to_ticks timer_irq_high_state (1030000 - timer_irq_high_state.update_counter_ns)
      = 384 ∧
    nrf52840_timer_read
        (nrf52840_timer_write timer_irq_high_state (NRF52840_TIMER_EVENT_COMPARE_0 + 4 * 2) 0
          1030000)
        (NRF52840_TIMER_EVENT_COMPARE_0 + 4 * 2) = 0 :=
  ⟨⟨by decide, by decide, by decide, by decide, by decide, by decide⟩, by decide, by decide,
    by decide,
    ((timer_event_clear_read timer_irq_high_state 2 1030000 (by decide)).2 (by decide)
      (by decide) (by decide) (by decide) (Or.inl (by decide))).trans (by decide)⟩

/-- C16: from the reset state at time `t0`, for every `n` with `1 ≤ n < 2^32`, after the
writes PRESCALER := 4, BITMODE := 3, CC[0] := n, INTENSET := 0x10000, TASK_START := 1
(all at `t0`), letting the host timer fire at each deadline the model schedules up to
time `t0 + 250 n` (two expiries suffice, more fuel changes nothing) ends in a state in
which EVENT_COMPARE[0] reads 1 and the interrupt line is asserted. -/
theorem timer_one_shot (t0 : Int) (n fuel : Nat) (h1 : 1 ≤ n) (h2 : n < 4294967296)
    (hfuel : 2 ≤ fuel) :
    ∃ s', timer_fire_due fuel (timer_run timer_reset_state (timer_one_shot_writes n t0))
        (t0 + 250 * (n : Int)) = some s' ∧
      nrf52840_timer_read s' NRF52840_TIMER_EVENT_COMPARE_0 = 1 ∧ s'.irq = true := by
  obtain ⟨m, rfl⟩ : ∃ m, fuel = m + 2 := ⟨fuel - 2, by omega⟩
  have hrun : timer_run timer_reset_state (timer_one_shot_writes n t0)
      = nrf52840_timer_write
          (timer_run timer_reset_state
            [.write NRF52840_TIMER_REG_PRESCALER 4 t0, .write NRF52840_TIMER_REG_BITMODE 3 t0,
             .write NRF52840_TIMER_REG_CC0 n t0, .write NRF52840_TIMER_REG_INTENSET 0x10000 t0])
          NRF52840_TIMER_TASK_START 1 t0 := rfl
  obtain ⟨hcc0, hccz, hev, hc, hb, hp, hm, hs, hi⟩ := one_shot_configured n t0 h2
  rw [hrun]
  generalize timer_run timer_reset_state
      [.write NRF52840_TIMER_REG_PRESCALER 4 t0, .write NRF52840_TIMER_REG_BITMODE 3 t0,
       .write NRF52840_TIMER_REG_CC0 n t0, .write NRF52840_TIMER_REG_INTENSET 0x10000 t0]
    = s4 at hcc0 hccz hev hc hb hp hm hs hi ⊢
  obtain ⟨a1, a2, a3, a4, a5, a6, a7, a8, a9⟩ := one_shot_start s4 n t0 h1 h2 hcc0
    (hccz 1 (by decide) (by decide)) (hccz 2 (by decide) (by decide))
    (hccz 3 (by decide) (by decide)) hc hb hp hm
    (hev 0 (by decide)) (hev 1 (by decide)) (hev 2 (by decide)) (hev 3 (by decide))
  generalize nrf52840_timer_write s4 NRF52840_TIMER_TASK_START 1 t0 = s5
    at a1 a2 a3 a4 a5 a6 a7 a8 a9 ⊢
  have hle1 : t0 ≤ t0 + 250 * (n : Int) := by omega
  rw [timer_fire_due_step (m + 1) s5 _ t0 a1 hle1]
  obtain ⟨b1, b2, b3, b4, b5, b6, b7, b8, b9, b10, b11, b12⟩ :=
    one_shot_first_expiry { s5 with timer := none } n t0 h1 h2
      (by show s5.cc 0 = n; rw [a4]; exact hcc0)
      (by show s5.cc 1 = 0; rw [a4]; exact hccz 1 (by decide) (by decide))
      (by show s5.cc 2 = 0; rw [a4]; exact hccz 2 (by decide) (by decide))
      (by show s5.cc 3 = 0; rw [a4]; exact hccz 3 (by decide) (by decide))
      a3 (a6.trans hb) (a7.trans hp) (a8.trans hs) a2
      (by show s5.events_compare 0 = 0; rw [a5]; exact hev 0 (by decide))
  generalize timer_expire { s5 with timer := none } t0 = s6
    at b1 b2 b3 b4 b5 b6 b7 b8 b9 b10 b11 b12 ⊢
  rw [timer_fire_due_step m s6 _ (t0 + 250 * (n : Int)) b1 (le_refl _)]
  obtain ⟨c1, c2, c3⟩ :=
    one_shot_second_expiry { s6 with timer := none } n t0 h1 h2
      (by show s6.cc 0 = n; rw [b4, a4]; exact hcc0)
      b3 (b10.trans (a7.trans hp)) (b11.trans (a8.trans hs))
      (b12.trans (a9.trans hi)) b2 rfl b6 b7 b8
  rw [timer_fire_due_idle m _ _ c1]
  exact ⟨_, rfl, c2, c3⟩

/-- C16 (witness): n = 4000 at t0 = 0, that is one millisecond at 4 MHz. -/
theorem timer_one_shot_witness :
    (1 ≤ 4000 ∧ 4000 < 4294967296 ∧ 2 ≤ 2) ∧
    (∃ s', timer_fire_due 2 (timer_run timer_reset_state (timer_one_shot_writes 4000 0))
        (0 + 250 * ((4000 : Nat) : Int)) = some s' ∧
      nrf52840_timer_read s' NRF52840_TIMER_EVENT_COMPARE_0 = 1 ∧ s'.irq = true) ∧
    (timer_fire_due 2 (timer_run timer_reset_state (timer_one_shot_writes 4000 0)) 1000000).map
      (fun s => (nrf52840_timer_read s NRF52840_TIMER_EVENT_COMPARE_0, s.irq, s.counter))
      = some (1, true, 4000) :=
  ⟨⟨by decide, by decide, by decide⟩,
    timer_one_shot 0 4000 2 (by decide) (by decide) (by decide), by decide⟩

set_option maxRecDepth 100000 in
/-- C17 (the code at the failing input): the shortcut-clear scenario from reset at time 0.
The first deadline for CC[1] = 100 is 1562 ns, where only 99 ticks have elapsed; every
later deadline is 15 ns after the previous expiry and yields 0 ticks.  After the 54
expiries scheduled up to 2344 ns, EVENT_COMPARE[1] reads 0 and TASK_CAPTURE[0] at 2344 ns
stores 99. -/
theorem timer_short_clear_stalls :
    (timer_fire_due 1 (timer_run timer_reset_state (timer_short_clear_writes 0)) 0).map
      (fun s => (s.timer, s.counter)) = some (some 1562, 0) ∧
    (timer_fire_due 2 (timer_run timer_reset_state (timer_short_clear_writes 0)) 1562).map
      (fun s => (s.timer, s.counter, s.events_compare 1)) = some (some 1577, 99, 0) ∧
    (timer_fire_due 53 (timer_run timer_reset_state (timer_short_clear_writes 0)) 2344
      ).isSome = false ∧
    (timer_fire_due 54 (timer_run timer_reset_state (timer_short_clear_writes 0)) 2344).map
      (fun s => nrf52840_timer_read s (NRF52840_TIMER_EVENT_COMPARE_0 + 4)) = some 0 ∧
    (timer_fire_due 54 (timer_run timer_reset_state (timer_short_clear_writes 0)) 2344).map
      (fun s => (nrf52840_timer_write s NRF52840_TIMER_TASK_CAPTURE_0 1 2344).cc 0)
      = some 99 ∧
    (timer_fire_due 54 (timer_run timer_reset_state (timer_short_clear_writes 0)) 2344).map
      (fun s => nrf52840_timer_read
        (nrf52840_timer_write s NRF52840_TIMER_TASK_CAPTURE_0 1 2344)
        (NRF52840_TIMER_EVENT_COMPARE_0 + 4)) = some 0 := by
  refine ⟨by decide, by decide, ?_, ?_, ?_, ?_⟩ <;> decide

/-- C18 (counterexample): the state reached from reset by INTENSET := 0x10000, START and
the expiry one full wrap later has its interrupt line asserted; after
`nrf52840_timer_reset` the line is still asserted although no event flag and no enable
bit is set any more. -/
theorem timer_reset_irq_counterexample :
    timer_irq_high_state.irq = true ∧
    (nrf52840_timer_reset timer_irq_high_state).irq = true ∧
    (nrf52840_timer_reset timer_irq_high_state).inten = 0 ∧
    (∀ i, i < 4 → (nrf52840_timer_reset timer_irq_high_state).events_compare i = 0) := by
  refine ⟨by decide, by decide, by decide, ?_⟩
  intro i hi
  interval_cases i <;> decide

/-- C18 (amended): for every timer state, after reset the timer is stopped with no
pending host-timer deadline; counter, both time anchors, every `events_compare[i]` and
`cc[i]`, shorts, inten, mode, bitmode and prescaler are 0; the interrupt line keeps the
level it had before the reset, so the line agrees with the (now empty) set of enabled
events exactly when it was low before. -/
theorem timer_reset_clears (s : NRF52840TimerState) :
    (nrf52840_timer_reset s).running = false ∧
    (nrf52840_timer_reset s).timer = none ∧
    (nrf52840_timer_reset s).counter = 0 ∧
    (nrf52840_timer_reset s).timer_start_ns = 0 ∧
    (nrf52840_timer_reset s).update_counter_ns = 0 ∧
    (∀ i, i < 4 → (nrf52840_timer_reset s).events_compare i = 0) ∧
    (∀ i, i < 4 → (nrf52840_timer_reset s).cc i = 0) ∧
    (nrf52840_timer_reset s).shorts = 0 ∧ (nrf52840_timer_reset s).inten = 0 ∧
    (nrf52840_timer_reset s).mode = 0 ∧ (nrf52840_timer_reset s).bitmode = 0 ∧
    (nrf52840_timer_reset s).prescaler = 0 ∧
    (nrf52840_timer_reset s).irq = s.irq ∧
    (((nrf52840_timer_reset s).irq = true ↔
        ∃ i, i < 4 ∧ (nrf52840_timer_reset s).events_compare i ≠ 0 ∧
          (nrf52840_timer_reset s).inten.testBit (16 + i) = true) ↔ s.irq = false) := by
  have he : ∀ i, i < 4 → (nrf52840_timer_reset s).events_compare i = 0 := by
    intro i hi
    simp [nrf52840_timer_reset, NRF52840_TIMER_REG_COUNT, hi]
  refine ⟨rfl, rfl, rfl, rfl, rfl, he, ?_, rfl, rfl, rfl, rfl, rfl, rfl, ?_⟩
  · intro i hi
    simp [nrf52840_timer_reset, NRF52840_TIMER_REG_COUNT, hi]
  · have hirq : (nrf52840_timer_reset s).irq = s.irq := rfl
    have hno : ¬ ∃ i, i < 4 ∧ (nrf52840_timer_reset s).events_compare i ≠ 0 ∧
        (nrf52840_timer_reset s).inten.testBit (16 + i) = true := by
      rintro ⟨i, hi, hne, _⟩
      exact hne (he i hi)
    rw [hirq]
    constructor
    · intro h
      cases hs : s.irq
      · rfl
      · exact absurd (h.1 hs) hno
    · intro h
      rw [h]
      exact ⟨fun hf => absurd hf (by decide), fun hx => absurd hx hno⟩

/-- C19: for a timer running in timer mode and every value `v`, a write of `v` to
PRESCALER (0x510) sets prescaler to `v mod 16` and a write of `v` to BITMODE (0x508) sets
bitmode to `v mod 4`; running, the host timer, both anchors, counter, events, CC, shorts,
inten, mode and the other of the two registers are unchanged by the write. -/
theorem timer_write_prescaler_bitmode_applied (s : NRF52840TimerState) (v : Nat) (now : Int)
    (hrun : s.running = true) (hmode : s.mode = NRF52840_TIMER_TIMER) :
    (nrf52840_timer_write s NRF52840_TIMER_REG_PRESCALER v now).prescaler = v % 16 ∧
    (nrf52840_timer_write s NRF52840_TIMER_REG_PRESCALER v now).bitmode = s.bitmode ∧
    (nrf52840_timer_write s NRF52840_TIMER_REG_BITMODE v now).bitmode = v % 4 ∧
    (nrf52840_timer_write s NRF52840_TIMER_REG_BITMODE v now).prescaler = s.prescaler ∧
    (∀ off, off = NRF52840_TIMER_REG_PRESCALER ∨ off = NRF52840_TIMER_REG_BITMODE →
      (nrf52840_timer_write s off v now).running = s.running ∧
      (nrf52840_timer_write s off v now).timer = s.timer ∧
      (nrf52840_timer_write s off v now).timer_start_ns = s.timer_start_ns ∧
      (nrf52840_timer_write s off v now).update_counter_ns = s.update_counter_ns ∧
      (nrf52840_timer_write s off v now).counter = s.counter ∧
      (nrf52840_timer_write s off v now).events_compare = s.events_compare ∧
      (nrf52840_timer_write s off v now).cc = s.cc ∧
      (nrf52840_timer_write s off v now).shorts = s.shorts ∧
      (nrf52840_timer_write s off v now).inten = s.inten ∧
      (nrf52840_timer_write s off v now).mode = s.mode) := by
  have _ := hrun
  have _ := hmode
  have h16 : v &&& NRF52840_TIMER_REG_PRESCALER_MASK = v % 16 :=
    Nat.and_pow_two_sub_one_eq_mod v 4
  have h4 : v &&& NRF52840_TIMER_REG_BITMODE_MASK = v % 4 :=
    Nat.and_pow_two_sub_one_eq_mod v 2
  refine ⟨h16, rfl, h4, rfl, ?_⟩
  intro off hoff
  rcases hoff with h | h <;> subst h <;> exact ⟨rfl, rfl, rfl, rfl, rfl, rfl, rfl, rfl, rfl, rfl⟩

/-- C19 (witness): the running timer above, written with PRESCALER := 0x19 and
BITMODE := 7, ends with prescaler 9 and bitmode 3 and is still running. -/
theorem timer_write_prescaler_bitmode_applied_witness :
    (timer_irq_high_state.running = true ∧ timer_irq_high_state.mode = NRF52840_TIMER_TIMER) ∧
    (nrf52840_timer_write timer_irq_high_state NRF52840_TIMER_REG_PRESCALER 0x19 1030000
      ).prescaler = 9 ∧
    (nrf52840_timer_write timer_irq_high_state NRF52840_TIMER_REG_BITMODE 7 1030000
      ).bitmode = 3 ∧
    (nrf52840_timer_write timer_irq_high_state NRF52840_TIMER_REG_BITMODE 7 1030000
      ).running = true :=
  have h := timer_write_prescaler_bitmode_applied timer_irq_high_state 0x19 1030000
    (by decide) (by decide)
  have h7 := timer_write_prescaler_bitmode_applied timer_irq_high_state 7 1030000
    (by decide) (by decide)
  ⟨⟨by decide, by decide⟩, h.1, h7.2.2.1, by decide⟩

/-! ### RTC -/

/-- C20: in every RTC state reached from the reset state by MMIO reads, MMIO writes and
host-timer expiries (at arbitrary times), `counter < 2^24` and `cc[i] < 2^24` for every
`i < 4`. -/
theorem rtc_width_invariant (evs : List RTC.RTCEvent) :
    (RTC.rtc_run RTC.rtc_reset_state evs).counter < 2 ^ 24 ∧
    ∀ i, i < 4 → (RTC.rtc_run RTC.rtc_reset_state evs).cc i < 2 ^ 24 :=
  rtc_run_width evs RTC.rtc_reset_state rtc_reset_state_width

/-! ### Clock controller -/

/-- C21: after reset of any clock state, and after any MMIO write (any address, any
value) to any clock state, the interrupt line is asserted if and only if
(hfclk_started_event_enabled and hfclk_event_generated) or (lfclk_started_event_enabled
and lfclk_event_generated).  In the scenario reset, INTENSET := 1, HFCLKSTART := 1 the
line is asserted, and writing 0 to EVENTS_HFCLKSTARTED deasserts it. -/
theorem clock_irq_invariant :
    (∀ s : NRF52840CLOCKState,
      ((nrf52840_clock_reset s).irq = true ↔
        ((nrf52840_clock_reset s).hfclk_started_event_enabled = true ∧
          (nrf52840_clock_reset s).hfclk_event_generated = true) ∨
        ((nrf52840_clock_reset s).lfclk_started_event_enabled = true ∧
          (nrf52840_clock_reset s).lfclk_event_generated = true))) ∧
    (∀ (s : NRF52840CLOCKState) (addr value : Nat),
      ((clock_write s addr value).irq = true ↔
        ((clock_write s addr value).hfclk_started_event_enabled = true ∧
          (clock_write s addr value).hfclk_event_generated = true) ∨
        ((clock_write s addr value).lfclk_started_event_enabled = true ∧
          (clock_write s addr value).lfclk_event_generated = true))) ∧
    (clock_write (clock_write (nrf52840_clock_reset clock_all_set) A_CLOCK_INTENSET 1)
      A_CLOCK_TASKS_HFCLKSTART 1).irq = true ∧
    (clock_write
      (clock_write (clock_write (nrf52840_clock_reset clock_all_set) A_CLOCK_INTENSET 1)
        A_CLOCK_TASKS_HFCLKSTART 1)
      A_CLOCK_EVENTS_HFCLKSTARTED 0).irq = false := by
  have hupd : ∀ t : NRF52840CLOCKState, clock_irq_matches (nrf52840_clock_update_irq t) := by
    intro t
    unfold clock_irq_matches nrf52840_clock_update_irq
    cases t.lfclk_started_event_enabled <;> cases t.lfclk_event_generated <;>
      cases t.hfclk_started_event_enabled <;> cases t.hfclk_event_generated <;> simp
  exact ⟨fun s => hupd _, fun s addr value => hupd _, by decide, by decide⟩
/-- C22: for every clock state, writing 1 to HFCLKSTART (0x000) sets hfclk_started and
hfclk_event_generated, a following read of EVENTS_HFCLKSTARTED (0x100) returns 1, a
following read of HFCLKSTAT (0x40C) has the STATE bit set, and the LFCLK flags and both
enable flags are unchanged; writing 1 to LFCLKSTART (0x008) sets lfclk_started and
lfclk_event_generated (a following read of EVENTS_LFCLKSTARTED returns 1) and leaves the
HFCLK flags and both enable flags unchanged; writing a value other than 1 to either task
changes none of the six flags. -/
theorem clock_write_task_start (s : NRF52840CLOCKState) :
    ((clock_write s 0x000 1).hfclk_started = true ∧
      (clock_write s 0x000 1).hfclk_event_generated = true ∧
      clock_read (clock_write s 0x000 1) 0x100 = 1 ∧
      (clock_read (clock_write s 0x000 1) 0x40C).testBit R_CLOCK_HFCLKSTAT_STATE_SHIFT = true ∧
      (clock_write s 0x000 1).lfclk_started = s.lfclk_started ∧
      (clock_write s 0x000 1).lfclk_event_generated = s.lfclk_event_generated ∧
      (clock_write s 0x000 1).hfclk_started_event_enabled = s.hfclk_started_event_enabled ∧
      (clock_write s 0x000 1).lfclk_started_event_enabled = s.lfclk_started_event_enabled) ∧
    ((clock_write s 0x008 1).lfclk_started = true ∧
      (clock_write s 0x008 1).lfclk_event_generated = true ∧
      clock_read (clock_write s 0x008 1) 0x104 = 1 ∧
      (clock_write s 0x008 1).hfclk_started = s.hfclk_started ∧
      (clock_write s 0x008 1).hfclk_event_generated = s.hfclk_event_generated ∧
      (clock_write s 0x008 1).hfclk_started_event_enabled = s.hfclk_started_event_enabled ∧
      (clock_write s 0x008 1).lfclk_started_event_enabled = s.lfclk_started_event_enabled) ∧
    (∀ (addr v : Nat), (addr = 0x000 ∨ addr = 0x008) → v ≠ 1 →
      (clock_write s addr v).hfclk_started = s.hfclk_started ∧
      (clock_write s addr v).hfclk_event_generated = s.hfclk_event_generated ∧
      (clock_write s addr v).lfclk_started = s.lfclk_started ∧
      (clock_write s addr v).lfclk_event_generated = s.lfclk_event_generated ∧
      (clock_write s addr v).hfclk_started_event_enabled = s.hfclk_started_event_enabled ∧
      (clock_write s addr v).lfclk_started_event_enabled = s.lfclk_started_event_enabled) := by
  have hbit : ∀ r : Nat, (r ||| (1 <<< 16)).testBit 16 = true := by
    intro r
    rw [Nat.testBit_or, Nat.one_shiftLeft, Nat.testBit_two_pow_self, Bool.or_true]
  refine ⟨⟨rfl, rfl, rfl, ?_, rfl, rfl, rfl, rfl⟩, ⟨rfl, rfl, rfl, rfl, rfl, rfl, rfl⟩, ?_⟩
  · exact hbit _
  · rintro addr v (rfl | rfl) hv
    · have hw : clock_write s 0x000 v = nrf52840_clock_update_irq
          { s with reg := array_set s.reg (A_CLOCK_TASKS_HFCLKSTART / 4) (v % 4294967296) } := by
        show nrf52840_clock_update_irq (clock_write_switch s A_CLOCK_TASKS_HFCLKSTART v) = _
        unfold clock_write_switch
        rw [if_pos rfl, if_neg hv]
      rw [hw]
      exact ⟨rfl, rfl, rfl, rfl, rfl, rfl⟩
    · have hw : clock_write s 0x008 v = nrf52840_clock_update_irq
          { s with reg := array_set s.reg (A_CLOCK_TASKS_LFCLKSTART / 4) (v % 4294967296) } := by
        show nrf52840_clock_update_irq (clock_write_switch s A_CLOCK_TASKS_LFCLKSTART v) = _
        unfold clock_write_switch
        rw [if_neg (by decide), if_pos rfl, if_neg hv]
      rw [hw]
      exact ⟨rfl, rfl, rfl, rfl, rfl, rfl⟩

/-- C23: for every clock state and every value v, after writing v to EVENTS_HFCLKSTARTED
(0x100) the flag hfclk_event_generated is clear if and only if bit 0 of v is clear, and a
following read of EVENTS_HFCLKSTARTED returns the flag as 0 or 1; likewise for
EVENTS_LFCLKSTARTED (0x104) and lfclk_event_generated.  Neither write changes a started
flag or an enable flag (nor the event flag of the other clock). -/
theorem clock_write_event (s : NRF52840CLOCKState) (v : Nat) :
    (((clock_write s 0x100 v).hfclk_event_generated = false ↔ v.testBit 0 = false) ∧
      clock_read (clock_write s 0x100 v) 0x100
        = (if (clock_write s 0x100 v).hfclk_event_generated then 1 else 0) ∧
      (clock_write s 0x100 v).hfclk_started = s.hfclk_started ∧
      (clock_write s 0x100 v).lfclk_started = s.lfclk_started ∧
      (clock_write s 0x100 v).hfclk_started_event_enabled = s.hfclk_started_event_enabled ∧
      (clock_write s 0x100 v).lfclk_started_event_enabled = s.lfclk_started_event_enabled ∧
      (clock_write s 0x100 v).lfclk_event_generated = s.lfclk_event_generated) ∧
    (((clock_write s 0x104 v).lfclk_event_generated = false ↔ v.testBit 0 = false) ∧
      clock_read (clock_write s 0x104 v) 0x104
        = (if (clock_write s 0x104 v).lfclk_event_generated then 1 else 0) ∧
      (clock_write s 0x104 v).hfclk_started = s.hfclk_started ∧
      (clock_write s 0x104 v).lfclk_started = s.lfclk_started ∧
      (clock_write s 0x104 v).hfclk_started_event_enabled = s.hfclk_started_event_enabled ∧
      (clock_write s 0x104 v).lfclk_started_event_enabled = s.lfclk_started_event_enabled ∧
      (clock_write s 0x104 v).hfclk_event_generated = s.hfclk_event_generated) := by
  have hb : v &&& 1 ≠ 0 ↔ v.testBit 0 = true := by
    rw [Nat.and_one_is_mod, Nat.testBit_zero]
    simp only [decide_eq_true_eq]
    omega
  by_cases h : v &&& 1 ≠ 0
  · have hh : clock_write s 0x100 v = nrf52840_clock_update_irq
        { nrf52840_clock_update_irq { s with hfclk_event_generated := true } with
          reg := array_set s.reg (A_CLOCK_EVENTS_HFCLKSTARTED / 4) (v % 4294967296) } := by
      show nrf52840_clock_update_irq (clock_write_switch s A_CLOCK_EVENTS_HFCLKSTARTED v) = _
      unfold clock_write_switch
      rw [if_neg (by decide), if_neg (by decide), if_pos rfl,
        if_pos (show v &&& R_CLOCK_EVENTS_HFCLKSTARTED_GENERATED_MASK ≠ 0 from h)]
      rfl
    have hl : clock_write s 0x104 v = nrf52840_clock_update_irq
        { nrf52840_clock_update_irq { s with lfclk_event_generated := true } with
          reg := array_set s.reg (A_CLOCK_EVENTS_LFCLKSTARTED / 4) (v % 4294967296) } := by
      show nrf52840_clock_update_irq (clock_write_switch s A_CLOCK_EVENTS_LFCLKSTARTED v) = _
      unfold clock_write_switch
      rw [if_neg (by decide), if_neg (by decide), if_neg (by decide), if_pos rfl,
        if_pos (show v &&& R_CLOCK_EVENTS_LFCLKSTARTED_GENERATED_MASK ≠ 0 from h)]
      rfl
    have ht : v.testBit 0 = true := hb.mp h
    rw [hh, hl]
    refine ⟨⟨?_, rfl, rfl, rfl, rfl, rfl, rfl⟩, ⟨?_, rfl, rfl, rfl, rfl, rfl, rfl⟩⟩
    · rw [ht]; exact ⟨fun h1 => (Bool.noConfusion h1), fun h1 => (Bool.noConfusion h1)⟩
    · rw [ht]; exact ⟨fun h1 => (Bool.noConfusion h1), fun h1 => (Bool.noConfusion h1)⟩
  · have hh : clock_write s 0x100 v = nrf52840_clock_update_irq
        { s with hfclk_event_generated := false,
                 reg := array_set s.reg (A_CLOCK_EVENTS_HFCLKSTARTED / 4) (v % 4294967296) } := by
      show nrf52840_clock_update_irq (clock_write_switch s A_CLOCK_EVENTS_HFCLKSTARTED v) = _
      unfold clock_write_switch
      rw [if_neg (by decide), if_neg (by decide), if_pos rfl,
        if_neg (show ¬ v &&& R_CLOCK_EVENTS_HFCLKSTARTED_GENERATED_MASK ≠ 0 from h)]
    have hl : clock_write s 0x104 v = nrf52840_clock_update_irq
        { s with lfclk_event_generated := false,
                 reg := array_set s.reg (A_CLOCK_EVENTS_LFCLKSTARTED / 4) (v % 4294967296) } := by
      show nrf52840_clock_update_irq (clock_write_switch s A_CLOCK_EVENTS_LFCLKSTARTED v) = _
      unfold clock_write_switch
      rw [if_neg (by decide), if_neg (by decide), if_neg (by decide), if_pos rfl,
        if_neg (show ¬ v &&& R_CLOCK_EVENTS_LFCLKSTARTED_GENERATED_MASK ≠ 0 from h)]
    have ht : v.testBit 0 = false := by
      cases hv : v.testBit 0
      · rfl
      · exact absurd (hb.mpr hv) h
    rw [hh, hl]
    refine ⟨⟨?_, rfl, rfl, rfl, rfl, rfl, rfl⟩, ⟨?_, rfl, rfl, rfl, rfl, rfl, rfl⟩⟩
    · rw [ht]; exact ⟨fun _ => rfl, fun _ => rfl⟩
    · rw [ht]; exact ⟨fun _ => rfl, fun _ => rfl⟩

/-! ### SoC interrupt routing -/

/-- C24: the CPU interrupt input wired for a peripheral with base B is
BASE_TO_IRQ(B) = (B >> 12) & 0x1F, that is (B / 4096) mod 32; the nine inputs connected
by the SoC (UART, RNG, RTC0, RTC1, RTC2, TIMER0, TIMER1, TIMER2, CLOCK, in the order of
connection) are 2, 13, 11, 17, 4, 8, 9, 10 and 0, all below the CPU's num-irq of 32 and
pairwise distinct. -/
theorem soc_irq_routing :
    (∀ B : Nat, BASE_TO_IRQ B = (B >>> 12) &&& 0x1F ∧ BASE_TO_IRQ B = B / 4096 % 32 ∧
      BASE_TO_IRQ B < soc_num_irq) ∧
    BASE_TO_IRQ 0x40002000 = 2 ∧ BASE_TO_IRQ 0x40000000 = 0 ∧ BASE_TO_IRQ 0x4000D000 = 13 ∧
    BASE_TO_IRQ 0x4000B000 = 11 ∧ BASE_TO_IRQ 0x40011000 = 17 ∧ BASE_TO_IRQ 0x40024000 = 4 ∧
    (∀ i, i < 3 → BASE_TO_IRQ (0x40008000 + i * 0x1000) = 8 + i) ∧
    soc_irq_lines = [2, 13, 11, 17, 4, 8, 9, 10, 0] ∧
    (∀ n ∈ soc_irq_lines, n < soc_num_irq) ∧
    soc_irq_lines.Nodup := by
  have hB : ∀ B : Nat, BASE_TO_IRQ B = B / 4096 % 32 := by
    intro B
    unfold BASE_TO_IRQ
    rw [Nat.shiftRight_eq_div_pow]
    exact Nat.and_pow_two_sub_one_eq_mod (B / 2 ^ 12) 5
  refine ⟨fun B => ⟨rfl, hB B, ?_⟩, by decide, by decide, by decide, by decide, by decide,
    by decide, ?_, by decide, by decide, by decide⟩
  · rw [hB]
    exact Nat.mod_lt _ (by decide)
  · intro i hi
    interval_cases i <;> decide

/-! ### Timer: reconciliation rules -/

/-- C25 (counterexample): right after START on the reset state (16-bit mode, counter 0,
CC[0] = 0, no event set) a reconciliation at 1000 ns sees 64 elapsed ticks; the distance
(cc[0] - counter) mod 2^16 is 0, which is at most 64, yet `timer_expire` leaves
events_compare[0] at 0. -/
theorem timer_expire_event_rule_counterexample :
    timer_just_started.bitmode = 0 ∧ bitwidths timer_just_started.bitmode = 16 ∧
    timer_just_started.counter < 2 ^ 16 ∧ timer_just_started.cc 0 < 2 ^ 16 ∧
    timer_just_started.update_counter_ns ≤ 1000 ∧
    ns_to_ticks timer_just_started (1000 - timer_just_started.update_counter_ns) = 64 ∧
    (timer_just_started.cc 0 + 2 ^ 16 - timer_just_started.counter) % 2 ^ 16 = 0 ∧
    timer_just_started.events_compare 0 = 0 ∧
    (timer_expire timer_just_started 1000).events_compare 0 = 0 := by
  refine ⟨by decide, by decide, by decide, by decide, by decide, by decide, by decide,
    by decide, by decide⟩

/-- C25 (amended): for every timer state with bitmode in 0..3, counter < 2^w and
cc[i] < 2^w (w = bitwidth(bitmode)) and every time now (in particular every
now >= update_counter_ns), `timer_expire` at now sets events_compare[i] to 1 exactly for
those i < 4 whose distance d_i = ((cc[i] - counter - 1) mod 2^w) + 1, computed from the
counter before it is advanced, satisfies d_i <= ticks, where
ticks = ns_to_ticks(now - update_counter_ns); every other such flag keeps its prior value.
A CC equal to the counter is thus a full wrap of 2^w ticks away.  The rule is stated for
the 8-, 16- and 24-bit modes and, in 32-bit mode, for the i with cc[i] different from the
counter; the 32-bit case cc[i] = counter is left out. -/
theorem timer_expire_event_rule (s : NRF52840TimerState) (now : Int)
    (hb : s.bitmode < 4) (hc : s.counter < 2 ^ bitwidths s.bitmode)
    (hcc : ∀ i, i < 4 → s.cc i < 2 ^ bitwidths s.bitmode) :
    ∀ i, i < 4 → (bitwidths s.bitmode < 32 ∨ s.cc i ≠ s.counter) →
      (timer_expire s now).events_compare i
        = if (s.cc i + 2 ^ bitwidths s.bitmode - s.counter - 1) % 2 ^ bitwidths s.bitmode + 1
              ≤ ns_to_ticks s (now - s.update_counter_ns)
          then 1 else s.events_compare i := by
  intro i hi h32
  rw [timer_expire_events, cc_remaining_full_wrap s i hb hc (hcc i hi) h32]
  simp only [hi, true_and]

/-- C25 (witness): with CC[0] = 50 and CC[1] = 0 = counter, 16-bit mode, a reconciliation
64 ticks after START sets events_compare[0] (distance 50) and leaves events_compare[1]
clear (distance 65536). -/
theorem timer_expire_event_rule_witness :
    (timer_cc0_at_50.bitmode < 4 ∧
      timer_cc0_at_50.counter < 2 ^ bitwidths timer_cc0_at_50.bitmode ∧
      (∀ i, i < 4 → timer_cc0_at_50.cc i < 2 ^ bitwidths timer_cc0_at_50.bitmode) ∧
      bitwidths timer_cc0_at_50.bitmode < 32) ∧
    timer_cc0_at_50.update_counter_ns ≤ 1000 ∧
    ns_to_ticks timer_cc0_at_50 (1000 - timer_cc0_at_50.update_counter_ns) = 64 ∧
    (timer_cc0_at_50.cc 0 + 2 ^ bitwidths timer_cc0_at_50.bitmode
      - timer_cc0_at_50.counter - 1) % 2 ^ bitwidths timer_cc0_at_50.bitmode + 1 = 50 ∧
    (timer_cc0_at_50.cc 1 + 2 ^ bitwidths timer_cc0_at_50.bitmode
      - timer_cc0_at_50.counter - 1) % 2 ^ bitwidths timer_cc0_at_50.bitmode + 1 = 65536 ∧
    (timer_expire timer_cc0_at_50 1000).events_compare 0 = 1 ∧
    (timer_expire timer_cc0_at_50 1000).events_compare 1 = 0 :=
  have hcc : ∀ i, i < 4 → timer_cc0_at_50.cc i < 2 ^ bitwidths timer_cc0_at_50.bitmode :=
    fun i hi => by interval_cases i <;> decide
  ⟨⟨by decide, by decide, hcc, by decide⟩, by decide, by decide, by decide, by decide,
    (timer_expire_event_rule timer_cc0_at_50 1000 (by decide) (by decide) hcc
      0 (by decide) (Or.inl (by decide))).trans (by decide),
    (timer_expire_event_rule timer_cc0_at_50 1000 (by decide) (by decide) hcc
      1 (by decide) (Or.inl (by decide))).trans (by decide)⟩

/-- C27 (code at the failing input): a running timer in 32-bit mode, prescaler 4,
SHORTS = 0x2 (no stop shortcut), CC[1] = 100, counter 50 reconciled at 12500 ns, armed for
25000 ns.  `timer_expire` at 25000 ns sees 50 ticks: CC[1] matches, its shortcut clears
the counter, no stop is requested and running stays true.  Afterwards events_compare[0] is
the one clear flag and CC[0] = counter = 0, so the rearming rule gives the distance
2^32 ticks, that is 1073741824000 ns, and the deadline 1073741849000; the host timer is
armed for 25000, a distance of 0. -/
theorem timer_expire_rearm_full_wrap_lost :
    timer_rearm_wrap_state.running = true ∧ timer_rearm_wrap_state.bitmode = 3 ∧
    timer_rearm_wrap_state.prescaler = 4 ∧ timer_rearm_wrap_state.shorts = 2 ∧
    timer_rearm_wrap_state.timer = some 25000 ∧
    ns_to_ticks timer_rearm_wrap_state (25000 - timer_rearm_wrap_state.update_counter_ns)
      = 50 ∧
    (∀ i, i < 4 → timer_rearm_wrap_state.shorts.testBit (8 + i) = false) ∧
    (timer_expire timer_rearm_wrap_state 25000).running = true ∧
    (timer_expire timer_rearm_wrap_state 25000).counter = 0 ∧
    (timer_expire timer_rearm_wrap_state 25000).cc 0 = 0 ∧
    (timer_expire timer_rearm_wrap_state 25000).events_compare 0 = 0 ∧
    (∀ i, 1 ≤ i → i < 4 → (timer_expire timer_rearm_wrap_state 25000).events_compare i = 1) ∧
    (((timer_expire timer_rearm_wrap_state 25000).cc 0 + 2 ^ 32
        - (timer_expire timer_rearm_wrap_state 25000).counter - 1) % 2 ^ 32 + 1)
      * 1000000000 / (64000000 >>> (timer_expire timer_rearm_wrap_state 25000).prescaler)
      = 1073741824000 ∧
    (timer_expire timer_rearm_wrap_state 25000).timer = some 25000 := by
  refine ⟨by decide, by decide, by decide, by decide, by decide, by decide, ?_, by decide,
    by decide, by decide, by decide, ?_, by decide, by decide⟩
  · intro i hi
    interval_cases i <;> decide
  · intro i h1 hi
    interval_cases i <;> decide

/-- C26 (code at the failing input): in 32-bit mode with counter = 0 and CC[0..3] = 0 and
no compare flag set, the rule asks for a deadline one full wrap (2^32 ticks, that is
67108864000 ns at prescaler 0) after now; `rearm_timer` at now = 1000 schedules the host
timer for 1000, a distance of 0 ns, because `ticks_to_ns` receives the distance as a
`uint32_t`.  Seen from the guest: BITMODE := 3, INTENSET := 0x10000 and START at time 0
arm the host timer for time 0, and that expiry sets all four compare events and raises
the interrupt line at once. -/
theorem timer_rearm_32bit_full_wrap_lost :
    timer_32bit_state.bitmode = 3 ∧ bitwidths timer_32bit_state.bitmode = 32 ∧
    timer_32bit_state.counter = 0 ∧ timer_32bit_state.prescaler = 0 ∧
    (∀ i, i < 4 → timer_32bit_state.cc i = 0 ∧ timer_32bit_state.events_compare i = 0) ∧
    ((timer_32bit_state.cc 0 + 2 ^ 32 - timer_32bit_state.counter - 1) % 2 ^ 32 + 1)
      * 1000000000 / (64000000 >>> timer_32bit_state.prescaler) = 67108864000 ∧
    (rearm_timer timer_32bit_state 1000).timer = some 1000 ∧
    (timer_run timer_reset_state
      [.write NRF52840_TIMER_REG_BITMODE 3 0,
       .write NRF52840_TIMER_REG_INTENSET 0x10000 0,
       .write NRF52840_TIMER_TASK_START 1 0]).timer = some 0 ∧
    (∀ i, i < 4 →
      (timer_run timer_reset_state
        [.write NRF52840_TIMER_REG_BITMODE 3 0,
         .write NRF52840_TIMER_REG_INTENSET 0x10000 0,
         .write NRF52840_TIMER_TASK_START 1 0,
         .expire 0]).events_compare i = 1) ∧
    (timer_run timer_reset_state
      [.write NRF52840_TIMER_REG_BITMODE 3 0,
       .write NRF52840_TIMER_REG_INTENSET 0x10000 0,
       .write NRF52840_TIMER_TASK_START 1 0,
       .expire 0]).irq = true := by
  refine ⟨by decide, by decide, by decide, by decide, ?_, by decide, by decide, by decide, ?_,
    by decide⟩
  · intro i hi
    interval_cases i <;> decide
  · intro i hi
    interval_cases i <;> decide

/-- C29: for every timer state, with c' = (counter + 1) mod 2^w (w = bitwidth(bitmode)):
in counter mode (mode = 1) a write of 1 to TASK_COUNT sets events_compare[i] to 1 for
exactly those i < 4 with cc[i] = c' and keeps the other flags, and leaves counter = 0 if
some such i has shorts bit i set and counter = c' otherwise.  If mode is not 1, or the
written value is not 1, the write leaves every register of the timer as it was: the
resulting state is the old one with the interrupt line driven again from the unchanged
flags and enables, and it is the old state outright whenever the line already agreed with
them (as it does after every write and every expiry). -/
theorem timer_write_task_count_rule (s : NRF52840TimerState) (v : Nat) (now : Int) :
    (s.mode = 1 →
      (∀ i, i < 4 →
        (nrf52840_timer_write s NRF52840_TIMER_TASK_COUNT 1 now).events_compare i
          = if s.cc i = (s.counter + 1) % 2 ^ bitwidths s.bitmode then 1
            else s.events_compare i) ∧
      ((∃ i, i < 4 ∧ s.cc i = (s.counter + 1) % 2 ^ bitwidths s.bitmode ∧
          s.shorts.testBit i = true) →
        (nrf52840_timer_write s NRF52840_TIMER_TASK_COUNT 1 now).counter = 0) ∧
      ((¬ ∃ i, i < 4 ∧ s.cc i = (s.counter + 1) % 2 ^ bitwidths s.bitmode ∧
          s.shorts.testBit i = true) →
        (nrf52840_timer_write s NRF52840_TIMER_TASK_COUNT 1 now).counter
          = (s.counter + 1) % 2 ^ bitwidths s.bitmode)) ∧
    ((s.mode ≠ 1 ∨ v ≠ 1) →
      nrf52840_timer_write s NRF52840_TIMER_TASK_COUNT v now
        = { s with irq := (nrf52840_timer_write s NRF52840_TIMER_TASK_COUNT v now).irq } ∧
      ((s.irq = true ↔
          ∃ i, i < 4 ∧ s.events_compare i ≠ 0 ∧ s.inten.testBit (16 + i) = true) →
        nrf52840_timer_write s NRF52840_TIMER_TASK_COUNT v now = s)) := by
  constructor
  · intro hm
    have hw : nrf52840_timer_write s NRF52840_TIMER_TASK_COUNT 1 now
        = update_irq (counter_compare
            { s with counter := (s.counter + 1) % 4294967296 % BIT (bitwidths s.bitmode) }) := by
      show update_irq (nrf52840_timer_write_switch s NRF52840_TIMER_TASK_COUNT 1 now) = _
      rw [timer_write_switch_at_count]
      unfold timer_write_task_count
      rw [if_pos ⟨rfl, hm⟩]
    have hcnt : (s.counter + 1) % 4294967296 % BIT (bitwidths s.bitmode)
        = (s.counter + 1) % 2 ^ bitwidths s.bitmode := mod32_mod_width s.bitmode _
    rw [hcnt] at hw
    rw [hw]
    exact counter_compare_fields
      { s with counter := (s.counter + 1) % 2 ^ bitwidths s.bitmode }
  · intro h
    have hw : nrf52840_timer_write s NRF52840_TIMER_TASK_COUNT v now = update_irq s := by
      show update_irq (nrf52840_timer_write_switch s NRF52840_TIMER_TASK_COUNT v now) = _
      rw [timer_write_switch_at_count]
      unfold timer_write_task_count
      rw [if_neg]
      rintro ⟨h1, h2⟩
      rcases h with h | h
      · exact h h2
      · exact h h1
    rw [hw]
    exact ⟨update_irq_fields s, fun hi => update_irq_eq_self s hi⟩

/-- C29 (witness): counter mode, 16-bit, CC[1] = 1 with SHORTS = 0x2, CC[2] = 2,
counter 0.  TASK_COUNT := 1 counts to 1, which matches CC[1]: events_compare[1] is set and
the counter is cleared by the shortcut.  TASK_COUNT := 0 changes nothing, and neither does
TASK_COUNT := 1 on the reset state, which is in timer mode. -/
theorem timer_write_task_count_rule_witness :
    timer_counter_mode_state.mode = 1 ∧ timer_counter_mode_state.counter = 0 ∧
    (nrf52840_timer_write timer_counter_mode_state NRF52840_TIMER_TASK_COUNT 1 0).events_compare 1
      = 1 ∧
    (nrf52840_timer_write timer_counter_mode_state NRF52840_TIMER_TASK_COUNT 1 0).events_compare 2
      = 0 ∧
    (nrf52840_timer_write timer_counter_mode_state NRF52840_TIMER_TASK_COUNT 1 0).counter = 0 ∧
    nrf52840_timer_write timer_counter_mode_state NRF52840_TIMER_TASK_COUNT 0 0
      = timer_counter_mode_state ∧
    nrf52840_timer_write timer_reset_state NRF52840_TIMER_TASK_COUNT 1 0 = timer_reset_state :=
  ⟨by decide, by decide,
    (((timer_write_task_count_rule timer_counter_mode_state 1 0).1 (by decide)).1
      1 (by decide)).trans (by decide),
    (((timer_write_task_count_rule timer_counter_mode_state 1 0).1 (by decide)).1
      2 (by decide)).trans (by decide),
    ((timer_write_task_count_rule timer_counter_mode_state 1 0).1 (by decide)).2.1
      ⟨1, by decide, by decide, by decide⟩,
    ((timer_write_task_count_rule timer_counter_mode_state 0 0).2
      (Or.inr (by decide))).2
      ⟨fun h => absurd h (by decide),
        fun ⟨i, hi, h1, _⟩ => absurd h1 (by interval_cases i <;> decide)⟩,
    ((timer_write_task_count_rule timer_reset_state 1 0).2
      (Or.inl (by decide))).2
      ⟨fun h => absurd h (by decide),
        fun ⟨i, hi, h1, _⟩ => absurd h1 (by interval_cases i <;> decide)⟩⟩

/-- C30: for every timer state and every now with 0 <= now - update_counter_ns < 2^63 (in
particular for prescaler in 0..15 and counter < 2^w, w = bitwidth(bitmode)),
`update_counter` leaves counter = (old counter + T) mod 2^w, where
T = floor((now - update_counter_ns) * (64000000 >> prescaler) / 10^9) is the exact
integer floor, although the code returns, and adds, T truncated to 32 bits; and it sets
update_counter_ns = now.  With prescaler = 9 the frequency is 64000000 / 512 = 125000. -/
theorem timer_update_counter_exact (s : NRF52840TimerState) (now : Int)
    (h0 : 0 ≤ now - s.update_counter_ns)
    (h1 : now - s.update_counter_ns < 9223372036854775808) :
    (update_counter s now).1.counter
      = (s.counter
          + (now - s.update_counter_ns).toNat * (64000000 >>> s.prescaler) / 1000000000)
        % 2 ^ bitwidths s.bitmode ∧
    (update_counter s now).2
      = (now - s.update_counter_ns).toNat * (64000000 >>> s.prescaler) / 1000000000
        % 4294967296 ∧
    (update_counter s now).1.update_counter_ns = now ∧
    TIMER_CLK_FREQ >>> 9 = 125000 ∧ TIMER_CLK_FREQ / 512 = 125000 := by
  have hdvd : 2 ^ bitwidths s.bitmode ∣ 4294967296 :=
    show 2 ^ bitwidths s.bitmode ∣ 2 ^ 32 from pow_dvd_pow 2 (bitwidths_le s.bitmode)
  refine ⟨?_, ns_to_ticks_exact s _ h0 h1, rfl, by decide, by decide⟩
  rw [update_counter_counter, ns_to_ticks_exact s _ h0 h1, Nat.add_mod,
    Nat.mod_mod_of_dvd _ hdvd, ← Nat.add_mod]

/-- C30 (witness): prescaler 9 (125000 Hz), 16-bit mode, counter 0 anchored at time 0.
At now = 40000000000000 ns (40000 s) the exact tick count is 5000000000, which exceeds
32 bits; the code adds its truncation 705032704, and the counter is 61952 either way.
At now = 1000000 ns (1 ms) the counter is 125. -/
theorem timer_update_counter_exact_witness :
    (0 ≤ (40000000000000 : Int) - timer_prescaler9_state.update_counter_ns ∧
      (40000000000000 : Int) - timer_prescaler9_state.update_counter_ns
        < 9223372036854775808) ∧
    timer_prescaler9_state.prescaler = 9 ∧ timer_prescaler9_state.counter = 0 ∧
    bitwidths timer_prescaler9_state.bitmode = 16 ∧
    ((40000000000000 : Int) - timer_prescaler9_state.update_counter_ns).toNat
      * (64000000 >>> timer_prescaler9_state.prescaler) / 1000000000 = 5000000000 ∧
    (update_counter timer_prescaler9_state 40000000000000).2 = 705032704 ∧
    (update_counter timer_prescaler9_state 40000000000000).1.counter = 61952 ∧
    (update_counter timer_prescaler9_state 40000000000000).1.update_counter_ns
      = 40000000000000 ∧
    (update_counter timer_prescaler9_state 1000000).1.counter = 125 :=
  ⟨⟨by decide, by decide⟩, by decide, by decide, by decide, by decide,
    (timer_update_counter_exact timer_prescaler9_state 40000000000000 (by decide)
      (by decide)).2.1.trans (by decide),
    (timer_update_counter_exact timer_prescaler9_state 40000000000000 (by decide)
      (by decide)).1.trans (by decide),
    (timer_update_counter_exact timer_prescaler9_state 40000000000000 (by decide)
      (by decide)).2.2.1,
    (timer_update_counter_exact timer_prescaler9_state 1000000 (by decide)
      (by decide)).1.trans (by decide)⟩

/-! ### Timer: scheduled expiry -/

/-- C31 (code at the failing input): 16-bit mode, prescaler 0, counter 0 reconciled at
now = 0, CC[0] = 100 with its flag clear (CC[1..3] = 0 are a full wrap away).
`rearm_timer` at 0 schedules D = 1562 ns, the rounded-down 1562.5 ns of 100 ticks, and
index 0 attains that minimum; `timer_expire` at D = 1562 sees only 99 ticks, leaves
events_compare[0] clear and the counter at 99, and rearms for 1577. -/
theorem timer_scheduled_expiry_misses :
    timer_cc0_at_100.running = true ∧ timer_cc0_at_100.prescaler = 0 ∧
    timer_cc0_at_100.bitmode = 0 ∧ timer_cc0_at_100.counter = 0 ∧
    timer_cc0_at_100.cc 0 = 100 ∧ timer_cc0_at_100.update_counter_ns = 0 ∧
    timer_cc0_at_100.events_compare 0 = 0 ∧
    (rearm_timer timer_cc0_at_100 0).timer = some 1562 ∧
    rearm_timer_iter timer_cc0_at_100 INT64_MAX 0 = 1562 ∧
    rearm_min timer_cc0_at_100 = 1562 ∧
    ns_to_ticks timer_cc0_at_100 (1562 - timer_cc0_at_100.update_counter_ns) = 99 ∧
    (timer_expire timer_cc0_at_100 1562).events_compare 0 = 0 ∧
    (timer_expire timer_cc0_at_100 1562).counter = 99 ∧
    (timer_expire timer_cc0_at_100 1562).timer = some 1577 := by
  refine ⟨by decide, by decide, by decide, by decide, by decide, by decide, by decide,
    by decide, by decide, by decide, by decide, by decide, by decide, by decide⟩

/-! ### RTC: reads of COUNTER, prescaler -/

/-- C32 (code at the failing input): a running RTC with prescaler 0 and anchor 0 (START on
the reset state at time 0).  A COUNTER read at 30000 ns returns 0 and moves the anchor to
30000; a second read at 31000 ns returns 0 again, while a single read at 31000 ns from the
same starting state returns 1 (one tick is about 30518 ns). -/
theorem rtc_counter_reads_lose_time :
    rtc_just_started.running = true ∧ rtc_just_started.prescaler = 0 ∧
    rtc_just_started.update_counter_ns = 0 ∧
    (RTC.nrf52840_rtc_read rtc_just_started RTC.NRF52840_RTC_REG_COUNTER 30000).2 = 0 ∧
    (RTC.nrf52840_rtc_read rtc_just_started RTC.NRF52840_RTC_REG_COUNTER 30000).1.update_counter_ns
      = 30000 ∧
    (RTC.nrf52840_rtc_read
      (RTC.nrf52840_rtc_read rtc_just_started RTC.NRF52840_RTC_REG_COUNTER 30000).1
      RTC.NRF52840_RTC_REG_COUNTER 31000).2 = 0 ∧
    (RTC.nrf52840_rtc_read rtc_just_started RTC.NRF52840_RTC_REG_COUNTER 31000).2 = 1 := by
  refine ⟨by decide, by decide, by decide, by decide, by decide, by decide, by decide⟩

/-- C33 (code at the failing input): a stopped RTC (START at time 0, STOP one second
later; stored counter 0, no host-timer deadline).  A COUNTER read at 3 s returns 98304, not
the stored 0, stores that counter and arms the host timer, although running is still
false; a read at 600 s also sets events_compare[0]. -/
theorem rtc_stopped_counter_read_counts :
    rtc_stopped_state.running = false ∧ rtc_stopped_state.counter = 0 ∧
    rtc_stopped_state.timer = none ∧ rtc_stopped_state.events_compare 0 = 0 ∧
    (RTC.nrf52840_rtc_read rtc_stopped_state RTC.NRF52840_RTC_REG_COUNTER 3000000000).2
      = 98304 ∧
    (RTC.nrf52840_rtc_read rtc_stopped_state RTC.NRF52840_RTC_REG_COUNTER 3000000000).1.counter
      = 98304 ∧
    (RTC.nrf52840_rtc_read rtc_stopped_state RTC.NRF52840_RTC_REG_COUNTER 3000000000).1.timer
      = some 512000000000 ∧
    (RTC.nrf52840_rtc_read rtc_stopped_state RTC.NRF52840_RTC_REG_COUNTER 3000000000).1.running
      = false ∧
    (RTC.nrf52840_rtc_read rtc_stopped_state
      RTC.NRF52840_RTC_REG_COUNTER 600000000000).1.events_compare 0 = 1 := by
  refine ⟨by decide, by decide, by decide, by decide, by decide, by decide, by decide,
    by decide, by decide⟩

/-- C34 (code at the failing input): the PRESCALER register keeps twelve bits, so the
write PRESCALER := 16 on the reset state stores 16; the frequency 32768 >> 16 used as the
divisor in `ticks_to_ns` is then 0, and the call `ticks_to_ns(s, s->counter)` of
TASK_START := 1 divides by zero.  In general the divisor after a write of v to PRESCALER
is 0 exactly when v & 0xFFF is 16 or more, and 4095 is a value the register can hold. -/
theorem rtc_prescaler_zero_frequency :
    rtc_prescaler16_state.prescaler = 16 ∧
    RTC.clk_freq rtc_prescaler16_state = 0 ∧
    rtc_ticks_to_ns_checked rtc_prescaler16_state rtc_prescaler16_state.counter = none ∧
    (rtc_write_task_start_checked rtc_prescaler16_state 1 0).isSome = false ∧
    (rtc_write_task_start_checked RTC.rtc_reset_state 1 0).isSome = true ∧
    (∀ (s : RTC.NRF52840RTCState) (v : Nat) (now : Int),
      (RTC.nrf52840_rtc_write s RTC.NRF52840_RTC_REG_PRESCALER v now).prescaler = v &&& 0xFFF ∧
      (RTC.clk_freq (RTC.nrf52840_rtc_write s RTC.NRF52840_RTC_REG_PRESCALER v now) = 0 ↔
        16 ≤ v &&& 0xFFF)) ∧
    (4095 : Nat) &&& 0xFFF = 4095 := by
  refine ⟨by decide, by decide, by decide, by decide, by decide, ?_, by decide⟩
  intro s v now
  have hp : (RTC.nrf52840_rtc_write s RTC.NRF52840_RTC_REG_PRESCALER v now).prescaler
      = v &&& 0xFFF := rfl
  refine ⟨hp, ?_⟩
  rw [rtc_clk_freq_eq_zero_iff, hp]

/-! ### NVM: page erase bounds, store algebra -/

/-- C35 (code at the failing input): a flash of 2048 bytes with EEN set.  The bound
flash_size - 4096 of the range check wraps to 4294965248, so the page-aligned values 0 and
0x3000 pass it: ERASEPCR0 := 0 sets the bytes at indices 2048..4095 to 0xFF (index 3000
among them), and ERASEPCR1 := 0x3000 sets the bytes at indices 12288..16383, all outside
[0, flash_size). -/
theorem io_write_page_erase_out_of_bounds :
    nvm_small_een.flash_size = 2048 ∧
    nvm_small_een.config &&& NRF52840_NVMC_CONFIG_EEN ≠ 0 ∧
    (nvm_small_een.flash_size + 4294967296 - NRF52840_PAGE_SIZE) % 4294967296 = 4294965248 ∧
    ¬ 3000 < nvm_small_een.flash_size ∧
    nvm_small_een.storage 3000 = 0 ∧
    (io_write nvm_small_een NRF52840_NVMC_ERASEPCR0 0).storage 3000 = 0xFF ∧
    nvm_small_een.storage 0x3000 = 0 ∧
    (io_write nvm_small_een NRF52840_NVMC_ERASEPCR1 0x3000).storage 0x3000 = 0xFF ∧
    (io_write nvm_small_een NRF52840_NVMC_ERASEPCR1 0x3000).storage 0x3FFF = 0xFF := by
  refine ⟨by decide, by decide, by decide, by decide, by decide, by decide, by decide,
    by decide, by decide⟩

/-- C36: for every NVM state with WEN set and every offset with offset + 4 inside the
flash, and all values a and b: each flash store succeeds, storing a and then b at the same
offset leaves the same state (hence the same storage) as the single store of a AND b;
consequently storing a then b equals storing b then a, and storing a twice equals storing a
once. -/
theorem flash_write_and_algebra (s : NRF52840NVMState) (offset a b : Nat)
    (hwen : s.config &&& NRF52840_NVMC_CONFIG_WEN ≠ 0)
    (hoff : offset + 4 ≤ s.flash_size) :
    (flash_write s offset (a &&& b) 4).isSome = true ∧
    (flash_write s offset a 4).bind (fun s1 => flash_write s1 offset b 4)
      = flash_write s offset (a &&& b) 4 ∧
    (flash_write s offset a 4).bind (fun s1 => flash_write s1 offset b 4)
      = (flash_write s offset b 4).bind (fun s1 => flash_write s1 offset a 4) ∧
    (flash_write s offset a 4).bind (fun s1 => flash_write s1 offset a 4)
      = flash_write s offset a 4 := by
  refine ⟨?_, flash_write_twice s offset a b 4, ?_, ?_⟩
  · simp only [flash_write, if_pos hwen, if_pos hoff, Option.isSome_some]
  · rw [flash_write_twice, flash_write_twice, Nat.land_comm]
  · rw [flash_write_twice, Nat.and_self]

/-- C36 (witness): on the erased flash with WEN set, storing 0x12345678 and then
0xF0F0F0F0 at offset 0 leaves the word 0x10305070, as do the stores in the other order and
the single store of 0x12345678 AND 0xF0F0F0F0 = 0x10305070. -/
theorem flash_write_and_algebra_witness :
    (nvm_erased_wen.config &&& NRF52840_NVMC_CONFIG_WEN ≠ 0 ∧
      0 + 4 ≤ nvm_erased_wen.flash_size) ∧
    ((flash_write nvm_erased_wen 0 0x12345678 4).bind
        (fun s1 => flash_write s1 0 0xF0F0F0F0 4)
      = flash_write nvm_erased_wen 0 (0x12345678 &&& 0xF0F0F0F0) 4) ∧
    ((flash_write nvm_erased_wen 0 0x12345678 4).bind
        (fun s1 => flash_write s1 0 0xF0F0F0F0 4)
      = (flash_write nvm_erased_wen 0 0xF0F0F0F0 4).bind
        (fun s1 => flash_write s1 0 0x12345678 4)) ∧
    (0x12345678 &&& 0xF0F0F0F0 : Nat) = 0x10305070 ∧
    (((flash_write nvm_erased_wen 0 0x12345678 4).bind
        (fun s1 => flash_write s1 0 0xF0F0F0F0 4)).map (fun s2 => flash_read_word s2 0))
      = some 0x10305070 ∧
    (((flash_write nvm_erased_wen 0 0xF0F0F0F0 4).bind
        (fun s1 => flash_write s1 0 0x12345678 4)).map (fun s2 => flash_read_word s2 0))
      = some 0x10305070 :=
  ⟨⟨by decide, by decide⟩,
    (flash_write_and_algebra nvm_erased_wen 0 0x12345678 0xF0F0F0F0 (by decide)
      (by decide)).2.1,
    (flash_write_and_algebra nvm_erased_wen 0 0x12345678 0xF0F0F0F0 (by decide)
      (by decide)).2.2.1,
    by decide, by decide, by decide⟩

/-! ### Clock controller: started flags -/

/-- C37: for every clock state, every address and every value, after the MMIO write
hfclk_started is set exactly when it was set before or the write is TASKS_HFCLKSTART := 1,
and lfclk_started exactly when it was set before or the write is TASKS_LFCLKSTART := 1; so
a started flag that is set is still set after any write, in particular after writes to the
HFCLKSTOP and LFCLKSTOP offsets 0x004 and 0x00C, which leave both flags as they were.
Reset clears both flags. -/
theorem clock_started_never_cleared (s : NRF52840CLOCKState) (addr value : Nat) :
    (clock_write s addr value).hfclk_started
      = (s.hfclk_started || decide (addr = A_CLOCK_TASKS_HFCLKSTART ∧ value = 1)) ∧
    (clock_write s addr value).lfclk_started
      = (s.lfclk_started || decide (addr = A_CLOCK_TASKS_LFCLKSTART ∧ value = 1)) ∧
    (s.hfclk_started = true → (clock_write s addr value).hfclk_started = true) ∧
    (s.lfclk_started = true → (clock_write s addr value).lfclk_started = true) ∧
    (clock_write s 0x004 value).hfclk_started = s.hfclk_started ∧
    (clock_write s 0x004 value).lfclk_started = s.lfclk_started ∧
    (clock_write s 0x00C value).hfclk_started = s.hfclk_started ∧
    (clock_write s 0x00C value).lfclk_started = s.lfclk_started ∧
    (nrf52840_clock_reset s).hfclk_started = false ∧
    (nrf52840_clock_reset s).lfclk_started = false := by
  obtain ⟨hh, hl⟩ := clock_write_switch_started s addr value
  have hh2 : (clock_write s addr value).hfclk_started
      = (s.hfclk_started || decide (addr = A_CLOCK_TASKS_HFCLKSTART ∧ value = 1)) := hh
  have hl2 : (clock_write s addr value).lfclk_started
      = (s.lfclk_started || decide (addr = A_CLOCK_TASKS_LFCLKSTART ∧ value = 1)) := hl
  refine ⟨hh2, hl2, ?_, ?_, rfl, rfl, rfl, rfl, rfl, rfl⟩
  · intro h
    rw [hh2, h, Bool.true_or]
  · intro h
    rw [hl2, h, Bool.true_or]


end NRF52840

